import Mathlib

/-! # Reflow oven controller: PID regulator, phase sequencer, thermocouple driver

A shallow embedding of `Core/Src/pid.c`, `Core/Src/reflow_oven_process.c` and
`Core/Src/max6675.c` of the reflow oven firmware, followed by theorems about
them.

Modelling conventions.

* A C `float` is an exact rational number (`ℚ`): the arithmetic is that of the
  reals, restricted to values one can compute with. Infinities and NaN are
  outside the model, and so is rounding, with one exception: a product that is
  converted to `uint32_t` is first rounded to single precision (`f32_mul`),
  because the conversion turns a rounding error of the product into a
  different whole number.
* A `uint32_t` is a natural number; the one operation of the source that can
  wrap, the subtraction `currentTimeMs - phaseStartTime`, is taken modulo
  `2 ^ 32` (`u32_sub`).
* The two file-scope objects `ReflowOven` and `PID` are fields of an explicit
  `Memory`. `ReflowOven_operate` receives a pointer to a controller, which is
  either the address of the global `PID` or of some other controller object;
  `PIDRef` names the two cases and `Memory.other` holds the other object.
* Functions that return a value and change state return a pair
  `(value, new state)`.
-/

/-! ## pid.h / pid.c -/

/-- The `PIDController` structure of `pid.h`. -/
structure PIDController where
  Kp : ℚ
  Ki : ℚ
  Kd : ℚ
  tau : ℚ
  limMin : ℚ
  limMax : ℚ
  limMinInt : ℚ
  limMaxInt : ℚ
  T : ℚ
  integrator : ℚ
  prevError : ℚ
  differentiator : ℚ
  prevMeasurement : ℚ
  out : ℚ
deriving DecidableEq

/-- Function `PID_Init` (pid.c, lines 24-63): stores gains, limits and sample time and
zeroes the five memory fields. All fields of the object are written, so the
result does not depend on the previous contents. -/
def PID_Init (kp ki kd tau limMin limMax limMinInt limMaxInt t : ℚ) : PIDController :=
  { Kp := kp, Ki := ki, Kd := kd
    tau := tau
    limMin := limMin, limMax := limMax
    limMinInt := limMinInt, limMaxInt := limMaxInt
    T := t
    integrator := 0
    prevError := 0
    differentiator := 0
    prevMeasurement := 0
    out := 0 }

/-- Function `PID_Reset` (pid.c, lines 66-73). -/
def PID_Reset (pid : PIDController) : PIDController :=
  { pid with
    integrator := 0
    prevError := 0
    differentiator := 0
    prevMeasurement := 0
    out := 0 }

/-- The integrator of `PID_Update` after accumulation and anti-windup clamp
(pid.c, lines 85-95). -/
def PID_Update_integrator (pid : PIDController) (error : ℚ) : ℚ :=
  let integrator := pid.integrator + 1 / 2 * pid.Ki * pid.T * (error + pid.prevError)
  if integrator > pid.limMaxInt then pid.limMaxInt
  else if integrator < pid.limMinInt then pid.limMinInt
  else integrator

/-- The filtered derivative term of `PID_Update` (pid.c, lines 98-100). -/
def PID_Update_differentiator (pid : PIDController) (measurement : ℚ) : ℚ :=
  -(2 * pid.Kd * (measurement - pid.prevMeasurement)
      + (2 * pid.tau - pid.T) * pid.differentiator)
    / (2 * pid.tau + pid.T)

/-- The output clamp of `PID_Update` (pid.c, lines 106-113). -/
def PID_Update_limit (pid : PIDController) (out : ℚ) : ℚ :=
  if out > pid.limMax then pid.limMax
  else if out < pid.limMin then pid.limMin
  else out

/-- Function `PID_Update` (pid.c, lines 76-121): returns the controller output and the
updated controller. -/
def PID_Update (pid : PIDController) (setpoint measurement : ℚ) : ℚ × PIDController :=
  let error := setpoint - measurement
  let proportional := pid.Kp * error
  let integrator := PID_Update_integrator pid error
  let differentiator := PID_Update_differentiator pid measurement
  let out := PID_Update_limit pid (proportional + integrator + differentiator)
  (out,
    { pid with
      integrator := integrator
      differentiator := differentiator
      out := out
      prevError := error
      prevMeasurement := measurement })

/-- Function `PID_UpdateGains` (pid.c, lines 124-129). -/
def PID_UpdateGains (pid : PIDController) (kp ki kd : ℚ) : PIDController :=
  { pid with Kp := kp, Ki := ki, Kd := kd }

/-- The controllers obtained after each call of a sequence of `PID_Update`
calls, one entry per `(setpoint, measurement)` pair, in call order. -/
def PID_Update_trace : PIDController → List (ℚ × ℚ) → List PIDController
  | _, [] => []
  | pid, (sp, meas) :: rest =>
      (PID_Update pid sp meas).2 :: PID_Update_trace (PID_Update pid sp meas).2 rest

/-! ## reflow_oven_process.h / reflow_oven_process.c -/

/-- Maximum safe temperature in degrees Celsius (line 17). -/
def MAX_SAFE_TEMPERATURE : ℚ := 250

/-- Maximum phase duration in seconds (line 20). -/
def MAX_PHASE_DURATION : Nat := 600

/-- Milliseconds to seconds conversion factor (line 23). -/
def MS_TO_S : ℚ := 1 / 1000

/-- Subtraction of two `uint32_t` values, modulo `2 ^ 32`. -/
def u32_sub (a b : Nat) : Nat :=
  (a % 4294967296 + (4294967296 - b % 4294967296)) % 4294967296

/-- The C conversion `(uint32_t)x` of a float: the fractional part is
discarded. C leaves the conversion undefined when the truncated value does not
fit; here it saturates at the ends of the range (0 and `2 ^ 32 - 1`), as the
conversion instruction of the target processor does. -/
def float_to_u32 (x : ℚ) : Nat :=
  min (Int.toNat (Rat.floor x)) 4294967295

/-- The number of halvings that bring `n` below 2, at most `fuel` of them. -/
def f32_log2_loop : Nat → Nat → Nat
  | 0, _ => 0
  | fuel + 1, n => if 2 ≤ n then f32_log2_loop fuel (n / 2) + 1 else 0

/-- The integer part of the binary logarithm of `n` (0 for `n = 0`). -/
def f32_log2 (n : Nat) : Nat :=
  f32_log2_loop n n

/-- The least `k` with `n ≤ 2 ^ k`. -/
def f32_ceilLog2 (n : Nat) : Nat :=
  if n ≤ 1 then 0 else f32_log2 (n - 1) + 1

/-- The binary exponent of a positive number `a`: the integer `e` with
`2 ^ e ≤ a < 2 ^ (e + 1)`. -/
def f32_exponent (a : ℚ) : Int :=
  if 1 ≤ a then (f32_log2 (Int.toNat (Rat.floor a)) : Int)
  else -(f32_ceilLog2 (Int.toNat (Rat.ceil (1 / a))) : Int)

/-- The power `2 ^ q` for an integer `q`. -/
def f32_twoPow (q : Int) : ℚ :=
  if 0 ≤ q then ((2 ^ q.toNat : Nat) : ℚ) else 1 / ((2 ^ (-q).toNat : Nat) : ℚ)

/-- The integer nearest to a non-negative number, a tie going to the even
neighbour. -/
def f32_nearestEven (x : ℚ) : Int :=
  let f := Rat.floor x
  if x - f < 1 / 2 then f
  else if x - f > 1 / 2 then f + 1
  else if f % 2 = 0 then f
  else f + 1

/-- Rounding of a real number to the nearest single-precision (IEEE 754
binary32) value, a tie going to the even significand: 24 significant bits for
a normal number, multiples of `2 ^ (-149)` below `2 ^ (-126)`. A number that
is too large for single precision is not turned into an infinity; it stays
above `2 ^ 32`, so `float_to_u32` saturates on it all the same. -/
def f32_round (x : ℚ) : ℚ :=
  if x = 0 then 0
  else
    let e := max (f32_exponent |x|) (-126)
    let ulp := f32_twoPow (e - 23)
    let n := f32_nearestEven (|x| / ulp)
    if x < 0 then -((n : ℚ) * ulp) else (n : ℚ) * ulp

/-- The single-precision product `x * y` of two `float` values: the exact
product, rounded once. -/
def f32_mul (x y : ℚ) : ℚ :=
  f32_round (x * y)

/-- Phases of the reflow process (`ReflowPhases_t`). -/
inductive ReflowPhases_t where
  | REFLOW_PREHEAT
  | REFLOW_SOAK
  | REFLOW_HEATUP
  | REFLOW_REFLOW
  | REFLOW_COOLDOWN
  | REFLOW_IDLE
deriving DecidableEq

/-- Parameter identifiers (`ReflowParameters_enum`). -/
inductive ReflowParameters_enum where
  | PARAM_Pre_HeatUpRate
  | PARAM_SoakTempeture
  | PARAM_SoakTime
  | PARAM_HeatUpRate
  | PARAM_ReflowTempeture
  | PARAM_ReflowTime
  | PARAM_CoolDownRate
  | PARAM_CoolDownTempeture
deriving DecidableEq

/-- Temperature and timing parameters (`ReflowOven_parameters_t`). -/
structure ReflowOven_parameters_t where
  Pre_HeatUpRate : ℚ
  SoakTempeture : ℚ
  SoakTime : ℚ
  HeatUpRate : ℚ
  ReflowTempeture : ℚ
  ReflowTime : ℚ
  CoolDownRate : ℚ
  CoolDownTempeture : ℚ
deriving DecidableEq

/-- The sequencer object (`ReflowOven_t`). -/
structure ReflowOven_t where
  ReflowParameters : ReflowOven_parameters_t
  currentPhase : ReflowPhases_t
  NextPhase : ReflowPhases_t
  phaseStartTime : Nat
  currentSetpoint : ℚ
  emergencyStop : Bool
  temperatureAtPhaseStart : ℚ
deriving DecidableEq

/-- The objects the sequencer code reads and writes: the globals `ReflowOven`
and `PID`, and one further controller object that a caller of
`ReflowOven_operate` may pass instead of the global one. -/
structure Memory where
  ReflowOven : ReflowOven_t
  PID : PIDController
  other : PIDController
deriving DecidableEq

/-- The value of the `PIDController *` argument of `ReflowOven_operate`. -/
inductive PIDRef where
  | global
  | other
deriving DecidableEq

/-- Pointer dereference for reading. -/
def Memory.load (m : Memory) : PIDRef → PIDController
  | .global => m.PID
  | .other => m.other

/-- Pointer dereference for writing. -/
def Memory.store (m : Memory) (p : PIDRef) (c : PIDController) : Memory :=
  match p with
  | .global => { m with PID := c }
  | .other => { m with other := c }

open ReflowPhases_t ReflowParameters_enum

/-- Function `ReflowOven_Init` (lines 37-69): every field of `ReflowOven` is written. -/
def ReflowOven_Init : ReflowOven_t :=
  { ReflowParameters :=
      { Pre_HeatUpRate := 1 / 2
        SoakTempeture := 150
        SoakTime := 60
        HeatUpRate := 1
        ReflowTempeture := 220
        ReflowTime := 30
        CoolDownRate := 1
        CoolDownTempeture := 50 }
    currentPhase := REFLOW_IDLE
    NextPhase := REFLOW_IDLE
    phaseStartTime := 0
    currentSetpoint := 25
    emergencyStop := false
    temperatureAtPhaseStart := 25 }

/-- Function `ReflowOven_modifyParameters` (lines 71-178): the result and the new value
of `ReflowOven`. -/
def ReflowOven_modifyParameters (o : ReflowOven_t) (parameterUpdate : ReflowParameters_enum)
    (newParameterValue : ℚ) : Bool × ReflowOven_t :=
  if o.currentPhase ≠ REFLOW_IDLE then (false, o)
  else
    match parameterUpdate with
    | PARAM_Pre_HeatUpRate =>
        if newParameterValue > 0 ∧ newParameterValue ≤ 2 then
          (true, { o with ReflowParameters :=
            { o.ReflowParameters with Pre_HeatUpRate := newParameterValue } })
        else (false, o)
    | PARAM_SoakTempeture =>
        if newParameterValue ≥ 100 ∧ newParameterValue ≤ 180 then
          (true, { o with ReflowParameters :=
            { o.ReflowParameters with SoakTempeture := newParameterValue } })
        else (false, o)
    | PARAM_SoakTime =>
        if newParameterValue ≥ 30 ∧ newParameterValue ≤ 180 then
          (true, { o with ReflowParameters :=
            { o.ReflowParameters with SoakTime := newParameterValue } })
        else (false, o)
    | PARAM_HeatUpRate =>
        if newParameterValue > 0 ∧ newParameterValue ≤ 3 then
          (true, { o with ReflowParameters :=
            { o.ReflowParameters with HeatUpRate := newParameterValue } })
        else (false, o)
    | PARAM_ReflowTempeture =>
        if newParameterValue ≥ 200 ∧ newParameterValue ≤ 240 then
          (true, { o with ReflowParameters :=
            { o.ReflowParameters with ReflowTempeture := newParameterValue } })
        else (false, o)
    | PARAM_ReflowTime =>
        if newParameterValue ≥ 10 ∧ newParameterValue ≤ 90 then
          (true, { o with ReflowParameters :=
            { o.ReflowParameters with ReflowTime := newParameterValue } })
        else (false, o)
    | PARAM_CoolDownRate =>
        if newParameterValue > 0 ∧ newParameterValue ≤ 5 then
          (true, { o with ReflowParameters :=
            { o.ReflowParameters with CoolDownRate := newParameterValue } })
        else (false, o)
    | PARAM_CoolDownTempeture =>
        if newParameterValue ≥ 25 ∧ newParameterValue ≤ 100 then
          (true, { o with ReflowParameters :=
            { o.ReflowParameters with CoolDownTempeture := newParameterValue } })
        else (false, o)

/-- Function `ReflowOven_startProcess` (lines 180-191). -/
def ReflowOven_startProcess (o : ReflowOven_t) : Bool × ReflowOven_t :=
  if o.currentPhase ≠ REFLOW_IDLE then (false, o)
  else (true, { o with NextPhase := REFLOW_PREHEAT })

/-- Function `ReflowOven_stopProcess` (lines 193-200). -/
def ReflowOven_stopProcess (o : ReflowOven_t) : ReflowOven_t :=
  if o.currentPhase ≠ REFLOW_IDLE then { o with NextPhase := REFLOW_COOLDOWN }
  else o

/-- Function `ReflowOven_transitionToPhase` (lines 356-404). The controller it resets is
the global `PID`, whatever controller the caller of `ReflowOven_operate`
passed. -/
def ReflowOven_transitionToPhase (m : Memory) (newPhase : ReflowPhases_t)
    (currentTemperature : ℚ) (currentTimeMs : Nat) : Memory :=
  let o1 : ReflowOven_t :=
    { m.ReflowOven with
      temperatureAtPhaseStart := currentTemperature
      phaseStartTime := currentTimeMs
      currentPhase := newPhase }
  let pid1 : PIDController :=
    if newPhase = REFLOW_IDLE ∨ newPhase = REFLOW_PREHEAT then PID_Reset m.PID else m.PID
  let o2 : ReflowOven_t :=
    match newPhase with
    | REFLOW_PREHEAT => { o1 with currentSetpoint := currentTemperature }
    | REFLOW_SOAK => { o1 with currentSetpoint := o1.ReflowParameters.SoakTempeture }
    | REFLOW_HEATUP => { o1 with currentSetpoint := currentTemperature }
    | REFLOW_REFLOW => { o1 with currentSetpoint := o1.ReflowParameters.ReflowTempeture }
    | REFLOW_COOLDOWN => { o1 with currentSetpoint := currentTemperature }
    | REFLOW_IDLE => { o1 with currentSetpoint := 25, emergencyStop := false }
  { m with ReflowOven := o2, PID := pid1 }

/-- The over-temperature check of `ReflowOven_operate` (lines 208-213). -/
def ReflowOven_operate_safetyCheck (o : ReflowOven_t) (currentTemperature : ℚ) : ReflowOven_t :=
  if currentTemperature > MAX_SAFE_TEMPERATURE then
    { o with emergencyStop := true, NextPhase := REFLOW_IDLE }
  else o

/-- The pending transition of `ReflowOven_operate` (lines 215-219). -/
def ReflowOven_operate_transition (m : Memory) (currentTemperature : ℚ) (currentTimeMs : Nat) :
    Memory :=
  if m.ReflowOven.NextPhase ≠ m.ReflowOven.currentPhase then
    ReflowOven_transitionToPhase m m.ReflowOven.NextPhase currentTemperature currentTimeMs
  else m

/-- The safety timeout of `ReflowOven_operate` (lines 224-228). -/
def ReflowOven_operate_timeout (o : ReflowOven_t) (elapsedTimeMs : Nat) : ReflowOven_t :=
  if elapsedTimeMs > MAX_PHASE_DURATION * 1000 ∧ o.currentPhase ≠ REFLOW_IDLE then
    { o with NextPhase := REFLOW_COOLDOWN }
  else o

/-- The `switch (ReflowOven.currentPhase)` of `ReflowOven_operate`
(lines 231-327). The two timed tests (lines 259 and 291) compare the elapsed
milliseconds with `(uint32_t)(time * 1000)`: the product is a `float`
product, rounded to single precision before the conversion discards its
fraction. -/
def ReflowOven_operate_phase (o : ReflowOven_t) (currentTemperature : ℚ) (elapsedTimeMs : Nat) :
    ReflowOven_t :=
  match o.currentPhase with
  | REFLOW_PREHEAT =>
      let targetSetpoint := o.temperatureAtPhaseStart
        + o.ReflowParameters.Pre_HeatUpRate * (elapsedTimeMs : ℚ) * MS_TO_S
      let targetSetpoint :=
        if targetSetpoint > o.ReflowParameters.SoakTempeture then o.ReflowParameters.SoakTempeture
        else targetSetpoint
      let o1 := { o with currentSetpoint := targetSetpoint }
      if currentTemperature ≥ o1.ReflowParameters.SoakTempeture then
        { o1 with NextPhase := REFLOW_SOAK }
      else o1
  | REFLOW_SOAK =>
      let o1 := { o with currentSetpoint := o.ReflowParameters.SoakTempeture }
      if elapsedTimeMs ≥ float_to_u32 (f32_mul o1.ReflowParameters.SoakTime 1000) then
        { o1 with NextPhase := REFLOW_HEATUP }
      else o1
  | REFLOW_HEATUP =>
      let targetSetpoint := o.temperatureAtPhaseStart
        + o.ReflowParameters.HeatUpRate * (elapsedTimeMs : ℚ) * MS_TO_S
      let targetSetpoint :=
        if targetSetpoint > o.ReflowParameters.ReflowTempeture then
          o.ReflowParameters.ReflowTempeture
        else targetSetpoint
      let o1 := { o with currentSetpoint := targetSetpoint }
      if currentTemperature ≥ o1.ReflowParameters.ReflowTempeture then
        { o1 with NextPhase := REFLOW_REFLOW }
      else o1
  | REFLOW_REFLOW =>
      let o1 := { o with currentSetpoint := o.ReflowParameters.ReflowTempeture }
      if elapsedTimeMs ≥ float_to_u32 (f32_mul o1.ReflowParameters.ReflowTime 1000) then
        { o1 with NextPhase := REFLOW_COOLDOWN }
      else o1
  | REFLOW_COOLDOWN =>
      let targetSetpoint := o.temperatureAtPhaseStart
        - o.ReflowParameters.CoolDownRate * (elapsedTimeMs : ℚ) * MS_TO_S
      let targetSetpoint :=
        if targetSetpoint < o.ReflowParameters.CoolDownTempeture then
          o.ReflowParameters.CoolDownTempeture
        else targetSetpoint
      let o1 := { o with currentSetpoint := targetSetpoint }
      if currentTemperature ≤ o1.ReflowParameters.CoolDownTempeture then
        { o1 with NextPhase := REFLOW_IDLE }
      else o1
  | REFLOW_IDLE => { o with currentSetpoint := 25 }

/-- Function `ReflowOven_operate` (lines 202-333): the returned controller output and
the memory after the call. -/
def ReflowOven_operate (m : Memory) (PID : PIDRef) (currentTemperature : ℚ)
    (currentTimeMs : Nat) : ℚ × Memory :=
  let m1 : Memory :=
    { m with ReflowOven := ReflowOven_operate_safetyCheck m.ReflowOven currentTemperature }
  let m2 := ReflowOven_operate_transition m1 currentTemperature currentTimeMs
  let elapsedTimeMs := u32_sub currentTimeMs m2.ReflowOven.phaseStartTime
  let o3 := ReflowOven_operate_timeout m2.ReflowOven elapsedTimeMs
  let o4 := ReflowOven_operate_phase o3 currentTemperature elapsedTimeMs
  let m4 : Memory := { m2 with ReflowOven := o4 }
  let r := PID_Update (m4.load PID) o4.currentSetpoint currentTemperature
  (r.1, m4.store PID r.2)

/-- Function `ReflowOven_getCurrentPhase` (lines 335-338). -/
def ReflowOven_getCurrentPhase (o : ReflowOven_t) : ReflowPhases_t :=
  o.currentPhase

/-- Function `ReflowOven_getPhaseElapsedTime` (lines 340-343). -/
def ReflowOven_getPhaseElapsedTime (o : ReflowOven_t) (currentTimeMs : Nat) : Nat :=
  u32_sub currentTimeMs o.phaseStartTime / 1000

/-! ## max6675.h / max6675.c

The driver structure also holds the SPI handle and the chip-select port and
pin tables; `MAX6675_Init` writes them and the other functions only read them,
so they are left out. Pointer arguments are taken to be valid (non-null), so
the `NULL` guards of the source never fire. What the functions do on the bus is
returned as a list of `BusEvent`s, and what `HAL_SPI_Receive` delivers is an
argument. -/

/-- Modelled from the spec: the result of a driver operation, success or a
failure. The source uses the type `HAL_StatusTypeDef` of the vendor HAL, whose
header is not among the sources; it has the success value `HAL_OK` and the
failure values `HAL_ERROR`, `HAL_BUSY` and `HAL_TIMEOUT`. -/
inductive HAL_StatusTypeDef where
  | HAL_OK
  | HAL_ERROR
  | HAL_BUSY
  | HAL_TIMEOUT
deriving DecidableEq

/-- Maximum number of supported devices (max6675.h, line 27). -/
def MAX6675_MAX_DEVICES : Nat := 4

/-- Dummy bit D15 (max6675.h, line 47). -/
def MAX6675_DUMMY_BIT : Nat := 0x8000

/-- Open-circuit detection bit D2 (max6675.h, line 53). -/
def MAX6675_INPUT_BIT : Nat := 0x0004

/-- Temperature data bits D14-D3 (max6675.h, line 59). -/
def MAX6675_TEMP_BITS : Nat := 0x7FF8

/-- Degrees Celsius per count (max6675.h, line 70). -/
def MAX6675_TEMP_FACTOR : ℚ := 1 / 4

/-- One channel record (`MAX6675_Device_t`); `id` and `is_connected` are
`uint8_t`, `raw_data` is `uint16_t`. -/
structure MAX6675_Device_t where
  id : Nat
  raw_data : Nat
  temperature : ℚ
  is_connected : Nat
deriving DecidableEq

/-- The driver control structure (`MAX6675_Driver_t`): the four channel records
and the device count (`uint8_t`). -/
structure MAX6675_Driver_t where
  devices : Fin 4 → MAX6675_Device_t
  device_count : Nat

/-- What one call of `HAL_SPI_Receive` delivers: its status and the two bytes
of the receive buffer after the call. -/
structure SPI_Receive_t where
  status : HAL_StatusTypeDef
  data0 : Nat
  data1 : Nat
deriving DecidableEq

/-- The bus operations the driver performs. -/
inductive BusEvent where
  | cs_reset (device_id : Nat)
  | spi_receive
  | cs_set (device_id : Nat)
deriving DecidableEq

open HAL_StatusTypeDef

/-- The frame-validity test of `MAX6675_ReadTemperature` (max6675.c,
lines 130-132). -/
def MAX6675_frame_valid (raw_data : Nat) : Bool :=
  ((raw_data &&& MAX6675_INPUT_BIT) >>> 2 == (raw_data &&& MAX6675_DUMMY_BIT) >>> 15)
    && (raw_data != 0x0000)

/-- Function `MAX6675_Init` (max6675.c, lines 21-45): clears the device count
and sets the four chip-select lines inactive. -/
def MAX6675_Init (driver : MAX6675_Driver_t) :
    HAL_StatusTypeDef × MAX6675_Driver_t × List BusEvent :=
  (HAL_OK, { driver with device_count := 0 },
    [BusEvent.cs_set 0, BusEvent.cs_set 1, BusEvent.cs_set 2, BusEvent.cs_set 3])

/-- Function `MAX6675_ReadTemperature` (max6675.c, lines 87-148). `rx` is what
the bus transfer of this call delivers. -/
def MAX6675_ReadTemperature (driver : MAX6675_Driver_t) (device_id : Nat)
    (rx : SPI_Receive_t) : HAL_StatusTypeDef × MAX6675_Driver_t × List BusEvent :=
  if h : device_id ≥ MAX6675_MAX_DEVICES then (HAL_ERROR, driver, [])
  else
    let i : Fin 4 := ⟨device_id, by unfold MAX6675_MAX_DEVICES at h; omega⟩
    let events := [BusEvent.cs_reset device_id, BusEvent.spi_receive, BusEvent.cs_set device_id]
    if rx.status ≠ HAL_OK then
      (rx.status,
        { driver with
          devices := Function.update driver.devices i { driver.devices i with is_connected := 0 } },
        events)
    else
      let raw_data := ((rx.data1 <<< 8) ||| rx.data0) % 65536
      if MAX6675_frame_valid raw_data then
        let raw_temp := (raw_data &&& MAX6675_TEMP_BITS) >>> 3
        (HAL_OK,
          { driver with
            devices := Function.update driver.devices i
              { driver.devices i with
                raw_data := raw_data
                temperature := (raw_temp : ℚ) * MAX6675_TEMP_FACTOR
                is_connected := 1 } },
          events)
      else
        (HAL_ERROR,
          { driver with
            devices := Function.update driver.devices i
              { driver.devices i with
                raw_data := raw_data
                temperature := -404
                is_connected := 0 } },
          events)

/-- Function `MAX6675_AddDevice` (max6675.c, lines 55-78). `rx` is what the bus
transfer of the validating read delivers. -/
def MAX6675_AddDevice (driver : MAX6675_Driver_t) (device_id : Nat) (rx : SPI_Receive_t) :
    HAL_StatusTypeDef × MAX6675_Driver_t × List BusEvent :=
  if h : device_id ≥ MAX6675_MAX_DEVICES then (HAL_ERROR, driver, [])
  else if driver.device_count ≥ MAX6675_MAX_DEVICES then (HAL_ERROR, driver, [])
  else
    let i : Fin 4 := ⟨device_id, by unfold MAX6675_MAX_DEVICES at h; omega⟩
    let driver1 : MAX6675_Driver_t :=
      { devices := Function.update driver.devices i
          { id := device_id, raw_data := 0, temperature := 0, is_connected := 0 }
        device_count := (driver.device_count + 1) % 256 }
    MAX6675_ReadTemperature driver1 device_id rx

/-- Function `MAX6675_GetTemperature` (max6675.c, lines 158-174). The argument
`temperature` is the content of the output location before the call and the
last component of the result its content after the call. -/
def MAX6675_GetTemperature (driver : MAX6675_Driver_t) (device_id : Nat) (temperature : ℚ) :
    HAL_StatusTypeDef × MAX6675_Driver_t × ℚ :=
  if h : device_id ≥ MAX6675_MAX_DEVICES then (HAL_ERROR, driver, temperature)
  else
    let i : Fin 4 := ⟨device_id, by unfold MAX6675_MAX_DEVICES at h; omega⟩
    if (driver.devices i).is_connected = 0 then (HAL_ERROR, driver, temperature)
    else (HAL_OK, driver, (driver.devices i).temperature)

/-- Function `MAX6675_IsConnected` (max6675.c, lines 183-191). -/
def MAX6675_IsConnected (driver : MAX6675_Driver_t) (device_id : Nat) : Nat :=
  if h : device_id ≥ MAX6675_MAX_DEVICES then 0
  else (driver.devices ⟨device_id, by unfold MAX6675_MAX_DEVICES at h; omega⟩).is_connected

/-! ## Sequences of calls -/

/-- One call of the control surface of the sequencer. -/
inductive Call where
  | startProcess
  | stopProcess
  | modifyParameters (parameterUpdate : ReflowParameters_enum) (newParameterValue : ℚ)
  | operate (PID : PIDRef) (currentTemperature : ℚ) (currentTimeMs : Nat)

/-- The memory after one call. -/
def Call.exec (m : Memory) : Call → Memory
  | .startProcess => { m with ReflowOven := (ReflowOven_startProcess m.ReflowOven).2 }
  | .stopProcess => { m with ReflowOven := ReflowOven_stopProcess m.ReflowOven }
  | .modifyParameters id v => { m with ReflowOven := (ReflowOven_modifyParameters m.ReflowOven id v).2 }
  | .operate p t now => (ReflowOven_operate m p t now).2

/-- The memory after a sequence of calls, first call first. -/
def runCalls (m : Memory) (calls : List Call) : Memory :=
  calls.foldl Call.exec m

/-- The changes of `currentPhase` that the transition table allows. -/
def legalPhaseChange : ReflowPhases_t → ReflowPhases_t → Bool
  | REFLOW_IDLE, REFLOW_PREHEAT => true
  | REFLOW_PREHEAT, REFLOW_SOAK => true
  | REFLOW_SOAK, REFLOW_HEATUP => true
  | REFLOW_HEATUP, REFLOW_REFLOW => true
  | REFLOW_REFLOW, REFLOW_COOLDOWN => true
  | REFLOW_COOLDOWN, REFLOW_IDLE => true
  | REFLOW_PREHEAT, REFLOW_COOLDOWN => true
  | REFLOW_SOAK, REFLOW_COOLDOWN => true
  | REFLOW_HEATUP, REFLOW_COOLDOWN => true
  | REFLOW_PREHEAT, REFLOW_IDLE => true
  | REFLOW_SOAK, REFLOW_IDLE => true
  | REFLOW_HEATUP, REFLOW_IDLE => true
  | REFLOW_REFLOW, REFLOW_IDLE => true
  | _, _ => false

/-- The staging rule of the transition table for a tick that finds the
sequencer settled, as the specification words it. The two timed conditions
(soak time elapsed, reflow time elapsed) are arguments, so that the table can be
read with either notion of "elapsed-in-phase ≥ time". -/
def transitionTable (o : ReflowOven_t) (t : ℚ) (soakTimeElapsed reflowTimeElapsed : Bool) :
    ReflowPhases_t :=
  match o.currentPhase with
  | REFLOW_PREHEAT =>
      if t ≥ o.ReflowParameters.SoakTempeture then REFLOW_SOAK else REFLOW_PREHEAT
  | REFLOW_SOAK => if soakTimeElapsed then REFLOW_HEATUP else REFLOW_SOAK
  | REFLOW_HEATUP =>
      if t ≥ o.ReflowParameters.ReflowTempeture then REFLOW_REFLOW else REFLOW_HEATUP
  | REFLOW_REFLOW => if reflowTimeElapsed then REFLOW_COOLDOWN else REFLOW_REFLOW
  | REFLOW_COOLDOWN =>
      if t ≤ o.ReflowParameters.CoolDownTempeture then REFLOW_IDLE else REFLOW_COOLDOWN
  | REFLOW_IDLE => REFLOW_IDLE

/-- The legal ranges of the eight parameters, as `ReflowOven_modifyParameters`
checks them. -/
@[reducible]
def ReflowParameters_inRange (q : ReflowOven_parameters_t) : Prop :=
  (0 < q.Pre_HeatUpRate ∧ q.Pre_HeatUpRate ≤ 2) ∧
  (100 ≤ q.SoakTempeture ∧ q.SoakTempeture ≤ 180) ∧
  (30 ≤ q.SoakTime ∧ q.SoakTime ≤ 180) ∧
  (0 < q.HeatUpRate ∧ q.HeatUpRate ≤ 3) ∧
  (200 ≤ q.ReflowTempeture ∧ q.ReflowTempeture ≤ 240) ∧
  (10 ≤ q.ReflowTime ∧ q.ReflowTime ≤ 90) ∧
  (0 < q.CoolDownRate ∧ q.CoolDownRate ≤ 5) ∧
  (25 ≤ q.CoolDownTempeture ∧ q.CoolDownTempeture ≤ 100)

/-- The value of the parameter that an identifier names. -/
def ReflowOven_parameters_t.get (q : ReflowOven_parameters_t) : ReflowParameters_enum → ℚ
  | PARAM_Pre_HeatUpRate => q.Pre_HeatUpRate
  | PARAM_SoakTempeture => q.SoakTempeture
  | PARAM_SoakTime => q.SoakTime
  | PARAM_HeatUpRate => q.HeatUpRate
  | PARAM_ReflowTempeture => q.ReflowTempeture
  | PARAM_ReflowTime => q.ReflowTime
  | PARAM_CoolDownRate => q.CoolDownRate
  | PARAM_CoolDownTempeture => q.CoolDownTempeture

/-- Whether a call is a tick (`ReflowOven_operate`). -/
def Call.isOperate : Call → Bool
  | .operate _ _ _ => true
  | _ => false

/-- The memory after `ReflowOven_Init`, with arbitrary controller objects. -/
def initialMemory (pid other : PIDController) : Memory :=
  { ReflowOven := ReflowOven_Init, PID := pid, other := other }

/-- Either nothing is staged, or the staged phase is one the transition table
allows after the current one. -/
def stagedPhaseLegal (o : ReflowOven_t) : Prop :=
  o.NextPhase = o.currentPhase ∨ legalPhaseChange o.currentPhase o.NextPhase = true

/-- The legal range of each parameter, as `ReflowOven_modifyParameters` tests it. -/
def parameterAccepted : ReflowParameters_enum → ℚ → Prop
  | PARAM_Pre_HeatUpRate, v => v > 0 ∧ v ≤ 2
  | PARAM_SoakTempeture, v => v ≥ 100 ∧ v ≤ 180
  | PARAM_SoakTime, v => v ≥ 30 ∧ v ≤ 180
  | PARAM_HeatUpRate, v => v > 0 ∧ v ≤ 3
  | PARAM_ReflowTempeture, v => v ≥ 200 ∧ v ≤ 240
  | PARAM_ReflowTime, v => v ≥ 10 ∧ v ≤ 90
  | PARAM_CoolDownRate, v => v > 0 ∧ v ≤ 5
  | PARAM_CoolDownTempeture, v => v ≥ 25 ∧ v ≤ 100

/-- The per-tick setpoint table of the specification: the setpoint for the
phase of `o`, with `e` the elapsed-in-phase time in seconds. -/
def setpointTable (o : ReflowOven_t) (e : ℚ) : ℚ :=
  match o.currentPhase with
  | REFLOW_PREHEAT =>
      min (o.temperatureAtPhaseStart + o.ReflowParameters.Pre_HeatUpRate * e)
        o.ReflowParameters.SoakTempeture
  | REFLOW_SOAK => o.ReflowParameters.SoakTempeture
  | REFLOW_HEATUP =>
      min (o.temperatureAtPhaseStart + o.ReflowParameters.HeatUpRate * e)
        o.ReflowParameters.ReflowTempeture
  | REFLOW_REFLOW => o.ReflowParameters.ReflowTempeture
  | REFLOW_COOLDOWN =>
      max (o.temperatureAtPhaseStart - o.ReflowParameters.CoolDownRate * e)
        o.ReflowParameters.CoolDownTempeture
  | REFLOW_IDLE => 25

/-- A successful bus transfer that delivers the 16-bit frame `frame`, low byte
in `data[0]` and high byte in `data[1]`. -/
def frameReceived (frame : Nat) : SPI_Receive_t :=
  { status := HAL_OK, data0 := frame % 256, data1 := frame / 256 % 256 }

/-- The sequencer is ramping in PREHEAT since time `now0` from the temperature
`t0` with the parameters of `ReflowOven_Init`, and nothing is staged. -/
def preheatRamping (now0 : Nat) (t0 : ℚ) (o : ReflowOven_t) : Prop :=
  o.currentPhase = REFLOW_PREHEAT ∧ o.NextPhase = REFLOW_PREHEAT ∧
    o.phaseStartTime = now0 ∧ o.temperatureAtPhaseStart = t0 ∧
    o.ReflowParameters = ReflowOven_Init.ReflowParameters

/-- A list of ticks as calls: one `ReflowOven_operate` call per
`(controller, measured temperature, time)` triple, in order. -/
def ticksAt (ticks : List (PIDRef × ℚ × Nat)) : List Call :=
  ticks.map (fun x => Call.operate x.1 x.2.1 x.2.2)

/-- The controller after a sequence of `PID_Update` calls, one per
`(setpoint, measurement)` pair, in call order. -/
def PID_Update_seq (pid : PIDController) (inputs : List (ℚ × ℚ)) : PIDController :=
  inputs.foldl (fun c x => (PID_Update c x.1 x.2).2) pid

/-- Clamping a value to the interval from `lo` to `hi`. -/
def clampTo (x lo hi : ℚ) : ℚ :=
  max lo (min x hi)

/-- The reference definition of the controller update, in the words of the
specification: trapezoidal accumulation clamped afterwards, the filtered
derivative on the measurement, and the clamped sum as output. -/
def PID_Update_reference (pid : PIDController) (setpoint measurement : ℚ) :
    ℚ × PIDController :=
  let e := setpoint - measurement
  let newIntegrator :=
    clampTo (pid.integrator + 1 / 2 * pid.Ki * pid.T * (e + pid.prevError))
      pid.limMinInt pid.limMaxInt
  let newDifferentiator :=
    -(2 * pid.Kd * (measurement - pid.prevMeasurement)
        + (2 * pid.tau - pid.T) * pid.differentiator) / (2 * pid.tau + pid.T)
  let output := clampTo (pid.Kp * e + newIntegrator + newDifferentiator) pid.limMin pid.limMax
  (output,
    { Kp := pid.Kp, Ki := pid.Ki, Kd := pid.Kd
      tau := pid.tau
      limMin := pid.limMin, limMax := pid.limMax
      limMinInt := pid.limMinInt, limMaxInt := pid.limMaxInt
      T := pid.T
      integrator := newIntegrator
      prevError := e
      differentiator := newDifferentiator
      prevMeasurement := measurement
      out := output })

/-- The configuration constraint of the specification for `PID_Init`: a
positive sample time, a non-negative filter constant and strictly ordered
limits. -/
@[reducible]
def PID_configValid (tau limMin limMax limMinInt limMaxInt t : ℚ) : Prop :=
  t > 0 ∧ tau ≥ 0 ∧ limMin < limMax ∧ limMinInt < limMaxInt

/-! ## Concrete states used as examples -/

/-- The sequencer as `ReflowOven_Init` leaves it, but settled in phase `p`. -/
def ovenSettledIn (p : ReflowPhases_t) : ReflowOven_t :=
  { ReflowOven_Init with currentPhase := p, NextPhase := p }

/-- A controller with gains 2, 1, 1, filter constant 1, output limits 0..100,
integrator limits -10..10 and a sample time of one second. -/
def examplePID : PIDController :=
  PID_Init 2 1 1 1 0 100 (-10) 10 1

/-- A memory whose sequencer is settled in phase `p`. -/
def memorySettledIn (p : ReflowPhases_t) : Memory :=
  { ReflowOven := ovenSettledIn p, PID := examplePID, other := examplePID }

/-- A memory whose sequencer is settled in SOAK with a soak time of
60 + 1/2048 seconds (60.00048828125), a single-precision value that
`ReflowOven_modifyParameters` accepts. -/
def memorySoakFractional : Memory :=
  { ReflowOven :=
      { ovenSettledIn REFLOW_SOAK with
        ReflowParameters := { ReflowOven_Init.ReflowParameters with SoakTime := 122881 / 2048 } }
    PID := examplePID
    other := examplePID }

/-- A driver with one registered device whose four channel records hold a good
reading of 100 degrees (frame `0x0C80`). -/
def exampleDriver : MAX6675_Driver_t :=
  { devices := fun i => { id := i, raw_data := 0x0C80, temperature := 100, is_connected := 1 }
    device_count := 1 }

/-- A controller like `examplePID` that has accumulated memory. -/
def usedPID : PIDController :=
  { examplePID with integrator := 5, prevError := 3, differentiator := 2, prevMeasurement := 40 }

/-- The controller that the pointer argument names at the moment
`ReflowOven_operate` calls `PID_Update` (line 330), that is, in the memory left
by the over-temperature check and the pending transition (lines 208-219). -/
def ReflowOven_operate_controllerAtUpdate (m : Memory) (PID : PIDRef) (currentTemperature : ℚ)
    (currentTimeMs : Nat) : PIDController :=
  (ReflowOven_operate_transition
    { m with ReflowOven := ReflowOven_operate_safetyCheck m.ReflowOven currentTemperature }
    currentTemperature currentTimeMs).load PID

/-- A memory in which a start is staged (IDLE with PREHEAT pending) and both
the global controller and the caller's controller have accumulated memory. -/
def memoryStartStaged : Memory :=
  { ReflowOven := { ReflowOven_Init with NextPhase := REFLOW_PREHEAT }
    PID := usedPID
    other := usedPID }

/-- A memory whose sequencer is settled in PREHEAT with the emergency flag
raised (the flag survives a start, so such a state arises after an
over-temperature trip in IDLE followed by a start). -/
def memoryFlaggedPreheat : Memory :=
  { ReflowOven := { ovenSettledIn REFLOW_PREHEAT with emergencyStop := true }
    PID := examplePID
    other := examplePID }

/-- Some call of the sequence, run from `m`, takes `currentPhase` from a phase
other than IDLE into IDLE. -/
def reentersIdle : Memory → List Call → Bool
  | _, [] => false
  | m, c :: rest =>
      decide (m.ReflowOven.currentPhase ≠ REFLOW_IDLE ∧
        (c.exec m).ReflowOven.currentPhase = REFLOW_IDLE) || reentersIdle (c.exec m) rest

/-! ## Basic facts about the embedding -/

theorem Memory.store_ReflowOven (m : Memory) (p : PIDRef) (c : PIDController) :
    (m.store p c).ReflowOven = m.ReflowOven := by
  cases p <;> rfl

theorem ReflowOven_operate_timeout_currentPhase (o : ReflowOven_t) (e : Nat) :
    (ReflowOven_operate_timeout o e).currentPhase = o.currentPhase := by
  unfold ReflowOven_operate_timeout
  split_ifs <;> rfl

theorem ReflowOven_operate_phase_currentPhase (o : ReflowOven_t) (t : ℚ) (e : Nat) :
    (ReflowOven_operate_phase o t e).currentPhase = o.currentPhase := by
  unfold ReflowOven_operate_phase
  split <;> simp only [] <;> split_ifs <;> simp_all

/-- The sequencer object after a tick, stage by stage. -/
theorem ReflowOven_operate_ReflowOven (m : Memory) (p : PIDRef) (t : ℚ) (now : Nat) :
    (ReflowOven_operate m p t now).2.ReflowOven =
      ReflowOven_operate_phase
        (ReflowOven_operate_timeout
          (ReflowOven_operate_transition
            { m with ReflowOven := ReflowOven_operate_safetyCheck m.ReflowOven t } t now).ReflowOven
          (u32_sub now (ReflowOven_operate_transition
            { m with ReflowOven := ReflowOven_operate_safetyCheck m.ReflowOven t } t now
              ).ReflowOven.phaseStartTime))
        t
        (u32_sub now (ReflowOven_operate_transition
            { m with ReflowOven := ReflowOven_operate_safetyCheck m.ReflowOven t } t now
              ).ReflowOven.phaseStartTime) := by
  simp [ReflowOven_operate, Memory.store_ReflowOven]

/-- The phase after a tick is the phase the pending-transition stage settles. -/
theorem ReflowOven_operate_currentPhase (m : Memory) (p : PIDRef) (t : ℚ) (now : Nat) :
    (ReflowOven_operate m p t now).2.ReflowOven.currentPhase =
      (ReflowOven_operate_transition
        { m with ReflowOven := ReflowOven_operate_safetyCheck m.ReflowOven t } t now
          ).ReflowOven.currentPhase := by
  rw [ReflowOven_operate_ReflowOven, ReflowOven_operate_phase_currentPhase,
    ReflowOven_operate_timeout_currentPhase]

theorem ReflowOven_transitionToPhase_currentPhase (m : Memory) (ph : ReflowPhases_t) (t : ℚ)
    (now : Nat) : (ReflowOven_transitionToPhase m ph t now).ReflowOven.currentPhase = ph := by
  cases ph <;> rfl

/-- After the pending-transition stage the current phase is the phase that was
staged. -/
theorem ReflowOven_operate_transition_currentPhase (m : Memory) (t : ℚ) (now : Nat) :
    (ReflowOven_operate_transition m t now).ReflowOven.currentPhase = m.ReflowOven.NextPhase := by
  unfold ReflowOven_operate_transition
  split_ifs with h
  · exact ReflowOven_transitionToPhase_currentPhase _ _ _ _
  · simp only [ne_eq, not_not] at h
    exact h.symm

/-- The over-temperature stage stages IDLE and raises the flag. -/
theorem ReflowOven_operate_safetyCheck_hot (o : ReflowOven_t) (t : ℚ) (ht : t > 250) :
    ReflowOven_operate_safetyCheck o t = { o with emergencyStop := true, NextPhase := REFLOW_IDLE } := by
  simp [ReflowOven_operate_safetyCheck, MAX_SAFE_TEMPERATURE, ht]

/-- The over-temperature stage does nothing at 250 degrees or below. -/
theorem ReflowOven_operate_safetyCheck_cool (o : ReflowOven_t) (t : ℚ) (ht : t ≤ 250) :
    ReflowOven_operate_safetyCheck o t = o := by
  simp [ReflowOven_operate_safetyCheck, MAX_SAFE_TEMPERATURE, not_lt.mpr ht]

theorem ReflowOven_operate_timeout_emergencyStop (o : ReflowOven_t) (e : Nat) :
    (ReflowOven_operate_timeout o e).emergencyStop = o.emergencyStop := by
  unfold ReflowOven_operate_timeout
  split_ifs <;> rfl

theorem ReflowOven_operate_phase_emergencyStop (o : ReflowOven_t) (t : ℚ) (e : Nat) :
    (ReflowOven_operate_phase o t e).emergencyStop = o.emergencyStop := by
  unfold ReflowOven_operate_phase
  split <;> simp only [] <;> split_ifs <;> simp_all

/-- The flag after a tick is the flag the pending-transition stage leaves. -/
theorem ReflowOven_operate_emergencyStop (m : Memory) (p : PIDRef) (t : ℚ) (now : Nat) :
    (ReflowOven_operate m p t now).2.ReflowOven.emergencyStop =
      (ReflowOven_operate_transition
        { m with ReflowOven := ReflowOven_operate_safetyCheck m.ReflowOven t } t now
          ).ReflowOven.emergencyStop := by
  rw [ReflowOven_operate_ReflowOven, ReflowOven_operate_phase_emergencyStop,
    ReflowOven_operate_timeout_emergencyStop]

/-- An over-temperature tick in a running phase ends in IDLE with the emergency
flag cleared again: the transition into IDLE that the interlock triggers resets
the flag the interlock has just set. -/
theorem ReflowOven_operate_hot_running (m : Memory) (p : PIDRef) (t : ℚ) (now : Nat)
    (hph : m.ReflowOven.currentPhase ≠ REFLOW_IDLE) (ht : t > 250) :
    (ReflowOven_operate m p t now).2.ReflowOven.currentPhase = REFLOW_IDLE ∧
      (ReflowOven_operate m p t now).2.ReflowOven.emergencyStop = false := by
  rw [ReflowOven_operate_currentPhase, ReflowOven_operate_emergencyStop,
    ReflowOven_operate_safetyCheck_hot _ _ ht]
  have hne : REFLOW_IDLE ≠ m.ReflowOven.currentPhase := fun h => hph h.symm
  simp [ReflowOven_operate_transition, ReflowOven_transitionToPhase, hne]

/-- A tick at 250 degrees or below that finds nothing pending goes straight to
the timeout and phase stages. -/
theorem ReflowOven_operate_settled (m : Memory) (p : PIDRef) (t : ℚ) (now : Nat)
    (hset : m.ReflowOven.NextPhase = m.ReflowOven.currentPhase) (ht : t ≤ 250) :
    (ReflowOven_operate m p t now).2.ReflowOven =
      ReflowOven_operate_phase
        (ReflowOven_operate_timeout m.ReflowOven (u32_sub now m.ReflowOven.phaseStartTime))
        t (u32_sub now m.ReflowOven.phaseStartTime) := by
  rw [ReflowOven_operate_ReflowOven, ReflowOven_operate_safetyCheck_cool _ _ ht]
  simp [ReflowOven_operate_transition, hset]

/-- A tick at 250 degrees or below makes the staged phase the current one. -/
theorem ReflowOven_operate_cool_currentPhase (m : Memory) (p : PIDRef) (t : ℚ) (now : Nat)
    (ht : t ≤ 250) :
    (ReflowOven_operate m p t now).2.ReflowOven.currentPhase = m.ReflowOven.NextPhase := by
  rw [ReflowOven_operate_currentPhase, ReflowOven_operate_safetyCheck_cool _ _ ht]
  exact ReflowOven_operate_transition_currentPhase _ _ _

theorem ReflowOven_operate_timeout_idle (o : ReflowOven_t) (e : Nat)
    (h : e ≤ 600000 ∨ o.currentPhase = REFLOW_IDLE) :
    ReflowOven_operate_timeout o e = o := by
  unfold ReflowOven_operate_timeout MAX_PHASE_DURATION
  rcases h with h | h
  · rw [if_neg]
    intro hc
    omega
  · rw [if_neg]
    intro hc
    exact hc.2 h

theorem ReflowOven_operate_timeout_fired (o : ReflowOven_t) (e : Nat)
    (he : e > 600000) (hph : o.currentPhase ≠ REFLOW_IDLE) :
    ReflowOven_operate_timeout o e = { o with NextPhase := REFLOW_COOLDOWN } := by
  unfold ReflowOven_operate_timeout MAX_PHASE_DURATION
  rw [if_pos]
  exact ⟨by omega, hph⟩

theorem ReflowOven_transitionToPhase_NextPhase (m : Memory) (ph : ReflowPhases_t) (t : ℚ)
    (now : Nat) :
    (ReflowOven_transitionToPhase m ph t now).ReflowOven.NextPhase = m.ReflowOven.NextPhase := by
  cases ph <;> rfl

/-- The pending-transition stage leaves the sequencer settled. -/
theorem ReflowOven_operate_transition_settled (m : Memory) (t : ℚ) (now : Nat) :
    (ReflowOven_operate_transition m t now).ReflowOven.NextPhase =
      (ReflowOven_operate_transition m t now).ReflowOven.currentPhase := by
  rw [ReflowOven_operate_transition_currentPhase]
  unfold ReflowOven_operate_transition
  split_ifs
  · exact ReflowOven_transitionToPhase_NextPhase _ _ _ _
  · rfl

/-- From a settled sequencer the timeout and phase stages stage only phases
that the transition table allows. -/
theorem ReflowOven_operate_stages_legal (o : ReflowOven_t) (t : ℚ) (e : Nat)
    (hset : o.NextPhase = o.currentPhase) :
    stagedPhaseLegal (ReflowOven_operate_phase (ReflowOven_operate_timeout o e) t e) := by
  have hto : ReflowOven_operate_timeout o e = o ∨
      (o.currentPhase ≠ REFLOW_IDLE ∧
        ReflowOven_operate_timeout o e = { o with NextPhase := REFLOW_COOLDOWN }) := by
    unfold ReflowOven_operate_timeout
    split_ifs with h
    · exact Or.inr ⟨h.2, rfl⟩
    · exact Or.inl rfl
  rcases hto with hto | ⟨hrun, hto⟩ <;> rw [hto] <;>
    unfold stagedPhaseLegal ReflowOven_operate_phase <;>
    cases hph : o.currentPhase <;> simp only [hph] <;>
    first
      | exact absurd hph hrun
      | (split_ifs <;> simp [legalPhaseChange, hset, hph])
      | simp [legalPhaseChange, hset, hph]

/-- A rejected edit returns false and leaves the sequencer object as it was. -/
theorem ReflowOven_modifyParameters_rejected (o : ReflowOven_t) (id : ReflowParameters_enum) (v : ℚ)
    (h : ¬ (o.currentPhase = REFLOW_IDLE ∧ parameterAccepted id v)) :
    ReflowOven_modifyParameters o id v = (false, o) := by
  by_cases hi : o.currentPhase = REFLOW_IDLE
  · have hr : ¬ parameterAccepted id v := fun hr => h ⟨hi, hr⟩
    cases id <;>
      simp only [ReflowOven_modifyParameters, hi, ne_eq, not_true_eq_false, if_false] <;>
      exact if_neg hr
  · simp [ReflowOven_modifyParameters, hi]

/-- An accepted edit returns true, writes the named parameter and nothing else. -/
theorem ReflowOven_modifyParameters_accepted (o : ReflowOven_t) (id : ReflowParameters_enum) (v : ℚ)
    (hi : o.currentPhase = REFLOW_IDLE) (hr : parameterAccepted id v) :
    (ReflowOven_modifyParameters o id v).1 = true ∧
    (ReflowOven_modifyParameters o id v).2.currentPhase = o.currentPhase ∧
    (ReflowOven_modifyParameters o id v).2.NextPhase = o.NextPhase ∧
    (ReflowOven_modifyParameters o id v).2.phaseStartTime = o.phaseStartTime ∧
    (ReflowOven_modifyParameters o id v).2.currentSetpoint = o.currentSetpoint ∧
    (ReflowOven_modifyParameters o id v).2.emergencyStop = o.emergencyStop ∧
    (ReflowOven_modifyParameters o id v).2.temperatureAtPhaseStart = o.temperatureAtPhaseStart ∧
    (ReflowOven_modifyParameters o id v).2.ReflowParameters.get id = v ∧
    ∀ id', id' ≠ id → (ReflowOven_modifyParameters o id v).2.ReflowParameters.get id' = o.ReflowParameters.get id' := by
  cases id <;>
    simp only [ReflowOven_modifyParameters, hi, ne_eq, not_true_eq_false, if_false] <;>
    simp only [parameterAccepted] at hr <;>
    rw [if_pos hr] <;>
    refine ⟨rfl, rfl, rfl, rfl, rfl, rfl, rfl, rfl, ?_⟩ <;>
    intro id' hne <;> cases id' <;> first | rfl | exact absurd rfl hne

/-- Every call of the control surface keeps the staged phase legal. -/
theorem Call.exec_stagedPhaseLegal (m : Memory) (c : Call)
    (h : stagedPhaseLegal m.ReflowOven) : stagedPhaseLegal (c.exec m).ReflowOven := by
  cases c with
  | startProcess =>
    unfold stagedPhaseLegal at h ⊢
    simp only [Call.exec, ReflowOven_startProcess]
    split_ifs with hi
    · exact h
    · simp only [ne_eq, not_not] at hi
      right
      simp [hi, legalPhaseChange]
  | stopProcess =>
    unfold stagedPhaseLegal at h ⊢
    simp only [Call.exec, ReflowOven_stopProcess]
    split_ifs with hi
    · cases hph : m.ReflowOven.currentPhase <;> simp_all [legalPhaseChange]
    · exact h
  | modifyParameters id v =>
    unfold stagedPhaseLegal at h ⊢
    simp only [Call.exec]
    by_cases hacc : m.ReflowOven.currentPhase = REFLOW_IDLE ∧ parameterAccepted id v
    · have hfr := ReflowOven_modifyParameters_accepted m.ReflowOven id v hacc.1 hacc.2
      rw [hfr.2.1, hfr.2.2.1]
      exact h
    · rw [ReflowOven_modifyParameters_rejected m.ReflowOven id v hacc]
      exact h
  | operate p t now =>
    simp only [Call.exec]
    rw [ReflowOven_operate_ReflowOven]
    exact ReflowOven_operate_stages_legal _ _ _ (ReflowOven_operate_transition_settled _ _ _)

/-- In every state reachable from `ReflowOven_Init` the staged phase is legal. -/
theorem runCalls_stagedPhaseLegal (pid other : PIDController) (calls : List Call) :
    stagedPhaseLegal (runCalls (initialMemory pid other) calls).ReflowOven := by
  have gen : ∀ (cs : List Call) (m : Memory), stagedPhaseLegal m.ReflowOven →
      stagedPhaseLegal (runCalls m cs).ReflowOven := by
    intro cs
    induction cs with
    | nil => intro m hm; exact hm
    | cons c rest ih =>
      intro m hm
      exact ih (c.exec m) (Call.exec_stagedPhaseLegal m c hm)
  exact gen calls _ (Or.inl rfl)

/-- A call that is not a tick leaves `currentPhase` alone. -/
theorem Call.exec_currentPhase_of_not_operate (m : Memory) (c : Call)
    (hc : c.isOperate = false) :
    (c.exec m).ReflowOven.currentPhase = m.ReflowOven.currentPhase := by
  cases c with
  | startProcess =>
    simp only [Call.exec, ReflowOven_startProcess]
    split_ifs <;> rfl
  | stopProcess =>
    simp only [Call.exec, ReflowOven_stopProcess]
    split_ifs <;> rfl
  | modifyParameters id v =>
    simp only [Call.exec]
    by_cases hacc : m.ReflowOven.currentPhase = REFLOW_IDLE ∧ parameterAccepted id v
    · exact (ReflowOven_modifyParameters_accepted m.ReflowOven id v hacc.1 hacc.2).2.1
    · rw [ReflowOven_modifyParameters_rejected m.ReflowOven id v hacc]
  | operate p t now => simp [Call.isOperate] at hc

/-- From a state whose staged phase is legal, one call either keeps
`currentPhase` or changes it along the transition table. -/
theorem Call.exec_phase_change_legal (m : Memory) (c : Call)
    (h : stagedPhaseLegal m.ReflowOven) :
    (c.exec m).ReflowOven.currentPhase = m.ReflowOven.currentPhase ∨
      legalPhaseChange m.ReflowOven.currentPhase (c.exec m).ReflowOven.currentPhase = true := by
  cases hc : c.isOperate with
  | false => exact Or.inl (Call.exec_currentPhase_of_not_operate m c hc)
  | true =>
    cases c with
    | operate p t now =>
      simp only [Call.exec]
      rw [ReflowOven_operate_currentPhase, ReflowOven_operate_transition_currentPhase]
      unfold ReflowOven_operate_safetyCheck
      split_ifs with ht
      · cases hph : m.ReflowOven.currentPhase <;> simp [legalPhaseChange]
      · rcases h with h | h
        · exact Or.inl h
        · exact Or.inr h
    | startProcess => simp [Call.isOperate] at hc
    | stopProcess => simp [Call.isOperate] at hc
    | modifyParameters id v => simp [Call.isOperate] at hc

/-- The control surface does leave IDLE: a start followed by three ticks, the
last two at the soak temperature, ends in SOAK. -/
theorem runCalls_reaches_soak :
    (runCalls (initialMemory examplePID examplePID)
      [Call.startProcess, Call.operate PIDRef.global 25 0,
        Call.operate PIDRef.global 150 1000, Call.operate PIDRef.global 150 2000]
      ).ReflowOven.currentPhase = REFLOW_SOAK := by
  decide!

/-- Masking bit `k` and shifting it down gives the bit as a number. -/
theorem and_two_pow_shiftRight (n k : Nat) : (n &&& 2 ^ k) >>> k = (n.testBit k).toNat := by
  apply Nat.eq_of_testBit_eq
  intro i
  rw [Nat.testBit_shiftRight, Nat.testBit_and, Nat.testBit_two_pow]
  cases i with
  | zero => cases h : n.testBit k <;> simp [h]
  | succ j =>
    have hne : ¬ (k = k + (j + 1)) := by omega
    cases h : n.testBit k <;> simp [hne, Nat.testBit_succ]

/-- The bytes of `frameReceived` recombine to the frame. -/
theorem frameReceived_raw (frame : Nat) (h : frame < 65536) :
    (((frameReceived frame).data1 <<< 8) ||| (frameReceived frame).data0) % 65536 = frame := by
  simp only [frameReceived]
  have h0 : frame % 256 < 2 ^ 8 := by norm_num; exact Nat.mod_lt _ (by norm_num)
  rw [Nat.shiftLeft_eq, Nat.mul_comm, ← Nat.mul_add_lt_is_or h0]
  omega

/-- The frame test in terms of the bits D2 and D15. -/
theorem MAX6675_frame_valid_iff (raw : Nat) :
    MAX6675_frame_valid raw = true ↔ (raw.testBit 2 = raw.testBit 15 ∧ raw ≠ 0) := by
  unfold MAX6675_frame_valid MAX6675_INPUT_BIT MAX6675_DUMMY_BIT
  have h2 := and_two_pow_shiftRight raw 2
  have h15 := and_two_pow_shiftRight raw 15
  norm_num at h2 h15
  rw [h2, h15]
  cases raw.testBit 2 <;> cases raw.testBit 15 <;> simp


/-- A read of a valid channel whose transfer succeeds with a valid frame. -/
theorem MAX6675_ReadTemperature_valid (driver : MAX6675_Driver_t) (id : Fin 4)
    (rx : SPI_Receive_t) (hst : rx.status = HAL_OK)
    (hv : MAX6675_frame_valid (((rx.data1 <<< 8) ||| rx.data0) % 65536) = true) :
    MAX6675_ReadTemperature driver id.val rx =
      (HAL_OK,
        { driver with
          devices := Function.update driver.devices id
            { driver.devices id with
              raw_data := ((rx.data1 <<< 8) ||| rx.data0) % 65536
              temperature :=
                ((((((rx.data1 <<< 8) ||| rx.data0) % 65536) &&& MAX6675_TEMP_BITS) >>> 3 : Nat) : ℚ)
                  * MAX6675_TEMP_FACTOR
              is_connected := 1 } },
        [BusEvent.cs_reset id.val, BusEvent.spi_receive, BusEvent.cs_set id.val]) := by
  have hid : ¬ (id.val ≥ MAX6675_MAX_DEVICES) := by
    unfold MAX6675_MAX_DEVICES
    omega
  simp [MAX6675_ReadTemperature, hid, hst, hv]

/-- A read of a valid channel whose transfer succeeds with an invalid frame. -/
theorem MAX6675_ReadTemperature_invalid (driver : MAX6675_Driver_t) (id : Fin 4)
    (rx : SPI_Receive_t) (hst : rx.status = HAL_OK)
    (hv : MAX6675_frame_valid (((rx.data1 <<< 8) ||| rx.data0) % 65536) = false) :
    MAX6675_ReadTemperature driver id.val rx =
      (HAL_ERROR,
        { driver with
          devices := Function.update driver.devices id
            { driver.devices id with
              raw_data := ((rx.data1 <<< 8) ||| rx.data0) % 65536
              temperature := -404
              is_connected := 0 } },
        [BusEvent.cs_reset id.val, BusEvent.spi_receive, BusEvent.cs_set id.val]) := by
  have hid : ¬ (id.val ≥ MAX6675_MAX_DEVICES) := by
    unfold MAX6675_MAX_DEVICES
    omega
  simp [MAX6675_ReadTemperature, hid, hst, hv]

/-- A read of a valid channel whose transfer fails. -/
theorem MAX6675_ReadTemperature_bus_failure (driver : MAX6675_Driver_t) (id : Fin 4)
    (rx : SPI_Receive_t) (hst : rx.status ≠ HAL_OK) :
    MAX6675_ReadTemperature driver id.val rx =
      (rx.status,
        { driver with
          devices := Function.update driver.devices id
            { driver.devices id with is_connected := 0 } },
        [BusEvent.cs_reset id.val, BusEvent.spi_receive, BusEvent.cs_set id.val]) := by
  have hid : ¬ (id.val ≥ MAX6675_MAX_DEVICES) := by
    unfold MAX6675_MAX_DEVICES
    omega
  simp [MAX6675_ReadTemperature, hid, hst]

/-- The timeout stage writes `NextPhase` only. -/
theorem ReflowOven_operate_timeout_frame (o : ReflowOven_t) (e : Nat) :
    ∃ n, ReflowOven_operate_timeout o e = { o with NextPhase := n } := by
  unfold ReflowOven_operate_timeout
  split_ifs
  · exact ⟨REFLOW_COOLDOWN, rfl⟩
  · exact ⟨o.NextPhase, rfl⟩

/-- Capping from above is taking the minimum. -/
theorem ite_gt_eq_min (a b : ℚ) : (if a > b then b else a) = min a b := by
  rw [min_def]
  split_ifs with h1 h2 h2
  · exact absurd h2 (not_le.mpr h1)
  · rfl
  · rfl
  · exact absurd (le_of_not_lt h1) h2

/-- Flooring from below is taking the maximum. -/
theorem ite_lt_eq_max (a b : ℚ) : (if a < b then b else a) = max a b := by
  rw [max_def]
  split_ifs with h1 h2 h2
  · rfl
  · exact absurd (le_of_lt h1) h2
  · exact le_antisymm h2 (le_of_not_lt h1)
  · rfl

/-- The phase stage sets the setpoint of the table and leaves the phase, its
start time, its start temperature and the parameters alone. -/
theorem ReflowOven_operate_phase_setpoint (o : ReflowOven_t) (t : ℚ) (e : Nat) :
    (ReflowOven_operate_phase o t e).currentSetpoint =
        setpointTable o ((e : ℚ) / 1000) ∧
      (ReflowOven_operate_phase o t e).phaseStartTime = o.phaseStartTime ∧
      (ReflowOven_operate_phase o t e).temperatureAtPhaseStart = o.temperatureAtPhaseStart ∧
      (ReflowOven_operate_phase o t e).ReflowParameters = o.ReflowParameters := by
  unfold ReflowOven_operate_phase setpointTable MS_TO_S
  cases hph : o.currentPhase <;> simp only [ite_gt_eq_min, ite_lt_eq_max] <;>
    first
      | exact ⟨rfl, rfl, rfl, rfl⟩
      | exact ⟨trivial, trivial, trivial, trivial⟩
      | (split_ifs <;> refine ⟨?_, rfl, rfl, rfl⟩ <;> first | rfl | ring_nf)

/-- The controller that the tick hands to `PID_Update`: the controller the
pointer names, read after the pending-transition stage. -/
theorem ReflowOven_operate_output (m : Memory) (p : PIDRef) (t : ℚ) (now : Nat) :
    (ReflowOven_operate m p t now).1 =
        (PID_Update
          ((ReflowOven_operate_transition
            { m with ReflowOven := ReflowOven_operate_safetyCheck m.ReflowOven t } t now).load p)
          (ReflowOven_operate m p t now).2.ReflowOven.currentSetpoint t).1 ∧
      (ReflowOven_operate m p t now).2.load p =
        (PID_Update
          ((ReflowOven_operate_transition
            { m with ReflowOven := ReflowOven_operate_safetyCheck m.ReflowOven t } t now).load p)
          (ReflowOven_operate m p t now).2.ReflowOven.currentSetpoint t).2 := by
  cases p <;> simp [ReflowOven_operate, Memory.load, Memory.store]

/-- The pending-transition stage never touches the caller's own controller. -/
theorem ReflowOven_operate_transition_other (m : Memory) (t : ℚ) (now : Nat) :
    (ReflowOven_operate_transition m t now).other = m.other := by
  unfold ReflowOven_operate_transition ReflowOven_transitionToPhase
  split_ifs <;> rfl

/-- The pending-transition stage resets the global controller exactly when it
applies a transition into IDLE or PREHEAT. -/
theorem ReflowOven_operate_transition_PID (m : Memory) (t : ℚ) (now : Nat) :
    (ReflowOven_operate_transition m t now).PID =
      if m.ReflowOven.NextPhase ≠ m.ReflowOven.currentPhase ∧
          (m.ReflowOven.NextPhase = REFLOW_IDLE ∨ m.ReflowOven.NextPhase = REFLOW_PREHEAT)
      then PID_Reset m.PID else m.PID := by
  unfold ReflowOven_operate_transition ReflowOven_transitionToPhase
  by_cases h1 : m.ReflowOven.NextPhase = m.ReflowOven.currentPhase
  · simp [h1]
  · by_cases h2 : m.ReflowOven.NextPhase = REFLOW_IDLE ∨ m.ReflowOven.NextPhase = REFLOW_PREHEAT
    · simp [h1, h2]
    · simp [h1, h2]

/-- A read of a valid channel performs one bus transaction on that channel and
writes nothing but the data fields of that channel's record. -/
theorem MAX6675_ReadTemperature_frame (driver : MAX6675_Driver_t) (id : Fin 4)
    (rx : SPI_Receive_t) :
    (MAX6675_ReadTemperature driver id.val rx).2.1.device_count = driver.device_count ∧
      (MAX6675_ReadTemperature driver id.val rx).2.2 =
        [BusEvent.cs_reset id.val, BusEvent.spi_receive, BusEvent.cs_set id.val] ∧
      (∀ j, j ≠ id →
        (MAX6675_ReadTemperature driver id.val rx).2.1.devices j = driver.devices j) ∧
      ((MAX6675_ReadTemperature driver id.val rx).2.1.devices id).id = (driver.devices id).id := by
  by_cases hst : rx.status = HAL_OK
  · cases hv : MAX6675_frame_valid (((rx.data1 <<< 8) ||| rx.data0) % 65536)
    · rw [MAX6675_ReadTemperature_invalid driver id rx hst hv]
      refine ⟨rfl, rfl, ?_, ?_⟩
      · intro j hj
        simp [Function.update_noteq hj]
      · simp
    · rw [MAX6675_ReadTemperature_valid driver id rx hst hv]
      refine ⟨rfl, rfl, ?_, ?_⟩
      · intro j hj
        simp [Function.update_noteq hj]
      · simp
  · rw [MAX6675_ReadTemperature_bus_failure driver id rx hst]
    refine ⟨rfl, rfl, ?_, ?_⟩
    · intro j hj
      simp [Function.update_noteq hj]
    · simp

/-- The setpoint table reads the phase, its start temperature and the
parameters only. -/
theorem setpointTable_congr (o o' : ReflowOven_t) (e : ℚ)
    (h1 : o'.currentPhase = o.currentPhase)
    (h2 : o'.temperatureAtPhaseStart = o.temperatureAtPhaseStart)
    (h3 : o'.ReflowParameters = o.ReflowParameters) :
    setpointTable o' e = setpointTable o e := by
  unfold setpointTable
  rw [h1, h2, h3]

/-- The pending-transition stage clears the emergency flag exactly when it
applies a transition into IDLE. -/
theorem ReflowOven_operate_transition_emergencyStop (m : Memory) (t : ℚ) (now : Nat) :
    (ReflowOven_operate_transition m t now).ReflowOven.emergencyStop =
      (if m.ReflowOven.NextPhase ≠ m.ReflowOven.currentPhase ∧
          m.ReflowOven.NextPhase = REFLOW_IDLE then false
        else m.ReflowOven.emergencyStop) := by
  unfold ReflowOven_operate_transition ReflowOven_transitionToPhase
  by_cases h : m.ReflowOven.NextPhase = m.ReflowOven.currentPhase
  · simp [h]
  · cases hn : m.ReflowOven.NextPhase <;> simp_all

/-- A transition stamps the start time and the start temperature. -/
theorem ReflowOven_transitionToPhase_stamps (m : Memory) (ph : ReflowPhases_t) (t : ℚ)
    (now : Nat) :
    (ReflowOven_transitionToPhase m ph t now).ReflowOven.phaseStartTime = now ∧
      (ReflowOven_transitionToPhase m ph t now).ReflowOven.temperatureAtPhaseStart = t ∧
      (ReflowOven_transitionToPhase m ph t now).ReflowOven.ReflowParameters =
        m.ReflowOven.ReflowParameters := by
  cases ph <;> exact ⟨rfl, rfl, rfl⟩

/-- The start time, the start temperature and the parameters after a tick are
those the pending-transition stage leaves. -/
theorem ReflowOven_operate_stamps (m : Memory) (p : PIDRef) (t : ℚ) (now : Nat) :
    (ReflowOven_operate m p t now).2.ReflowOven.phaseStartTime =
        (ReflowOven_operate_transition
          { m with ReflowOven := ReflowOven_operate_safetyCheck m.ReflowOven t } t now
            ).ReflowOven.phaseStartTime ∧
      (ReflowOven_operate m p t now).2.ReflowOven.temperatureAtPhaseStart =
        (ReflowOven_operate_transition
          { m with ReflowOven := ReflowOven_operate_safetyCheck m.ReflowOven t } t now
            ).ReflowOven.temperatureAtPhaseStart ∧
      (ReflowOven_operate m p t now).2.ReflowOven.ReflowParameters =
        (ReflowOven_operate_transition
          { m with ReflowOven := ReflowOven_operate_safetyCheck m.ReflowOven t } t now
            ).ReflowOven.ReflowParameters := by
  rw [ReflowOven_operate_ReflowOven]
  generalize (ReflowOven_operate_transition
    { m with ReflowOven := ReflowOven_operate_safetyCheck m.ReflowOven t } t now).ReflowOven = o2
  obtain ⟨n, hn⟩ := ReflowOven_operate_timeout_frame o2 (u32_sub now o2.phaseStartTime)
  rw [hn]
  obtain ⟨_, hstart, htemp, hpar⟩ :=
    ReflowOven_operate_phase_setpoint { o2 with NextPhase := n } t (u32_sub now o2.phaseStartTime)
  exact ⟨hstart, htemp, hpar⟩

/-- A call that is not a tick leaves the emergency flag alone. -/
theorem Call.exec_emergencyStop_of_not_operate (m : Memory) (c : Call)
    (hc : c.isOperate = false) :
    (c.exec m).ReflowOven.emergencyStop = m.ReflowOven.emergencyStop := by
  cases c with
  | startProcess =>
    simp only [Call.exec, ReflowOven_startProcess]
    split_ifs <;> rfl
  | stopProcess =>
    simp only [Call.exec, ReflowOven_stopProcess]
    split_ifs <;> rfl
  | modifyParameters id v =>
    simp only [Call.exec]
    by_cases hacc : m.ReflowOven.currentPhase = REFLOW_IDLE ∧ parameterAccepted id v
    · exact (ReflowOven_modifyParameters_accepted m.ReflowOven id v hacc.1 hacc.2).2.2.2.2.2.1
    · rw [ReflowOven_modifyParameters_rejected m.ReflowOven id v hacc]
  | operate p t now => simp [Call.isOperate] at hc

/-- Without wrap-around the 32-bit difference is the difference. -/
theorem u32_sub_of_le (a b : Nat) (hab : b ≤ a) (ha : a < 4294967296) :
    u32_sub a b = a - b := by
  unfold u32_sub
  omega

/-- From a sequencer ramping in PREHEAT, the timeout and phase stages of a tick
at a temperature below 150 degrees, at most 600 s into the phase, keep it
ramping and set the capped ramp as setpoint. -/
theorem preheatRamping_stages (now0 : Nat) (t0 : ℚ) (o : ReflowOven_t) (t : ℚ) (e : Nat)
    (hinv : preheatRamping now0 t0 o) (ht : t < 150) (he : e ≤ 600000) :
    preheatRamping now0 t0 (ReflowOven_operate_phase (ReflowOven_operate_timeout o e) t e) ∧
      (ReflowOven_operate_phase (ReflowOven_operate_timeout o e) t e).currentSetpoint =
        min (t0 + 1 / 2 * ((e : ℚ) / 1000)) 150 := by
  obtain ⟨hcur, hnext, hstart, htemp, hpar⟩ := hinv
  rw [ReflowOven_operate_timeout_idle _ _ (Or.inl he)]
  obtain ⟨hsp, hstart', htemp', hpar'⟩ := ReflowOven_operate_phase_setpoint o t e
  have hcur' := ReflowOven_operate_phase_currentPhase o t e
  have hnext' : (ReflowOven_operate_phase o t e).NextPhase = REFLOW_PREHEAT := by
    unfold ReflowOven_operate_phase
    simp only [hcur, hpar, ReflowOven_Init]
    rw [if_neg (not_le.mpr ht)]
    exact hnext
  refine ⟨⟨hcur'.trans hcur, hnext', hstart'.trans hstart, htemp'.trans htemp,
    hpar'.trans hpar⟩, ?_⟩
  rw [hsp]
  simp [setpointTable, hcur, htemp, hpar, ReflowOven_Init]

/-- One tick at a temperature below 150 degrees within 600 s of the phase start
keeps the sequencer ramping in PREHEAT and sets the capped ramp as setpoint. -/
theorem preheatRamping_tick (now0 : Nat) (t0 : ℚ) (m : Memory) (p : PIDRef) (t : ℚ) (now : Nat)
    (hinv : preheatRamping now0 t0 m.ReflowOven) (ht : t < 150) (hle : now0 ≤ now)
    (hdur : now - now0 ≤ 600000) (h32 : now < 4294967296) :
    preheatRamping now0 t0 (ReflowOven_operate m p t now).2.ReflowOven ∧
      (ReflowOven_operate m p t now).2.ReflowOven.currentSetpoint =
        min (t0 + 1 / 2 * (((now - now0 : Nat) : ℚ) / 1000)) 150 := by
  have hset : m.ReflowOven.NextPhase = m.ReflowOven.currentPhase := by
    rw [hinv.1, hinv.2.1]
  have hel : u32_sub now m.ReflowOven.phaseStartTime = now - now0 := by
    rw [hinv.2.2.1]
    exact u32_sub_of_le now now0 hle h32
  rw [ReflowOven_operate_settled m p t now hset (by linarith), hel]
  exact preheatRamping_stages now0 t0 m.ReflowOven t (now - now0) hinv ht hdur

/-- After a start from `ReflowOven_Init`, the first tick, at a temperature `t0`
below 150 degrees, enters PREHEAT and starts the ramp at `t0`. -/
theorem preheatRamping_first_tick (pid other : PIDController) (p : PIDRef) (t0 : ℚ) (now0 : Nat)
    (ht0 : t0 < 150) (h32 : now0 < 4294967296) :
    preheatRamping now0 t0
        (runCalls (initialMemory pid other) [Call.startProcess, Call.operate p t0 now0]).ReflowOven ∧
      (runCalls (initialMemory pid other) [Call.startProcess, Call.operate p t0 now0]
        ).ReflowOven.currentSetpoint = t0 := by
  have hzero : u32_sub now0 now0 = 0 := by
    rw [u32_sub_of_le now0 now0 (le_refl _) h32]
    omega
  have htr : preheatRamping now0 t0
      (ReflowOven_operate_transition
        { ReflowOven := { ReflowOven_Init with NextPhase := REFLOW_PREHEAT }
          PID := pid, other := other } t0 now0).ReflowOven :=
    ⟨rfl, rfl, rfl, rfl, rfl⟩
  have hrun : (runCalls (initialMemory pid other)
      [Call.startProcess, Call.operate p t0 now0]).ReflowOven =
      (ReflowOven_operate
        { ReflowOven := { ReflowOven_Init with NextPhase := REFLOW_PREHEAT }
          PID := pid, other := other } p t0 now0).2.ReflowOven := rfl
  rw [hrun, ReflowOven_operate_ReflowOven, ReflowOven_operate_safetyCheck_cool _ _ (by linarith)]
  have hst := preheatRamping_stages now0 t0 _ t0 0 htr ht0 (by norm_num)
  rw [htr.2.2.1, hzero]
  refine ⟨hst.1, ?_⟩
  rw [hst.2]
  simp
  linarith

/-- Saturating from above, then from below, is clamping when the limits are
ordered. -/
theorem saturate_eq_clampTo (x lo hi : ℚ) (h : lo ≤ hi) :
    (if x > hi then hi else if x < lo then lo else x) = clampTo x lo hi := by
  unfold clampTo
  split_ifs with h1 h2
  · rw [min_eq_right (le_of_lt h1), max_eq_right h]
  · rw [min_eq_left (not_lt.mp h1), max_eq_left (le_of_lt h2)]
  · rw [min_eq_left (not_lt.mp h1), max_eq_right (not_lt.mp h2)]

/-- Saturation between ordered limits is monotone. -/
theorem saturate_mono (x y lo hi : ℚ) (h : lo ≤ hi) (hxy : x ≤ y) :
    (if x > hi then hi else if x < lo then lo else x) ≤
      (if y > hi then hi else if y < lo then lo else y) := by
  split_ifs <;> linarith

/-- An update leaves gains, filter constant, limits and sample time alone, so a
reset after it is the reset before it. -/
theorem PID_Reset_PID_Update (pid : PIDController) (s m : ℚ) :
    PID_Reset (PID_Update pid s m).2 = PID_Reset pid := rfl

/-- A reset after any sequence of updates is the reset of the initial
controller. -/
theorem PID_Reset_PID_Update_seq (pid : PIDController) (inputs : List (ℚ × ℚ)) :
    PID_Reset (PID_Update_seq pid inputs) = PID_Reset pid := by
  induction inputs generalizing pid with
  | nil => rfl
  | cons x rest ih =>
    show PID_Reset (PID_Update_seq (PID_Update pid x.1 x.2).2 rest) = PID_Reset pid
    rw [ih, PID_Reset_PID_Update]

/-- A tick never writes a parameter. -/
theorem ReflowOven_operate_ReflowParameters (m : Memory) (p : PIDRef) (t : ℚ) (now : Nat) :
    (ReflowOven_operate m p t now).2.ReflowOven.ReflowParameters =
      m.ReflowOven.ReflowParameters := by
  rw [(ReflowOven_operate_stamps m p t now).2.2]
  unfold ReflowOven_operate_transition
  split_ifs
  · rw [(ReflowOven_transitionToPhase_stamps _ _ _ _).2.2]
    unfold ReflowOven_operate_safetyCheck
    split_ifs <;> rfl
  · unfold ReflowOven_operate_safetyCheck
    split_ifs <;> rfl

/-- An edit keeps the parameters within their legal ranges. -/
theorem ReflowOven_modifyParameters_inRange (o : ReflowOven_t) (id : ReflowParameters_enum)
    (v : ℚ) (h : ReflowParameters_inRange o.ReflowParameters) :
    ReflowParameters_inRange (ReflowOven_modifyParameters o id v).2.ReflowParameters := by
  by_cases hacc : o.currentPhase = REFLOW_IDLE ∧ parameterAccepted id v
  · obtain ⟨hi, hr⟩ := hacc
    obtain ⟨h1, h2, h3, h4, h5, h6, h7, h8⟩ := h
    cases id <;>
      simp only [ReflowOven_modifyParameters, hi, ne_eq, not_true_eq_false, if_false] <;>
      simp only [parameterAccepted] at hr <;>
      rw [if_pos hr] <;>
      exact ⟨by first | exact hr | exact h1, by first | exact hr | exact h2,
        by first | exact hr | exact h3, by first | exact hr | exact h4,
        by first | exact hr | exact h5, by first | exact hr | exact h6,
        by first | exact hr | exact h7, by first | exact hr | exact h8⟩
  · rw [ReflowOven_modifyParameters_rejected o id v hacc]
    exact h

/-- A property that holds initially and is kept by every call holds after any
sequence of calls. -/
theorem runCalls_invariant (P : Memory → Prop) (hstep : ∀ m c, P m → P (Call.exec m c))
    (calls : List Call) (m : Memory) (h0 : P m) : P (runCalls m calls) := by
  induction calls generalizing m with
  | nil => exact h0
  | cons c rest ih => exact ih (Call.exec m c) (hstep m c h0)

/-- Only an edit writes parameters, and a tick never does: every call keeps the
parameters within their legal ranges. -/
theorem Call.exec_inRange (m : Memory) (c : Call)
    (h : ReflowParameters_inRange m.ReflowOven.ReflowParameters) :
    ReflowParameters_inRange (c.exec m).ReflowOven.ReflowParameters := by
  cases c with
  | startProcess =>
    simp only [Call.exec, ReflowOven_startProcess]
    split_ifs <;> exact h
  | stopProcess =>
    simp only [Call.exec, ReflowOven_stopProcess]
    split_ifs <;> exact h
  | modifyParameters id v => exact ReflowOven_modifyParameters_inRange _ id v h
  | operate p t now =>
    simp only [Call.exec]
    rw [ReflowOven_operate_ReflowParameters]
    exact h

/-- While the sequencer is not in IDLE no call writes a parameter. -/
theorem Call.exec_ReflowParameters_of_running (m : Memory) (c : Call)
    (hrun : m.ReflowOven.currentPhase ≠ REFLOW_IDLE) :
    (c.exec m).ReflowOven.ReflowParameters = m.ReflowOven.ReflowParameters := by
  cases c with
  | startProcess =>
    simp only [Call.exec, ReflowOven_startProcess]
    split_ifs
    rfl
  | stopProcess =>
    simp only [Call.exec, ReflowOven_stopProcess]
    split_ifs
    rfl
  | modifyParameters id v =>
    simp only [Call.exec]
    rw [ReflowOven_modifyParameters_rejected m.ReflowOven id v (fun h => hrun h.1)]
  | operate p t now =>
    simp only [Call.exec]
    exact ReflowOven_operate_ReflowParameters m p t now

/-- In every state reachable from `ReflowOven_Init` the parameters are within
their legal ranges. -/
theorem runCalls_inRange (pid other : PIDController) (calls : List Call) :
    ReflowParameters_inRange (runCalls (initialMemory pid other) calls).ReflowOven.ReflowParameters :=
  runCalls_invariant (fun m => ReflowParameters_inRange m.ReflowOven.ReflowParameters)
    Call.exec_inRange calls _ (by
      show ReflowParameters_inRange ReflowOven_Init.ReflowParameters
      decide!)

/-- In IDLE the phase stage sets the ambient setpoint and nothing else. -/
theorem ReflowOven_operate_phase_idle (o : ReflowOven_t) (t : ℚ) (e : Nat)
    (h : o.currentPhase = REFLOW_IDLE) :
    ReflowOven_operate_phase o t e = { o with currentSetpoint := 25 } := by
  unfold ReflowOven_operate_phase
  simp only [h]

/-- An over-temperature tick ends in IDLE with nothing staged, the ambient
setpoint, and, when the phase was already IDLE, the flag raised and the stamps
untouched. -/
theorem ReflowOven_operate_hot (m : Memory) (p : PIDRef) (t : ℚ) (now : Nat) (ht : t > 250) :
    (ReflowOven_operate m p t now).2.ReflowOven.currentPhase = REFLOW_IDLE ∧
      (ReflowOven_operate m p t now).2.ReflowOven.NextPhase = REFLOW_IDLE ∧
      (ReflowOven_operate m p t now).2.ReflowOven.currentSetpoint = 25 ∧
      (m.ReflowOven.currentPhase = REFLOW_IDLE →
        (ReflowOven_operate m p t now).2.ReflowOven.emergencyStop = true ∧
        (ReflowOven_operate m p t now).2.ReflowOven.phaseStartTime =
          m.ReflowOven.phaseStartTime ∧
        (ReflowOven_operate m p t now).2.ReflowOven.temperatureAtPhaseStart =
          m.ReflowOven.temperatureAtPhaseStart) := by
  rw [ReflowOven_operate_ReflowOven, ReflowOven_operate_safetyCheck_hot _ _ ht]
  have key : ∀ (o2 : ReflowOven_t) (e : Nat), o2.currentPhase = REFLOW_IDLE →
      ReflowOven_operate_phase (ReflowOven_operate_timeout o2 e) t e =
        { o2 with currentSetpoint := 25 } := by
    intro o2 e h
    rw [ReflowOven_operate_timeout_idle o2 e (Or.inr h), ReflowOven_operate_phase_idle _ _ _ h]
  have hcur := ReflowOven_operate_transition_currentPhase
    { m with ReflowOven :=
        { m.ReflowOven with emergencyStop := true, NextPhase := REFLOW_IDLE } } t now
  have hnext := ReflowOven_operate_transition_settled
    { m with ReflowOven :=
        { m.ReflowOven with emergencyStop := true, NextPhase := REFLOW_IDLE } } t now
  rw [key _ _ hcur]
  refine ⟨hcur, hnext.trans hcur, rfl, ?_⟩
  intro hidle
  have htr : ReflowOven_operate_transition
      { m with ReflowOven :=
          { m.ReflowOven with emergencyStop := true, NextPhase := REFLOW_IDLE } } t now =
      { m with ReflowOven :=
          { m.ReflowOven with emergencyStop := true, NextPhase := REFLOW_IDLE } } := by
    simp [ReflowOven_operate_transition, hidle]
  rw [htr]
  exact ⟨rfl, rfl, rfl⟩

/-- At 250 degrees or below, a tick with a transition pending stamps the start
time and temperature, and a tick with nothing pending leaves them alone. -/
theorem ReflowOven_operate_cool_stamps (m : Memory) (p : PIDRef) (t : ℚ) (now : Nat)
    (ht : t ≤ 250) :
    (m.ReflowOven.NextPhase ≠ m.ReflowOven.currentPhase →
      (ReflowOven_operate m p t now).2.ReflowOven.phaseStartTime = now ∧
        (ReflowOven_operate m p t now).2.ReflowOven.temperatureAtPhaseStart = t) ∧
    (m.ReflowOven.NextPhase = m.ReflowOven.currentPhase →
      (ReflowOven_operate m p t now).2.ReflowOven.phaseStartTime =
          m.ReflowOven.phaseStartTime ∧
        (ReflowOven_operate m p t now).2.ReflowOven.temperatureAtPhaseStart =
          m.ReflowOven.temperatureAtPhaseStart) := by
  have hst := ReflowOven_operate_stamps m p t now
  rw [ReflowOven_operate_safetyCheck_cool _ _ ht] at hst
  constructor
  · intro hpend
    have hstamp := ReflowOven_transitionToPhase_stamps m m.ReflowOven.NextPhase t now
    simp only [ReflowOven_operate_transition, hpend, ne_eq, not_false_eq_true, if_true] at hst
    exact ⟨hst.1.trans hstamp.1, hst.2.1.trans hstamp.2.1⟩
  · intro hset
    simp only [ReflowOven_operate_transition, hset, ne_eq, not_true_eq_false, if_false] at hst
    exact ⟨hst.1, hst.2.1⟩

/-- With parameters in range and a non-negative elapsed time, the setpoint
table stays below the phase's temperature cap. -/
theorem setpointTable_bounds (o : ReflowOven_t) (e : ℚ) (he : 0 ≤ e)
    (hr : ReflowParameters_inRange o.ReflowParameters) :
    ((o.currentPhase = REFLOW_PREHEAT ∨ o.currentPhase = REFLOW_SOAK) →
      setpointTable o e ≤ 180) ∧
    ((o.currentPhase = REFLOW_HEATUP ∨ o.currentPhase = REFLOW_REFLOW) →
      setpointTable o e ≤ 240) ∧
    (o.currentPhase = REFLOW_COOLDOWN →
      setpointTable o e ≤ max o.temperatureAtPhaseStart o.ReflowParameters.CoolDownTempeture) ∧
    (o.currentPhase = REFLOW_IDLE → setpointTable o e = 25) := by
  obtain ⟨_, h2, _, _, h5, _, h7, h8⟩ := hr
  unfold setpointTable
  refine ⟨?_, ?_, ?_, ?_⟩
  · rintro (h | h) <;> simp only [h]
    · exact le_trans (min_le_right _ _) h2.2
    · exact h2.2
  · rintro (h | h) <;> simp only [h]
    · exact le_trans (min_le_right _ _) h5.2
    · exact h5.2
  · intro h
    simp only [h]
    apply max_le_max _ (le_refl _)
    have : 0 ≤ o.ReflowParameters.CoolDownRate * e := mul_nonneg (le_of_lt h7.1) he
    linarith
  · intro h
    simp only [h]

/-- Saturation between limits that contain 0 keeps a non-positive value
non-positive. -/
theorem saturate_nonpos (x lo hi : ℚ) (hlo : lo ≤ 0) (hhi : 0 ≤ hi) (hx : x ≤ 0) :
    (if x > hi then hi else if x < lo then lo else x) ≤ 0 := by
  split_ifs <;> linarith

/-- A reset controller with non-negative gains, whose limits contain 0, answers
a non-positive error at a non-negative measurement with a non-positive
output. -/
theorem PID_Update_reset_nonpos (c : PIDController) (s t : ℚ)
    (hKp : c.Kp ≥ 0) (hKi : c.Ki ≥ 0) (hKd : c.Kd ≥ 0) (hT : c.T > 0) (htau : c.tau ≥ 0)
    (hint : c.limMinInt ≤ 0 ∧ 0 ≤ c.limMaxInt) (hout : c.limMin ≤ 0 ∧ 0 ≤ c.limMax)
    (hs : s ≤ t) (ht : 0 ≤ t) :
    (PID_Update (PID_Reset c) s t).1 ≤ 0 := by
  have he : s - t ≤ 0 := by linarith
  have hprop : c.Kp * (s - t) ≤ 0 := mul_nonpos_of_nonneg_of_nonpos hKp he
  have hacc : (0 : ℚ) + 1 / 2 * c.Ki * c.T * (s - t + 0) ≤ 0 := by
    have h1 : 0 ≤ 1 / 2 * c.Ki * c.T := by positivity
    have := mul_nonpos_of_nonneg_of_nonpos h1 he
    simpa using this
  have hinteg : PID_Update_integrator (PID_Reset c) (s - t) ≤ 0 :=
    saturate_nonpos _ _ _ hint.1 hint.2 hacc
  have hdiff : PID_Update_differentiator (PID_Reset c) t ≤ 0 := by
    show -(2 * c.Kd * (t - 0) + (2 * c.tau - c.T) * 0) / (2 * c.tau + c.T) ≤ 0
    apply div_nonpos_of_nonpos_of_nonneg
    · have : 0 ≤ 2 * c.Kd * t := by positivity
      linarith
    · linarith
  have hsum : c.Kp * (s - t) + PID_Update_integrator (PID_Reset c) (s - t)
      + PID_Update_differentiator (PID_Reset c) t ≤ 0 := by linarith
  exact saturate_nonpos _ _ _ hout.1 hout.2 hsum

/-- The setpoint after a tick is the table value for the phase the tick
settled in. -/
theorem ReflowOven_operate_setpoint (m : Memory) (p : PIDRef) (t : ℚ) (now : Nat) :
    (ReflowOven_operate m p t now).2.ReflowOven.currentSetpoint =
      setpointTable (ReflowOven_operate m p t now).2.ReflowOven
        ((u32_sub now (ReflowOven_operate m p t now).2.ReflowOven.phaseStartTime : ℚ) / 1000) := by
  rw [ReflowOven_operate_ReflowOven]
  generalize (ReflowOven_operate_transition
    { m with ReflowOven := ReflowOven_operate_safetyCheck m.ReflowOven t } t now).ReflowOven = o2
  obtain ⟨n, hn⟩ := ReflowOven_operate_timeout_frame o2 (u32_sub now o2.phaseStartTime)
  rw [hn]
  obtain ⟨hsp, hstart, htemp, hpar⟩ :=
    ReflowOven_operate_phase_setpoint { o2 with NextPhase := n } t (u32_sub now o2.phaseStartTime)
  rw [hstart, hsp]
  exact (setpointTable_congr _ _ _ (ReflowOven_operate_phase_currentPhase _ _ _) htemp hpar).symm

/-- A tick keeps the start temperature of COOLDOWN at 250 degrees or below:
COOLDOWN is entered only by a tick that measures at most 250. -/
theorem ReflowOven_operate_cooldownStart (m : Memory) (p : PIDRef) (t : ℚ) (now : Nat)
    (hcd : m.ReflowOven.currentPhase = REFLOW_COOLDOWN →
      m.ReflowOven.temperatureAtPhaseStart ≤ 250) :
    (ReflowOven_operate m p t now).2.ReflowOven.currentPhase = REFLOW_COOLDOWN →
      (ReflowOven_operate m p t now).2.ReflowOven.temperatureAtPhaseStart ≤ 250 := by
  intro hres
  by_cases ht : t > 250
  · rw [(ReflowOven_operate_hot m p t now ht).1] at hres
    exact absurd hres (by decide)
  · have ht' : t ≤ 250 := not_lt.mp ht
    have hst := ReflowOven_operate_cool_stamps m p t now ht'
    by_cases hset : m.ReflowOven.NextPhase = m.ReflowOven.currentPhase
    · rw [(hst.2 hset).2]
      apply hcd
      rw [ReflowOven_operate_cool_currentPhase m p t now ht', hset] at hres
      exact hres
    · rw [(hst.1 hset).2]
      exact ht'

/-- The setpoint bounds after a tick, from parameters in range and a safe
start temperature of COOLDOWN. -/
theorem ReflowOven_operate_setpoint_bounds (m : Memory) (p : PIDRef) (t : ℚ) (now : Nat)
    (hr : ReflowParameters_inRange m.ReflowOven.ReflowParameters)
    (hcd : m.ReflowOven.currentPhase = REFLOW_COOLDOWN →
      m.ReflowOven.temperatureAtPhaseStart ≤ 250) :
    (ReflowOven_operate m p t now).2.ReflowOven.currentSetpoint ≤ 250 ∧
    (((ReflowOven_operate m p t now).2.ReflowOven.currentPhase = REFLOW_PREHEAT ∨
        (ReflowOven_operate m p t now).2.ReflowOven.currentPhase = REFLOW_SOAK) →
      (ReflowOven_operate m p t now).2.ReflowOven.currentSetpoint ≤ 180) ∧
    (((ReflowOven_operate m p t now).2.ReflowOven.currentPhase = REFLOW_HEATUP ∨
        (ReflowOven_operate m p t now).2.ReflowOven.currentPhase = REFLOW_REFLOW) →
      (ReflowOven_operate m p t now).2.ReflowOven.currentSetpoint ≤ 240) ∧
    ((ReflowOven_operate m p t now).2.ReflowOven.currentPhase = REFLOW_COOLDOWN →
      (ReflowOven_operate m p t now).2.ReflowOven.currentSetpoint ≤
          max (ReflowOven_operate m p t now).2.ReflowOven.temperatureAtPhaseStart
            (ReflowOven_operate m p t now).2.ReflowOven.ReflowParameters.CoolDownTempeture ∧
        (ReflowOven_operate m p t now).2.ReflowOven.temperatureAtPhaseStart ≤ 250) := by
  have hr' : ReflowParameters_inRange
      (ReflowOven_operate m p t now).2.ReflowOven.ReflowParameters := by
    rw [ReflowOven_operate_ReflowParameters]
    exact hr
  have he : (0 : ℚ) ≤
      (u32_sub now (ReflowOven_operate m p t now).2.ReflowOven.phaseStartTime : ℚ) / 1000 := by
    positivity
  have hb := setpointTable_bounds (ReflowOven_operate m p t now).2.ReflowOven _ he hr'
  rw [← ReflowOven_operate_setpoint] at hb
  have hcd' := ReflowOven_operate_cooldownStart m p t now hcd
  obtain ⟨_, _, _, _, _, _, _, h8⟩ := hr'
  refine ⟨?_, hb.1, hb.2.1, fun h => ⟨hb.2.2.1 h, hcd' h⟩⟩
  cases hph : (ReflowOven_operate m p t now).2.ReflowOven.currentPhase
  · linarith [hb.1 (Or.inl hph)]
  · linarith [hb.1 (Or.inr hph)]
  · linarith [hb.2.1 (Or.inl hph)]
  · linarith [hb.2.1 (Or.inr hph)]
  · have h1 := hb.2.2.1 hph
    have h2 := hcd' hph
    have h3 : max (ReflowOven_operate m p t now).2.ReflowOven.temperatureAtPhaseStart
        (ReflowOven_operate m p t now).2.ReflowOven.ReflowParameters.CoolDownTempeture ≤ 250 :=
      max_le h2 (by linarith [h8.2])
    linarith
  · linarith [hb.2.2.2 hph]

/-- A call that is not a tick leaves the start stamps and the setpoint alone. -/
theorem Call.exec_stamps_of_not_operate (m : Memory) (c : Call) (hc : c.isOperate = false) :
    (c.exec m).ReflowOven.phaseStartTime = m.ReflowOven.phaseStartTime ∧
      (c.exec m).ReflowOven.temperatureAtPhaseStart = m.ReflowOven.temperatureAtPhaseStart ∧
      (c.exec m).ReflowOven.currentSetpoint = m.ReflowOven.currentSetpoint := by
  cases c with
  | startProcess =>
    simp only [Call.exec, ReflowOven_startProcess]
    split_ifs <;> exact ⟨rfl, rfl, rfl⟩
  | stopProcess =>
    simp only [Call.exec, ReflowOven_stopProcess]
    split_ifs <;> exact ⟨rfl, rfl, rfl⟩
  | modifyParameters id v =>
    simp only [Call.exec]
    by_cases hacc : m.ReflowOven.currentPhase = REFLOW_IDLE ∧ parameterAccepted id v
    · obtain ⟨_, _, _, h3, h4, _, h6, _⟩ :=
        ReflowOven_modifyParameters_accepted m.ReflowOven id v hacc.1 hacc.2
      exact ⟨h3, h6, h4⟩
    · rw [ReflowOven_modifyParameters_rejected m.ReflowOven id v hacc]
      exact ⟨rfl, rfl, rfl⟩
  | operate p t now => simp [Call.isOperate] at hc

/-- In every state reachable from `ReflowOven_Init`, a sequencer in COOLDOWN
entered it at 250 degrees or below. -/
theorem runCalls_cooldownStart (pid other : PIDController) (calls : List Call) :
    (runCalls (initialMemory pid other) calls).ReflowOven.currentPhase = REFLOW_COOLDOWN →
      (runCalls (initialMemory pid other) calls).ReflowOven.temperatureAtPhaseStart ≤ 250 := by
  apply runCalls_invariant
    (fun m => m.ReflowOven.currentPhase = REFLOW_COOLDOWN →
      m.ReflowOven.temperatureAtPhaseStart ≤ 250)
  · intro m c hm
    cases hc : c.isOperate with
    | false =>
      rw [Call.exec_currentPhase_of_not_operate m c hc,
        (Call.exec_stamps_of_not_operate m c hc).2.1]
      exact hm
    | true =>
      cases c with
      | operate p t now => exact ReflowOven_operate_cooldownStart m p t now hm
      | startProcess => simp [Call.isOperate] at hc
      | stopProcess => simp [Call.isOperate] at hc
      | modifyParameters id v => simp [Call.isOperate] at hc
  · intro h
    exact absurd (show REFLOW_IDLE = REFLOW_COOLDOWN from h) (by decide)

/-- A call that finds the flag raised and leaves it cleared has taken the
sequencer from a phase other than IDLE into IDLE. -/
theorem Call.exec_emergencyStop_cleared (m : Memory) (c : Call)
    (hbefore : m.ReflowOven.emergencyStop = true)
    (hafter : (c.exec m).ReflowOven.emergencyStop = false) :
    m.ReflowOven.currentPhase ≠ REFLOW_IDLE ∧
      (c.exec m).ReflowOven.currentPhase = REFLOW_IDLE := by
  cases hc : c.isOperate with
  | false =>
    rw [Call.exec_emergencyStop_of_not_operate m c hc, hbefore] at hafter
    exact absurd hafter (by decide)
  | true =>
    cases c with
    | operate p t now =>
      simp only [Call.exec] at hafter ⊢
      rw [ReflowOven_operate_emergencyStop, ReflowOven_operate_transition_emergencyStop] at hafter
      rw [ReflowOven_operate_currentPhase, ReflowOven_operate_transition_currentPhase]
      have hflag : (ReflowOven_operate_safetyCheck m.ReflowOven t).emergencyStop = true := by
        unfold ReflowOven_operate_safetyCheck
        split_ifs
        · rfl
        · exact hbefore
      have hcur : (ReflowOven_operate_safetyCheck m.ReflowOven t).currentPhase =
          m.ReflowOven.currentPhase := by
        unfold ReflowOven_operate_safetyCheck
        split_ifs <;> rfl
      simp only [hflag, hcur] at hafter
      by_cases hcond : (ReflowOven_operate_safetyCheck m.ReflowOven t).NextPhase ≠
          m.ReflowOven.currentPhase ∧
          (ReflowOven_operate_safetyCheck m.ReflowOven t).NextPhase = REFLOW_IDLE
      · refine ⟨?_, hcond.2⟩
        intro hidle
        exact hcond.1 (by rw [hcond.2, hidle])
      · rw [if_neg hcond] at hafter
        exact absurd hafter (by decide)
    | startProcess => simp [Call.isOperate] at hc
    | stopProcess => simp [Call.isOperate] at hc
    | modifyParameters id v => simp [Call.isOperate] at hc

/-- A raised flag stays raised through any calls among which no call takes the
sequencer from a phase other than IDLE into IDLE. -/
theorem runCalls_emergencyStop_latched (calls : List Call) (m : Memory)
    (hflag : m.ReflowOven.emergencyStop = true) (hno : reentersIdle m calls = false) :
    (runCalls m calls).ReflowOven.emergencyStop = true := by
  induction calls generalizing m with
  | nil => exact hflag
  | cons c rest ih =>
    simp only [reentersIdle, Bool.or_eq_false_iff, decide_eq_false_iff_not] at hno
    have hstep : (c.exec m).ReflowOven.emergencyStop = true := by
      cases hval : (c.exec m).ReflowOven.emergencyStop with
      | true => rfl
      | false => exact absurd (Call.exec_emergencyStop_cleared m c hflag hval) hno.1
    exact ih (c.exec m) hstep hno.2

/-- With a phase's own advance condition unmet, a tick more than 600 s into
PREHEAT or HEATUP stages COOLDOWN. -/
theorem ReflowOven_operate_timeout_heating (m : Memory) (p : PIDRef) (t : ℚ) (now : Nat)
    (hset : m.ReflowOven.NextPhase = m.ReflowOven.currentPhase)
    (hphase : m.ReflowOven.currentPhase = REFLOW_PREHEAT ∨
      m.ReflowOven.currentPhase = REFLOW_HEATUP)
    (ht : t ≤ 250) (hel : u32_sub now m.ReflowOven.phaseStartTime > 600 * 1000)
    (hpre : m.ReflowOven.currentPhase = REFLOW_PREHEAT →
      t < m.ReflowOven.ReflowParameters.SoakTempeture)
    (hheat : m.ReflowOven.currentPhase = REFLOW_HEATUP →
      t < m.ReflowOven.ReflowParameters.ReflowTempeture) :
    (ReflowOven_operate m p t now).2.ReflowOven.NextPhase = REFLOW_COOLDOWN := by
  have hrun : m.ReflowOven.currentPhase ≠ REFLOW_IDLE := by
    rcases hphase with h | h <;> rw [h] <;> decide
  rw [ReflowOven_operate_settled _ _ _ _ hset ht,
    ReflowOven_operate_timeout_fired _ _ (by omega) hrun]
  unfold ReflowOven_operate_phase
  rcases hphase with hph | hph
  · have h1 := hpre hph
    simp [hph, not_le.mpr h1]
  · have h1 := hheat hph
    simp [hph, not_le.mpr h1]

/-- The rounding of the product matters to the conversion. The single-precision
value nearest to 60.001 is 7864451/131072, a little below 60.001; its exact
product with 1000 is a little below 60001, the single-precision product is
60001, and so is the converted value. The default soak and reflow times, 60 and
30, give 60000 and 30000. -/
theorem f32_mul_threshold_examples :
    f32_round (60001 / 1000) = 7864451 / 131072 ∧
      float_to_u32 (7864451 / 131072 * 1000) = 60000 ∧
      f32_mul (7864451 / 131072) 1000 = 60001 ∧
      float_to_u32 (f32_mul (7864451 / 131072) 1000) = 60001 ∧
      float_to_u32 (f32_mul ReflowOven_Init.ReflowParameters.SoakTime 1000) = 60000 ∧
      float_to_u32 (f32_mul ReflowOven_Init.ReflowParameters.ReflowTime 1000) = 30000 := by
  decide!

/-! ## Theorems -/

/-- C1 (evaluation of the code at the failing input): with the sequencer settled
in PREHEAT, a tick at 251 degrees returns with `currentPhase = REFLOW_IDLE` but
with `emergencyStop = false`, not `true`. -/
theorem C1_overtemperature_flag_cleared :
    (ReflowOven_operate (memorySettledIn REFLOW_PREHEAT) PIDRef.global 251 0
        ).2.ReflowOven.currentPhase = REFLOW_IDLE ∧
      (ReflowOven_operate (memorySettledIn REFLOW_PREHEAT) PIDRef.global 251 0
        ).2.ReflowOven.emergencyStop = false := by
  decide

/-- C2 (counterexample): with the sequencer settled in PREHEAT, a tick that is
given the fault sentinel -404 does not end with `emergencyStop = true` and
`currentPhase = REFLOW_IDLE`: the flag stays false and the phase stays
PREHEAT. -/
theorem C2_sentinel_counterexample :
    ¬ ((ReflowOven_operate (memorySettledIn REFLOW_PREHEAT) PIDRef.global (-404) 1000
          ).2.ReflowOven.emergencyStop = true ∧
        (ReflowOven_operate (memorySettledIn REFLOW_PREHEAT) PIDRef.global (-404) 1000
          ).2.ReflowOven.currentPhase = REFLOW_IDLE) := by
  decide

/-- C2 (amended): the tick has no sensor-fault check. Given the fault sentinel
-404 it behaves as for any temperature not above 250: the interlock does not
fire, `currentPhase` becomes the phase that was staged at entry (so it is
unchanged when nothing is pending), and `emergencyStop` keeps its value, except
that a staged transition into IDLE clears it. In particular the flag is never
raised by such a tick. -/
theorem C2_sentinel_treated_as_temperature (m : Memory) (p : PIDRef) (now : Nat) :
    (ReflowOven_operate m p (-404) now).2.ReflowOven.currentPhase = m.ReflowOven.NextPhase ∧
      (ReflowOven_operate m p (-404) now).2.ReflowOven.emergencyStop =
        (if m.ReflowOven.NextPhase ≠ m.ReflowOven.currentPhase ∧
            m.ReflowOven.NextPhase = REFLOW_IDLE then false
          else m.ReflowOven.emergencyStop) ∧
      (m.ReflowOven.emergencyStop = false →
        (ReflowOven_operate m p (-404) now).2.ReflowOven.emergencyStop = false) := by
  have hcool : ReflowOven_operate_safetyCheck m.ReflowOven (-404) = m.ReflowOven :=
    ReflowOven_operate_safetyCheck_cool _ _ (by norm_num)
  rw [ReflowOven_operate_currentPhase, ReflowOven_operate_emergencyStop, hcool]
  have hflag : (ReflowOven_operate_transition m (-404) now).ReflowOven.emergencyStop =
      (if m.ReflowOven.NextPhase ≠ m.ReflowOven.currentPhase ∧
          m.ReflowOven.NextPhase = REFLOW_IDLE then false
        else m.ReflowOven.emergencyStop) := by
    unfold ReflowOven_operate_transition ReflowOven_transitionToPhase
    by_cases h : m.ReflowOven.NextPhase = m.ReflowOven.currentPhase
    · simp [h]
    · cases hn : m.ReflowOven.NextPhase <;> simp_all
  refine ⟨ReflowOven_operate_transition_currentPhase _ _ _, hflag, ?_⟩
  intro hfalse
  rw [hflag]
  split_ifs
  · rfl
  · exact hfalse

/-- C3: when `limMin ≤ limMax`, the value `PID_Update` returns and the field
`out` it stores both lie between `limMin` and `limMax`, whatever the gains, the
previous memory of the controller, the setpoint and the measurement; the limits
themselves are not changed by the update. -/
theorem C3_PID_Update_output_within_limits (pid : PIDController) (setpoint measurement : ℚ)
    (hlim : pid.limMin ≤ pid.limMax) :
    pid.limMin ≤ (PID_Update pid setpoint measurement).1 ∧
      (PID_Update pid setpoint measurement).1 ≤ pid.limMax ∧
      pid.limMin ≤ (PID_Update pid setpoint measurement).2.out ∧
      (PID_Update pid setpoint measurement).2.out ≤ pid.limMax ∧
      (PID_Update pid setpoint measurement).2.limMin = pid.limMin ∧
      (PID_Update pid setpoint measurement).2.limMax = pid.limMax := by
  have key : ∀ x : ℚ, pid.limMin ≤ PID_Update_limit pid x ∧ PID_Update_limit pid x ≤ pid.limMax := by
    intro x
    unfold PID_Update_limit
    split_ifs with h1 h2
    · exact ⟨hlim, le_refl _⟩
    · exact ⟨le_refl _, hlim⟩
    · exact ⟨not_lt.mp h2, not_lt.mp h1⟩
  exact ⟨(key _).1, (key _).2, (key _).1, (key _).2, rfl, rfl⟩

/-- C3 (witness): the example controller, whose limits are 0 and 100, at
setpoint 150 and measurement 25. -/
theorem C3_PID_Update_output_within_limits_witness :
    examplePID.limMin ≤ examplePID.limMax ∧
      examplePID.limMin ≤ (PID_Update examplePID 150 25).1 ∧
      (PID_Update examplePID 150 25).1 ≤ examplePID.limMax ∧
      examplePID.limMin ≤ (PID_Update examplePID 150 25).2.out ∧
      (PID_Update examplePID 150 25).2.out ≤ examplePID.limMax ∧
      (PID_Update examplePID 150 25).2.limMin = examplePID.limMin ∧
      (PID_Update examplePID 150 25).2.limMax = examplePID.limMax :=
  ⟨by decide, C3_PID_Update_output_within_limits examplePID 150 25 (by decide)⟩

/-- C4: when `limMinInt ≤ limMaxInt`, after each update of any sequence of
`PID_Update` calls, started from any controller state, the integrator lies
between `limMinInt` and `limMaxInt`. The trace has one controller per update,
so a non-empty sequence yields a non-empty trace. -/
theorem C4_integrator_within_limits_after_each_update (pid : PIDController)
    (inputs : List (ℚ × ℚ)) (hlim : pid.limMinInt ≤ pid.limMaxInt) :
    (PID_Update_trace pid inputs).length = inputs.length ∧
      ∀ c ∈ PID_Update_trace pid inputs,
        pid.limMinInt ≤ c.integrator ∧ c.integrator ≤ pid.limMaxInt := by
  induction inputs generalizing pid with
  | nil => simp [PID_Update_trace]
  | cons x rest ih =>
    obtain ⟨sp, meas⟩ := x
    have hstep : pid.limMinInt ≤ (PID_Update pid sp meas).2.integrator ∧
        (PID_Update pid sp meas).2.integrator ≤ pid.limMaxInt := by
      show pid.limMinInt ≤ PID_Update_integrator pid (sp - meas) ∧
        PID_Update_integrator pid (sp - meas) ≤ pid.limMaxInt
      unfold PID_Update_integrator
      simp only []
      split_ifs with h1 h2
      · exact ⟨hlim, le_refl _⟩
      · exact ⟨le_refl _, hlim⟩
      · exact ⟨not_lt.mp h2, not_lt.mp h1⟩
    have hnext := ih (PID_Update pid sp meas).2 hlim
    refine ⟨by simp [PID_Update_trace, hnext.1], ?_⟩
    intro c hc
    simp only [PID_Update_trace, List.mem_cons] at hc
    rcases hc with hc | hc
    · rw [hc]
      exact hstep
    · exact hnext.2 c hc

/-- C4 (witness): three updates of the example controller, whose integrator
limits are -10 and 10. -/
theorem C4_integrator_within_limits_after_each_update_witness :
    examplePID.limMinInt ≤ examplePID.limMaxInt ∧
      (PID_Update_trace examplePID [(150, 25), (150, 30), (0, 200)]).length = 3 ∧
      ∀ c ∈ PID_Update_trace examplePID [(150, 25), (150, 30), (0, 200)],
        examplePID.limMinInt ≤ c.integrator ∧ c.integrator ≤ examplePID.limMaxInt :=
  ⟨by decide,
    C4_integrator_within_limits_after_each_update examplePID [(150, 25), (150, 30), (0, 200)]
      (by decide)⟩

/-- C5 (counterexample): the sequencer is settled in SOAK with a soak time of
60.00048828125 s (a value single precision holds exactly), nothing is pending,
the temperature is 150 and 60000 ms have elapsed in the phase (at most 600 s).
Elapsed-in-phase, 60 s, is below the soak time, so the table read in seconds
keeps SOAK staged; the tick stages HEATUP. -/
theorem C5_soak_time_counterexample :
    f32_round memorySoakFractional.ReflowOven.ReflowParameters.SoakTime =
        memorySoakFractional.ReflowOven.ReflowParameters.SoakTime ∧
      memorySoakFractional.ReflowOven.NextPhase = memorySoakFractional.ReflowOven.currentPhase ∧
      (150 : ℚ) ≤ 250 ∧
      u32_sub 60000 memorySoakFractional.ReflowOven.phaseStartTime ≤ 600 * 1000 ∧
      ReflowParameters_inRange memorySoakFractional.ReflowOven.ReflowParameters ∧
      (ReflowOven_operate memorySoakFractional PIDRef.global 150 60000).2.ReflowOven.NextPhase ≠
        transitionTable memorySoakFractional.ReflowOven 150
          (decide ((u32_sub 60000 memorySoakFractional.ReflowOven.phaseStartTime : ℚ) * MS_TO_S
            ≥ memorySoakFractional.ReflowOven.ReflowParameters.SoakTime))
          (decide ((u32_sub 60000 memorySoakFractional.ReflowOven.phaseStartTime : ℚ) * MS_TO_S
            ≥ memorySoakFractional.ReflowOven.ReflowParameters.ReflowTime)) ∧
      (ReflowOven_operate memorySoakFractional PIDRef.global 150 60000).2.ReflowOven.NextPhase =
        REFLOW_HEATUP := by
  decide!

/-- C5 (amended): for every sequencer state with nothing pending, every
temperature `t ≤ 250` and every time whose elapsed-in-phase is at most 600 s,
the tick leaves `currentPhase` unchanged and stages `NextPhase` per the
transition table, where the two timed conditions compare the elapsed
milliseconds with `(uint32_t)(time * 1000)`: the time parameter times 1000 as
a single-precision product (rounded to the nearest `float`), then cut down to
whole milliseconds. -/
theorem C5_settled_tick_follows_table (m : Memory) (p : PIDRef) (t : ℚ) (now : Nat)
    (hset : m.ReflowOven.NextPhase = m.ReflowOven.currentPhase) (ht : t ≤ 250)
    (hel : u32_sub now m.ReflowOven.phaseStartTime ≤ 600 * 1000) :
    (ReflowOven_operate m p t now).2.ReflowOven.currentPhase = m.ReflowOven.currentPhase ∧
      (ReflowOven_operate m p t now).2.ReflowOven.NextPhase =
        transitionTable m.ReflowOven t
          (decide (u32_sub now m.ReflowOven.phaseStartTime
            ≥ float_to_u32 (f32_mul m.ReflowOven.ReflowParameters.SoakTime 1000)))
          (decide (u32_sub now m.ReflowOven.phaseStartTime
            ≥ float_to_u32 (f32_mul m.ReflowOven.ReflowParameters.ReflowTime 1000))) := by
  refine ⟨by rw [ReflowOven_operate_cool_currentPhase _ _ _ _ ht, hset], ?_⟩
  rw [ReflowOven_operate_settled _ _ _ _ hset ht,
    ReflowOven_operate_timeout_idle _ _ (Or.inl (by omega))]
  unfold ReflowOven_operate_phase transitionTable
  cases hph : m.ReflowOven.currentPhase <;> simp only [hset, hph] <;> split_ifs <;> simp_all <;>
    omega

/-- C5 (witness): settled in SOAK with the default soak time of 60 s, at
59999 ms the tick keeps SOAK staged. -/
theorem C5_settled_tick_follows_table_witness :
    (memorySettledIn REFLOW_SOAK).ReflowOven.NextPhase =
        (memorySettledIn REFLOW_SOAK).ReflowOven.currentPhase ∧
      (150 : ℚ) ≤ 250 ∧
      u32_sub 59999 (memorySettledIn REFLOW_SOAK).ReflowOven.phaseStartTime ≤ 600 * 1000 ∧
      (ReflowOven_operate (memorySettledIn REFLOW_SOAK) PIDRef.global 150 59999
          ).2.ReflowOven.currentPhase = (memorySettledIn REFLOW_SOAK).ReflowOven.currentPhase ∧
      (ReflowOven_operate (memorySettledIn REFLOW_SOAK) PIDRef.global 150 59999
          ).2.ReflowOven.NextPhase =
        transitionTable (memorySettledIn REFLOW_SOAK).ReflowOven 150
          (decide (u32_sub 59999 (memorySettledIn REFLOW_SOAK).ReflowOven.phaseStartTime
            ≥ float_to_u32
              (f32_mul (memorySettledIn REFLOW_SOAK).ReflowOven.ReflowParameters.SoakTime 1000)))
          (decide (u32_sub 59999 (memorySettledIn REFLOW_SOAK).ReflowOven.phaseStartTime
            ≥ float_to_u32
              (f32_mul (memorySettledIn REFLOW_SOAK).ReflowOven.ReflowParameters.ReflowTime
                1000))) :=
  ⟨by decide, by decide, by decide,
    C5_settled_tick_follows_table (memorySettledIn REFLOW_SOAK) PIDRef.global 150 59999
      (by decide) (by decide) (by decide)⟩

/-- C6 (counterexample): the parameters are those of `ReflowOven_Init` (all in
range), the sequencer is settled in SOAK, the temperature is 150 and 600001 ms
have elapsed in the phase. The tick stages HEATUP, not COOLDOWN, and the
following tick, again at 150 degrees, leaves `currentPhase = REFLOW_HEATUP`. -/
theorem C6_timeout_in_soak_counterexample :
    ReflowParameters_inRange (memorySettledIn REFLOW_SOAK).ReflowOven.ReflowParameters ∧
      u32_sub 600001 (memorySettledIn REFLOW_SOAK).ReflowOven.phaseStartTime > 600 * 1000 ∧
      (ReflowOven_operate (memorySettledIn REFLOW_SOAK) PIDRef.global 150 600001
          ).2.ReflowOven.NextPhase ≠ REFLOW_COOLDOWN ∧
      (ReflowOven_operate
          (ReflowOven_operate (memorySettledIn REFLOW_SOAK) PIDRef.global 150 600001).2
          PIDRef.global 150 601001).2.ReflowOven.currentPhase ≠ REFLOW_COOLDOWN ∧
      (ReflowOven_operate
          (ReflowOven_operate (memorySettledIn REFLOW_SOAK) PIDRef.global 150 600001).2
          PIDRef.global 150 601001).2.ReflowOven.currentPhase = REFLOW_HEATUP := by
  decide!

/-- C6 (amended): for every non-IDLE phase P and every temperature `t ≤ 250`, if
a tick finds the sequencer settled in P with more than 600 s elapsed in the
phase and the advance condition of P itself is not met on that tick (PREHEAT:
`t` below the soak temperature; SOAK: elapsed milliseconds below
`(uint32_t)(SoakTime * 1000)`, the soak time in whole milliseconds; HEATUP:
`t` below the reflow temperature; COOLDOWN: `t` above the cool-down
temperature; REFLOW: no condition), then the tick stages
COOLDOWN and keeps `currentPhase`, and the following tick with a temperature
`≤ 250` leaves `currentPhase = REFLOW_COOLDOWN`. -/
theorem C6_timeout_stages_cooldown (m : Memory) (p p' : PIDRef) (t t' : ℚ) (now now' : Nat)
    (hset : m.ReflowOven.NextPhase = m.ReflowOven.currentPhase)
    (hrun : m.ReflowOven.currentPhase ≠ REFLOW_IDLE)
    (ht : t ≤ 250)
    (hel : u32_sub now m.ReflowOven.phaseStartTime > 600 * 1000)
    (hpre : m.ReflowOven.currentPhase = REFLOW_PREHEAT →
      t < m.ReflowOven.ReflowParameters.SoakTempeture)
    (hsoak : m.ReflowOven.currentPhase = REFLOW_SOAK →
      u32_sub now m.ReflowOven.phaseStartTime
        < float_to_u32 (f32_mul m.ReflowOven.ReflowParameters.SoakTime 1000))
    (hheat : m.ReflowOven.currentPhase = REFLOW_HEATUP →
      t < m.ReflowOven.ReflowParameters.ReflowTempeture)
    (hcool : m.ReflowOven.currentPhase = REFLOW_COOLDOWN →
      m.ReflowOven.ReflowParameters.CoolDownTempeture < t)
    (ht' : t' ≤ 250) :
    (ReflowOven_operate m p t now).2.ReflowOven.NextPhase = REFLOW_COOLDOWN ∧
      (ReflowOven_operate m p t now).2.ReflowOven.currentPhase = m.ReflowOven.currentPhase ∧
      (ReflowOven_operate (ReflowOven_operate m p t now).2 p' t' now'
        ).2.ReflowOven.currentPhase = REFLOW_COOLDOWN := by
  have hstage : (ReflowOven_operate m p t now).2.ReflowOven.NextPhase = REFLOW_COOLDOWN := by
    rw [ReflowOven_operate_settled _ _ _ _ hset ht,
      ReflowOven_operate_timeout_fired _ _ (by omega) hrun]
    unfold ReflowOven_operate_phase
    cases hph : m.ReflowOven.currentPhase
    · have h1 := hpre hph
      simp [hph, not_le.mpr h1]
    · have h1 := hsoak hph
      simp [hph, not_le.mpr h1]
    · have h1 := hheat hph
      simp [hph, not_le.mpr h1]
    · simp [hph]
    · have h1 := hcool hph
      simp [hph, not_le.mpr h1]
    · exact absurd hph hrun
  refine ⟨hstage, ?_, ?_⟩
  · rw [ReflowOven_operate_cool_currentPhase _ _ _ _ ht, hset]
  · rw [ReflowOven_operate_cool_currentPhase _ _ _ _ ht', hstage]

/-- C6 (witness): settled in PREHEAT at 100 degrees, 600001 ms into the phase;
the second tick comes one second later. -/
theorem C6_timeout_stages_cooldown_witness :
    (ReflowOven_operate (memorySettledIn REFLOW_PREHEAT) PIDRef.global 100 600001
        ).2.ReflowOven.NextPhase = REFLOW_COOLDOWN ∧
      (ReflowOven_operate (memorySettledIn REFLOW_PREHEAT) PIDRef.global 100 600001
        ).2.ReflowOven.currentPhase = (memorySettledIn REFLOW_PREHEAT).ReflowOven.currentPhase ∧
      (ReflowOven_operate
        (ReflowOven_operate (memorySettledIn REFLOW_PREHEAT) PIDRef.global 100 600001).2
        PIDRef.global 100 601001).2.ReflowOven.currentPhase = REFLOW_COOLDOWN :=
  C6_timeout_stages_cooldown (memorySettledIn REFLOW_PREHEAT) PIDRef.global PIDRef.global
    100 100 600001 601001 (by decide) (by decide) (by decide) (by decide) (by decide!)
    (by decide) (by decide) (by decide) (by decide)

/-- C7: in every state reachable from `ReflowOven_Init` by any sequence of
`startProcess`, `stopProcess`, `modifyParameters` and tick calls, one further
call either leaves `currentPhase` unchanged or changes it along IDLE to
PREHEAT, PREHEAT to SOAK, SOAK to HEATUP, HEATUP to REFLOW, REFLOW to COOLDOWN,
COOLDOWN to IDLE, a non-IDLE phase to COOLDOWN or a non-IDLE phase to IDLE.
Only a tick changes `currentPhase`; COOLDOWN is left only for IDLE; and each
heating phase is entered only from its predecessor. -/
theorem C7_phase_changes_follow_table (pid other : PIDController) (calls : List Call)
    (c : Call) :
    ((c.exec (runCalls (initialMemory pid other) calls)).ReflowOven.currentPhase =
        (runCalls (initialMemory pid other) calls).ReflowOven.currentPhase ∨
      legalPhaseChange (runCalls (initialMemory pid other) calls).ReflowOven.currentPhase
        (c.exec (runCalls (initialMemory pid other) calls)).ReflowOven.currentPhase = true) ∧
    (c.isOperate = false →
      (c.exec (runCalls (initialMemory pid other) calls)).ReflowOven.currentPhase =
        (runCalls (initialMemory pid other) calls).ReflowOven.currentPhase) ∧
    ((runCalls (initialMemory pid other) calls).ReflowOven.currentPhase = REFLOW_COOLDOWN →
      (c.exec (runCalls (initialMemory pid other) calls)).ReflowOven.currentPhase
          = REFLOW_COOLDOWN ∨
        (c.exec (runCalls (initialMemory pid other) calls)).ReflowOven.currentPhase
          = REFLOW_IDLE) ∧
    ((c.exec (runCalls (initialMemory pid other) calls)).ReflowOven.currentPhase
        = REFLOW_PREHEAT →
      (runCalls (initialMemory pid other) calls).ReflowOven.currentPhase = REFLOW_PREHEAT ∨
        (runCalls (initialMemory pid other) calls).ReflowOven.currentPhase = REFLOW_IDLE) ∧
    ((c.exec (runCalls (initialMemory pid other) calls)).ReflowOven.currentPhase
        = REFLOW_SOAK →
      (runCalls (initialMemory pid other) calls).ReflowOven.currentPhase = REFLOW_SOAK ∨
        (runCalls (initialMemory pid other) calls).ReflowOven.currentPhase = REFLOW_PREHEAT) ∧
    ((c.exec (runCalls (initialMemory pid other) calls)).ReflowOven.currentPhase
        = REFLOW_HEATUP →
      (runCalls (initialMemory pid other) calls).ReflowOven.currentPhase = REFLOW_HEATUP ∨
        (runCalls (initialMemory pid other) calls).ReflowOven.currentPhase = REFLOW_SOAK) ∧
    ((c.exec (runCalls (initialMemory pid other) calls)).ReflowOven.currentPhase
        = REFLOW_REFLOW →
      (runCalls (initialMemory pid other) calls).ReflowOven.currentPhase = REFLOW_REFLOW ∨
        (runCalls (initialMemory pid other) calls).ReflowOven.currentPhase = REFLOW_HEATUP) := by
  have hinv := runCalls_stagedPhaseLegal pid other calls
  have hchg := Call.exec_phase_change_legal _ c hinv
  have hfix := Call.exec_currentPhase_of_not_operate
    (runCalls (initialMemory pid other) calls) c
  generalize (c.exec (runCalls (initialMemory pid other) calls)).ReflowOven.currentPhase = b
    at hchg hfix ⊢
  generalize (runCalls (initialMemory pid other) calls).ReflowOven.currentPhase = a
    at hchg hfix ⊢
  refine ⟨hchg, hfix, ?_, ?_, ?_, ?_, ?_⟩ <;>
    cases a <;> cases b <;> simp [legalPhaseChange] at hchg ⊢

/-- C8: for each of the eight parameter identifiers and every value `v`,
`ReflowOven_modifyParameters` returns true exactly when `currentPhase` is IDLE
and `v` lies in the legal range of that parameter: preheat rate `0 < v ≤ 2`,
soak temperature `100 ≤ v ≤ 180`, soak time `30 ≤ v ≤ 180`, heat-up rate
`0 < v ≤ 3`, reflow temperature `200 ≤ v ≤ 240`, reflow time `10 ≤ v ≤ 90`,
cool-down rate `0 < v ≤ 5`, cool-down temperature `25 ≤ v ≤ 100`. So a soak
temperature of 190 is rejected, and 160 is accepted in IDLE and rejected in
PREHEAT. -/
theorem C8_modifyParameters_accepts_iff_idle_and_in_range (o : ReflowOven_t)
    (id : ReflowParameters_enum) (v : ℚ) :
    ((ReflowOven_modifyParameters o id v).1 = true ↔
      o.currentPhase = REFLOW_IDLE ∧
        (id = PARAM_Pre_HeatUpRate → 0 < v ∧ v ≤ 2) ∧
        (id = PARAM_SoakTempeture → 100 ≤ v ∧ v ≤ 180) ∧
        (id = PARAM_SoakTime → 30 ≤ v ∧ v ≤ 180) ∧
        (id = PARAM_HeatUpRate → 0 < v ∧ v ≤ 3) ∧
        (id = PARAM_ReflowTempeture → 200 ≤ v ∧ v ≤ 240) ∧
        (id = PARAM_ReflowTime → 10 ≤ v ∧ v ≤ 90) ∧
        (id = PARAM_CoolDownRate → 0 < v ∧ v ≤ 5) ∧
        (id = PARAM_CoolDownTempeture → 25 ≤ v ∧ v ≤ 100)) ∧
      (ReflowOven_modifyParameters ReflowOven_Init PARAM_SoakTempeture 190).1 = false ∧
      (ReflowOven_modifyParameters ReflowOven_Init PARAM_SoakTempeture 160).1 = true ∧
      (ReflowOven_modifyParameters (ovenSettledIn REFLOW_PREHEAT) PARAM_SoakTempeture 160).1
        = false := by
  refine ⟨?_, by decide, by decide, by decide⟩
  by_cases hacc : o.currentPhase = REFLOW_IDLE ∧ parameterAccepted id v
  · have hres := (ReflowOven_modifyParameters_accepted o id v hacc.1 hacc.2).1
    have hrange := hacc.2
    cases id <;> simp only [parameterAccepted] at hrange <;>
      simp [hres, hacc.1, hrange.1, hrange.2]
  · rw [ReflowOven_modifyParameters_rejected o id v hacc]
    simp only [Bool.false_eq_true, false_iff]
    intro hall
    apply hacc
    refine ⟨hall.1, ?_⟩
    obtain ⟨_, h1, h2, h3, h4, h5, h6, h7, h8⟩ := hall
    cases id
    · exact h1 rfl
    · exact h2 rfl
    · exact h3 rfl
    · exact h4 rfl
    · exact h5 rfl
    · exact h6 rfl
    · exact h7 rfl
    · exact h8 rfl

/-- C9: `ReflowOven_modifyParameters` is atomic and framed. When it returns
false the whole sequencer object is unchanged. When it returns true the named
parameter holds the new value, every other parameter keeps its value, and
`currentPhase`, `NextPhase`, `phaseStartTime`, `currentSetpoint`,
`emergencyStop` and `temperatureAtPhaseStart` are unchanged. -/
theorem C9_modifyParameters_atomic_and_framed (o : ReflowOven_t)
    (id : ReflowParameters_enum) (v : ℚ) :
    ((ReflowOven_modifyParameters o id v).1 = false →
      (ReflowOven_modifyParameters o id v).2 = o) ∧
    ((ReflowOven_modifyParameters o id v).1 = true →
      (ReflowOven_modifyParameters o id v).2.ReflowParameters.get id = v ∧
      (∀ id', id' ≠ id →
        (ReflowOven_modifyParameters o id v).2.ReflowParameters.get id' =
          o.ReflowParameters.get id') ∧
      (ReflowOven_modifyParameters o id v).2.currentPhase = o.currentPhase ∧
      (ReflowOven_modifyParameters o id v).2.NextPhase = o.NextPhase ∧
      (ReflowOven_modifyParameters o id v).2.phaseStartTime = o.phaseStartTime ∧
      (ReflowOven_modifyParameters o id v).2.currentSetpoint = o.currentSetpoint ∧
      (ReflowOven_modifyParameters o id v).2.emergencyStop = o.emergencyStop ∧
      (ReflowOven_modifyParameters o id v).2.temperatureAtPhaseStart =
        o.temperatureAtPhaseStart) := by
  by_cases hacc : o.currentPhase = REFLOW_IDLE ∧ parameterAccepted id v
  · obtain ⟨hres, h1, h2, h3, h4, h5, h6, h7, h8⟩ :=
      ReflowOven_modifyParameters_accepted o id v hacc.1 hacc.2
    refine ⟨?_, ?_⟩
    · intro hfalse
      rw [hres] at hfalse
      exact absurd hfalse.symm Bool.false_ne_true
    · intro _
      exact ⟨h7, h8, h1, h2, h3, h4, h5, h6⟩
  · rw [ReflowOven_modifyParameters_rejected o id v hacc]
    refine ⟨fun _ => rfl, ?_⟩
    intro htrue
    exact absurd htrue Bool.false_ne_true

/-- C10: `ReflowOven_startProcess` returns true exactly when `currentPhase` is
IDLE. When it returns true it sets `NextPhase` to PREHEAT and changes nothing
else; when it returns false the sequencer object is unchanged. Called a second
time before the next tick it returns true again and yields the same state as
one call. -/
theorem C10_startProcess_contract (o : ReflowOven_t) :
    ((ReflowOven_startProcess o).1 = true ↔ o.currentPhase = REFLOW_IDLE) ∧
    ((ReflowOven_startProcess o).1 = true →
      (ReflowOven_startProcess o).2 = { o with NextPhase := REFLOW_PREHEAT }) ∧
    ((ReflowOven_startProcess o).1 = false → (ReflowOven_startProcess o).2 = o) ∧
    ((ReflowOven_startProcess o).1 = true →
      (ReflowOven_startProcess (ReflowOven_startProcess o).2).1 = true ∧
      (ReflowOven_startProcess (ReflowOven_startProcess o).2).2 =
        (ReflowOven_startProcess o).2) := by
  unfold ReflowOven_startProcess
  by_cases hi : o.currentPhase = REFLOW_IDLE
  · simp [hi]
  · simp [hi]

/-- C11: `ReflowOven_stopProcess` sets `NextPhase` to COOLDOWN and changes
nothing else when `currentPhase` is not IDLE, leaves the whole object unchanged
when `currentPhase` is IDLE, and a second stop changes nothing more. After a
stop in a running phase, the next tick with a temperature `≤ 250` makes
COOLDOWN the current phase. -/
theorem C11_stopProcess_contract (m : Memory) (p : PIDRef) (t : ℚ) (now : Nat) :
    (m.ReflowOven.currentPhase ≠ REFLOW_IDLE →
      ReflowOven_stopProcess m.ReflowOven =
        { m.ReflowOven with NextPhase := REFLOW_COOLDOWN }) ∧
    (m.ReflowOven.currentPhase = REFLOW_IDLE →
      ReflowOven_stopProcess m.ReflowOven = m.ReflowOven) ∧
    ReflowOven_stopProcess (ReflowOven_stopProcess m.ReflowOven) =
      ReflowOven_stopProcess m.ReflowOven ∧
    (m.ReflowOven.currentPhase ≠ REFLOW_IDLE → t ≤ 250 →
      (ReflowOven_operate { m with ReflowOven := ReflowOven_stopProcess m.ReflowOven } p t now
        ).2.ReflowOven.currentPhase = REFLOW_COOLDOWN) := by
  refine ⟨?_, ?_, ?_, ?_⟩
  · intro h
    simp [ReflowOven_stopProcess, h]
  · intro h
    simp [ReflowOven_stopProcess, h]
  · by_cases h : m.ReflowOven.currentPhase = REFLOW_IDLE
    · simp [ReflowOven_stopProcess, h]
    · simp [ReflowOven_stopProcess, h]
  · intro h ht
    rw [ReflowOven_operate_cool_currentPhase _ _ _ _ ht]
    simp [ReflowOven_stopProcess, h]

/-- C12 (evaluation of the code at the failing input): a successful transfer
that delivers the frame `0xFFFF` makes `MAX6675_ReadTemperature` return
`HAL_OK` with `is_connected = 1` and a temperature of 1023.75 degrees: D2 and
D15 are both 1, so they are equal, and the frame is not zero. -/
theorem C12_all_ones_frame_accepted :
    (MAX6675_ReadTemperature exampleDriver 0 (frameReceived 0xFFFF)).1 = HAL_OK ∧
      ((MAX6675_ReadTemperature exampleDriver 0 (frameReceived 0xFFFF)).2.1.devices 0
        ).is_connected = 1 ∧
      ((MAX6675_ReadTemperature exampleDriver 0 (frameReceived 0xFFFF)).2.1.devices 0
        ).temperature = 4095 / 4 := by
  decide!

/-- C13: for every valid channel and every 16-bit frame with D15 = 0, D2 = 0
and a non-zero value, a successful transfer makes `MAX6675_ReadTemperature`
return `HAL_OK`, set `is_connected = 1`, store the frame in `raw_data` and set
the temperature to `((frame AND 0x7FF8) >> 3) * 0.25`; it performs one bus
transaction on that channel and leaves the other channels and the device count
alone. -/
theorem C13_valid_frame_read (driver : MAX6675_Driver_t) (id : Fin 4) (frame : Nat)
    (h16 : frame < 65536) (hD15 : frame.testBit 15 = false) (hD2 : frame.testBit 2 = false)
    (hne : frame ≠ 0) :
    (MAX6675_ReadTemperature driver id.val (frameReceived frame)).1 = HAL_OK ∧
      ((MAX6675_ReadTemperature driver id.val (frameReceived frame)).2.1.devices id
        ).is_connected = 1 ∧
      ((MAX6675_ReadTemperature driver id.val (frameReceived frame)).2.1.devices id
        ).raw_data = frame ∧
      ((MAX6675_ReadTemperature driver id.val (frameReceived frame)).2.1.devices id
        ).temperature = (((frame &&& 0x7FF8) >>> 3 : Nat) : ℚ) * (1 / 4) ∧
      (∀ j, j ≠ id →
        (MAX6675_ReadTemperature driver id.val (frameReceived frame)).2.1.devices j =
          driver.devices j) ∧
      (MAX6675_ReadTemperature driver id.val (frameReceived frame)).2.1.device_count =
        driver.device_count ∧
      (MAX6675_ReadTemperature driver id.val (frameReceived frame)).2.2 =
        [BusEvent.cs_reset id.val, BusEvent.spi_receive, BusEvent.cs_set id.val] := by
  have hraw := frameReceived_raw frame h16
  have hv : MAX6675_frame_valid
      ((((frameReceived frame).data1 <<< 8) ||| (frameReceived frame).data0) % 65536) = true := by
    rw [hraw, MAX6675_frame_valid_iff]
    exact ⟨by rw [hD15, hD2], hne⟩
  rw [MAX6675_ReadTemperature_valid driver id (frameReceived frame) rfl hv, hraw]
  refine ⟨rfl, ?_, ?_, ?_, ?_, rfl, rfl⟩
  · simp
  · simp
  · simp [MAX6675_TEMP_BITS, MAX6675_TEMP_FACTOR]
  · intro j hj
    simp [Function.update_noteq hj]

/-- C13 (witness): channel 0 and the frame `0x0C80`, whose 12-bit field is 400;
the temperature read is exactly 100. -/
theorem C13_valid_frame_read_witness :
    ((MAX6675_ReadTemperature exampleDriver (0 : Fin 4).val (frameReceived 0x0C80)).2.1.devices 0
        ).temperature = 100 ∧
      (MAX6675_ReadTemperature exampleDriver (0 : Fin 4).val (frameReceived 0x0C80)).1 = HAL_OK ∧
      ((MAX6675_ReadTemperature exampleDriver (0 : Fin 4).val (frameReceived 0x0C80)).2.1.devices 0
        ).is_connected = 1 ∧
      ((MAX6675_ReadTemperature exampleDriver (0 : Fin 4).val (frameReceived 0x0C80)).2.1.devices 0
        ).raw_data = 0x0C80 :=
  have h := C13_valid_frame_read exampleDriver 0 0x0C80 (by decide) (by decide) (by decide)
    (by decide)
  have hfield : (0x0C80 &&& 0x7FF8) >>> 3 = 400 := by decide
  ⟨by rw [h.2.2.2.1, hfield]; norm_num, h.1, h.2.1, h.2.2.1⟩

/-- C14: for every valid channel and every 16-bit frame delivered by a
successful transfer, after `MAX6675_ReadTemperature` the channel is connected
(`is_connected = 1` and the result is `HAL_OK`) exactly when bit D2 of the
frame equals bit D15 and the frame is not zero; otherwise the result is
`HAL_ERROR` and `is_connected = 0`. -/
theorem C14_connected_iff_bits_agree_and_nonzero (driver : MAX6675_Driver_t) (id : Fin 4)
    (frame : Nat) (h16 : frame < 65536) :
    (((MAX6675_ReadTemperature driver id.val (frameReceived frame)).1 = HAL_OK ∧
        ((MAX6675_ReadTemperature driver id.val (frameReceived frame)).2.1.devices id
          ).is_connected = 1) ↔
      (frame.testBit 2 = frame.testBit 15 ∧ frame ≠ 0)) ∧
    (¬ (frame.testBit 2 = frame.testBit 15 ∧ frame ≠ 0) →
      (MAX6675_ReadTemperature driver id.val (frameReceived frame)).1 = HAL_ERROR ∧
        ((MAX6675_ReadTemperature driver id.val (frameReceived frame)).2.1.devices id
          ).is_connected = 0) := by
  have hraw := frameReceived_raw frame h16
  by_cases hc : frame.testBit 2 = frame.testBit 15 ∧ frame ≠ 0
  · have hv : MAX6675_frame_valid
        ((((frameReceived frame).data1 <<< 8) ||| (frameReceived frame).data0) % 65536)
          = true := by
      rw [hraw, MAX6675_frame_valid_iff]
      exact hc
    rw [MAX6675_ReadTemperature_valid driver id (frameReceived frame) rfl hv]
    simp [hc]
  · have hv : MAX6675_frame_valid
        ((((frameReceived frame).data1 <<< 8) ||| (frameReceived frame).data0) % 65536)
          = false := by
      rw [hraw, Bool.eq_false_iff]
      intro hvalid
      exact hc ((MAX6675_frame_valid_iff frame).mp hvalid)
    rw [MAX6675_ReadTemperature_invalid driver id (frameReceived frame) rfl hv]
    simp [hc]

/-- C14 (witness): the frame `0x0000` on channel 0 yields a disconnected
channel. -/
theorem C14_connected_iff_bits_agree_and_nonzero_witness :
    (MAX6675_ReadTemperature exampleDriver (0 : Fin 4).val (frameReceived 0)).1 = HAL_ERROR ∧
      ((MAX6675_ReadTemperature exampleDriver (0 : Fin 4).val (frameReceived 0)).2.1.devices 0
        ).is_connected = 0 :=
  (C14_connected_iff_bits_agree_and_nonzero exampleDriver 0 0 (by decide)).2 (by decide)

/-- C15 (evaluation of the code at the failing input): channel 0 holds a good
reading of 100 degrees and the next bus transfer times out. The read returns
the error `HAL_TIMEOUT` and clears `is_connected`, but the recorded temperature
is still 100, not the sentinel -404. -/
theorem C15_bus_failure_keeps_temperature :
    (MAX6675_ReadTemperature exampleDriver 0
        { status := HAL_TIMEOUT, data0 := 0, data1 := 0 }).1 = HAL_TIMEOUT ∧
      ((MAX6675_ReadTemperature exampleDriver 0
        { status := HAL_TIMEOUT, data0 := 0, data1 := 0 }).2.1.devices 0).is_connected = 0 ∧
      ((MAX6675_ReadTemperature exampleDriver 0
        { status := HAL_TIMEOUT, data0 := 0, data1 := 0 }).2.1.devices 0).temperature = 100 ∧
      ((MAX6675_ReadTemperature exampleDriver 0
        { status := HAL_TIMEOUT, data0 := 0, data1 := 0 }).2.1.devices 0).temperature ≠ -404 := by
  decide!

/-- C16: `MAX6675_GetTemperature` returns `HAL_OK` exactly when the channel id
is below 4 and the `is_connected` flag of that channel is set, and then the
output holds the cached temperature of the channel; in every other case it
returns `HAL_ERROR` and the output keeps the value it had; the driver is never
changed. -/
theorem C16_GetTemperature_contract (driver : MAX6675_Driver_t) (device_id : Nat) (out : ℚ) :
    ((MAX6675_GetTemperature driver device_id out).1 = HAL_OK ↔
      ∃ h : device_id < 4, (driver.devices ⟨device_id, h⟩).is_connected ≠ 0) ∧
    (∀ h : device_id < 4, (driver.devices ⟨device_id, h⟩).is_connected ≠ 0 →
      (MAX6675_GetTemperature driver device_id out).2.2 =
        (driver.devices ⟨device_id, h⟩).temperature) ∧
    ((MAX6675_GetTemperature driver device_id out).1 ≠ HAL_OK →
      (MAX6675_GetTemperature driver device_id out).1 = HAL_ERROR ∧
        (MAX6675_GetTemperature driver device_id out).2.2 = out) ∧
    (MAX6675_GetTemperature driver device_id out).2.1 = driver := by
  by_cases hid : device_id ≥ 4
  · have hres : MAX6675_GetTemperature driver device_id out = (HAL_ERROR, driver, out) := by
      simp [MAX6675_GetTemperature, MAX6675_MAX_DEVICES, hid]
    rw [hres]
    refine ⟨?_, ?_, ?_, rfl⟩
    · constructor
      · intro h
        exact absurd (show HAL_ERROR = HAL_OK from h) (by decide)
      · rintro ⟨h, _⟩
        omega
    · intro h
      omega
    · intro _
      exact ⟨rfl, rfl⟩
  · have hlt : device_id < 4 := by omega
    by_cases hc : (driver.devices ⟨device_id, hlt⟩).is_connected = 0
    · have hres : MAX6675_GetTemperature driver device_id out = (HAL_ERROR, driver, out) := by
        simp [MAX6675_GetTemperature, MAX6675_MAX_DEVICES, hid, hc]
      rw [hres]
      refine ⟨?_, ?_, ?_, rfl⟩
      · constructor
        · intro h
          exact absurd (show HAL_ERROR = HAL_OK from h) (by decide)
        · rintro ⟨_, h⟩
          exact absurd hc h
      · intro _ h
        exact absurd hc h
      · intro _
        exact ⟨rfl, rfl⟩
    · have hres : MAX6675_GetTemperature driver device_id out =
          (HAL_OK, driver, (driver.devices ⟨device_id, hlt⟩).temperature) := by
        simp [MAX6675_GetTemperature, MAX6675_MAX_DEVICES, hid, hc]
      rw [hres]
      refine ⟨?_, ?_, ?_, rfl⟩
      · constructor
        · intro _
          exact ⟨hlt, hc⟩
        · intro _
          rfl
      · intro _ _
        rfl
      · intro h
        exact absurd rfl h

/-- C17: with at most four devices registered, `MAX6675_AddDevice` returns
`HAL_ERROR`, changes nothing and does nothing on the bus when the id is 4 or
more or the device count is already 4. Otherwise it initialises the record of
that channel (its `id` to the channel id, its data fields to zero), increments
the device count by one and performs one read of that channel, whose result it
returns: the call equals `MAX6675_ReadTemperature` on the initialised driver,
there is one bus transaction, the other channels are untouched, and the count
stays at most four. -/
theorem C17_AddDevice_contract (driver : MAX6675_Driver_t) (device_id : Nat)
    (rx : SPI_Receive_t) (hcount : driver.device_count ≤ 4) :
    ((device_id ≥ 4 ∨ driver.device_count = 4) →
      MAX6675_AddDevice driver device_id rx = (HAL_ERROR, driver, [])) ∧
    (∀ h : device_id < 4, driver.device_count ≠ 4 →
      MAX6675_AddDevice driver device_id rx =
          MAX6675_ReadTemperature
            { devices := Function.update driver.devices ⟨device_id, h⟩
                { id := device_id, raw_data := 0, temperature := 0, is_connected := 0 }
              device_count := driver.device_count + 1 }
            device_id rx ∧
        (MAX6675_AddDevice driver device_id rx).2.1.device_count = driver.device_count + 1 ∧
        (MAX6675_AddDevice driver device_id rx).2.2 =
          [BusEvent.cs_reset device_id, BusEvent.spi_receive, BusEvent.cs_set device_id] ∧
        (∀ j, j ≠ ⟨device_id, h⟩ →
          (MAX6675_AddDevice driver device_id rx).2.1.devices j = driver.devices j)) ∧
    (MAX6675_AddDevice driver device_id rx).2.1.device_count ≤ 4 := by
  by_cases hid : device_id ≥ 4
  · have hres : MAX6675_AddDevice driver device_id rx = (HAL_ERROR, driver, []) := by
      simp [MAX6675_AddDevice, MAX6675_MAX_DEVICES, hid]
    rw [hres]
    refine ⟨fun _ => rfl, ?_, hcount⟩
    intro h
    omega
  · have hlt : device_id < 4 := by omega
    by_cases hfull : driver.device_count = 4
    · have hres : MAX6675_AddDevice driver device_id rx = (HAL_ERROR, driver, []) := by
        simp [MAX6675_AddDevice, MAX6675_MAX_DEVICES, hid, hfull]
      rw [hres]
      refine ⟨fun _ => rfl, ?_, hcount⟩
      intro _ hne
      exact absurd hfull hne
    · have hroom : ¬ (driver.device_count ≥ 4) := by omega
      have hmod : (driver.device_count + 1) % 256 = driver.device_count + 1 := by omega
      have hres : MAX6675_AddDevice driver device_id rx =
          MAX6675_ReadTemperature
            { devices := Function.update driver.devices ⟨device_id, hlt⟩
                { id := device_id, raw_data := 0, temperature := 0, is_connected := 0 }
              device_count := driver.device_count + 1 }
            device_id rx := by
        simp [MAX6675_AddDevice, MAX6675_MAX_DEVICES, hid, hroom, hmod]
      have hfr := MAX6675_ReadTemperature_frame
        { devices := Function.update driver.devices ⟨device_id, hlt⟩
            { id := device_id, raw_data := 0, temperature := 0, is_connected := 0 }
          device_count := driver.device_count + 1 } ⟨device_id, hlt⟩ rx
      rw [hres]
      refine ⟨?_, ?_, ?_⟩
      · rintro (h | h)
        · exact absurd h hid
        · exact absurd h hfull
      · intro _ _
        refine ⟨rfl, hfr.1, hfr.2.1, ?_⟩
        intro j hj
        rw [hfr.2.2.1 j hj]
        simp [Function.update_noteq hj]
      · rw [hfr.1]
        show driver.device_count + 1 ≤ 4
        omega

/-- C17 (witness): adding channel 2 to the example driver, which has one
device, with a transfer that delivers the frame `0x0C80`. -/
theorem C17_AddDevice_contract_witness :
    exampleDriver.device_count ≤ 4 ∧
      (MAX6675_AddDevice exampleDriver 2 (frameReceived 0x0C80)).2.1.device_count = 2 ∧
      (MAX6675_AddDevice exampleDriver 2 (frameReceived 0x0C80)).2.2 =
        [BusEvent.cs_reset 2, BusEvent.spi_receive, BusEvent.cs_set 2] ∧
      (MAX6675_AddDevice exampleDriver 4 (frameReceived 0x0C80)).1 = HAL_ERROR :=
  have h := C17_AddDevice_contract exampleDriver 2 (frameReceived 0x0C80) (by decide)
  have h4 := C17_AddDevice_contract exampleDriver 4 (frameReceived 0x0C80) (by decide)
  ⟨by decide, (h.2.1 (by decide) (by decide)).2.1, (h.2.1 (by decide) (by decide)).2.2.1,
    by rw [h4.1 (Or.inl (by decide))]⟩

/-- C18: after every tick, `currentSetpoint` is the value of the per-phase
table for the phase the tick settled in, with `e` the elapsed-in-phase time in
seconds (the milliseconds since `phaseStartTime`, divided by 1000) and the
start temperature `temperatureAtPhaseStart`: a capped ramp in PREHEAT and
HEATUP, the soak and reflow temperatures in SOAK and REFLOW, a floored ramp in
COOLDOWN and 25 in IDLE. -/
theorem C18_setpoint_follows_table (m : Memory) (p : PIDRef) (t : ℚ) (now : Nat) :
    (ReflowOven_operate m p t now).2.ReflowOven.currentSetpoint =
      setpointTable (ReflowOven_operate m p t now).2.ReflowOven
        ((u32_sub now (ReflowOven_operate m p t now).2.ReflowOven.phaseStartTime : ℚ) / 1000) := by
  rw [ReflowOven_operate_ReflowOven]
  generalize (ReflowOven_operate_transition
    { m with ReflowOven := ReflowOven_operate_safetyCheck m.ReflowOven t } t now).ReflowOven = o2
  obtain ⟨n, hn⟩ := ReflowOven_operate_timeout_frame o2 (u32_sub now o2.phaseStartTime)
  rw [hn]
  obtain ⟨hsp, hstart, htemp, hpar⟩ :=
    ReflowOven_operate_phase_setpoint { o2 with NextPhase := n } t (u32_sub now o2.phaseStartTime)
  rw [hstart, hsp]
  exact (setpointTable_congr _ _ _ (ReflowOven_operate_phase_currentPhase _ _ _) htemp hpar).symm

/-- C19: the value a tick returns is the value `PID_Update` returns when called
with the setpoint that `currentSetpoint` holds at return and the measured
temperature, on the controller the pointer names at that moment; the controller
after the tick is the result of that one update, so its `prevMeasurement` is
the measured temperature. When the caller passes its own controller, that
controller enters the update as the caller left it. -/
theorem C19_tick_returns_one_PID_Update (m : Memory) (p : PIDRef) (t : ℚ) (now : Nat) :
    (ReflowOven_operate m p t now).1 =
        (PID_Update (ReflowOven_operate_controllerAtUpdate m p t now)
          (ReflowOven_operate m p t now).2.ReflowOven.currentSetpoint t).1 ∧
      (ReflowOven_operate m p t now).2.load p =
        (PID_Update (ReflowOven_operate_controllerAtUpdate m p t now)
          (ReflowOven_operate m p t now).2.ReflowOven.currentSetpoint t).2 ∧
      ((ReflowOven_operate m p t now).2.load p).prevMeasurement = t ∧
      ReflowOven_operate_controllerAtUpdate m PIDRef.other t now = m.other ∧
      (ReflowOven_operate_controllerAtUpdate m PIDRef.global t now = m.PID ∨
        ReflowOven_operate_controllerAtUpdate m PIDRef.global t now = PID_Reset m.PID) := by
  have hout := ReflowOven_operate_output m p t now
  refine ⟨hout.1, hout.2, ?_, ?_, ?_⟩
  · rw [hout.2]
    rfl
  · exact ReflowOven_operate_transition_other _ _ _
  · unfold ReflowOven_operate_controllerAtUpdate
    show (ReflowOven_operate_transition _ t now).PID = m.PID ∨
      (ReflowOven_operate_transition _ t now).PID = PID_Reset m.PID
    rw [ReflowOven_operate_transition_PID]
    split_ifs
    · exact Or.inr rfl
    · exact Or.inl rfl

/-- C20 (the code at the failing input): a start is staged and the tick is
given the caller's own controller, which has accumulated memory. The tick
applies the transition into PREHEAT, yet the value it returns is not the output
of `PID_Update` on the reset controller but that of `PID_Update` on the
controller as the caller left it: `ReflowOven_transitionToPhase` reset the
global `PID`, which this tick does not update, and not the controller that was
passed. -/
theorem C20_passed_controller_not_reset :
    memoryStartStaged.ReflowOven.currentPhase = REFLOW_IDLE ∧
      (ReflowOven_operate memoryStartStaged PIDRef.other 25 0).2.ReflowOven.currentPhase =
        REFLOW_PREHEAT ∧
      (ReflowOven_operate memoryStartStaged PIDRef.other 25 0).1 ≠
        (PID_Update (PID_Reset memoryStartStaged.other)
          (ReflowOven_operate memoryStartStaged PIDRef.other 25 0).2.ReflowOven.currentSetpoint
          25).1 ∧
      (ReflowOven_operate memoryStartStaged PIDRef.other 25 0).1 =
        (PID_Update memoryStartStaged.other
          (ReflowOven_operate memoryStartStaged PIDRef.other 25 0).2.ReflowOven.currentSetpoint
          25).1 ∧
      (ReflowOven_operate memoryStartStaged PIDRef.other 25 0).2.PID =
        PID_Reset memoryStartStaged.PID := by
  decide!

/-- Which controller a transition into IDLE or into PREHEAT resets. On every
tick that applies such a transition, the global controller `PID` is the one
reset: given the global controller, the returned output and the controller
after the tick are those of `PID_Update` on `PID_Reset` of it, which is the
freshly initialised controller with the same gains, filter constant, limits
and sample time; given another controller, that controller enters the update
as the caller left it, and the global controller is reset and not updated. -/
theorem ReflowOven_operate_resets_global_controller (m : Memory) (t : ℚ) (now : Nat)
    (hpend : (ReflowOven_operate_safetyCheck m.ReflowOven t).NextPhase ≠
      (ReflowOven_operate_safetyCheck m.ReflowOven t).currentPhase)
    (hdest : (ReflowOven_operate_safetyCheck m.ReflowOven t).NextPhase = REFLOW_IDLE ∨
      (ReflowOven_operate_safetyCheck m.ReflowOven t).NextPhase = REFLOW_PREHEAT) :
    (ReflowOven_operate m PIDRef.global t now).1 =
        (PID_Update (PID_Reset m.PID)
          (ReflowOven_operate m PIDRef.global t now).2.ReflowOven.currentSetpoint t).1 ∧
      (ReflowOven_operate m PIDRef.global t now).2.PID =
        (PID_Update (PID_Reset m.PID)
          (ReflowOven_operate m PIDRef.global t now).2.ReflowOven.currentSetpoint t).2 ∧
      PID_Reset m.PID =
        PID_Init m.PID.Kp m.PID.Ki m.PID.Kd m.PID.tau m.PID.limMin m.PID.limMax
          m.PID.limMinInt m.PID.limMaxInt m.PID.T ∧
      (ReflowOven_operate m PIDRef.other t now).1 =
        (PID_Update m.other
          (ReflowOven_operate m PIDRef.other t now).2.ReflowOven.currentSetpoint t).1 ∧
      (ReflowOven_operate m PIDRef.other t now).2.PID = PID_Reset m.PID := by
  have hglobal : (ReflowOven_operate_transition
      { m with ReflowOven := ReflowOven_operate_safetyCheck m.ReflowOven t } t now).PID =
        PID_Reset m.PID := by
    rw [ReflowOven_operate_transition_PID, if_pos ⟨hpend, hdest⟩]
  have hg := ReflowOven_operate_output m PIDRef.global t now
  have ho := ReflowOven_operate_output m PIDRef.other t now
  simp only [Memory.load] at hg ho
  rw [hglobal] at hg
  rw [ReflowOven_operate_transition_other] at ho
  refine ⟨hg.1, hg.2, rfl, ho.1, ?_⟩
  rw [← hglobal]
  simp [ReflowOven_operate, Memory.store]

/-- An instance of the reset of the global controller: a start is staged and
the global controller has accumulated memory; the tick at 25 degrees applies
the transition into PREHEAT. -/
theorem ReflowOven_operate_resets_global_controller_example :
    (ReflowOven_operate memoryStartStaged PIDRef.global 25 0).1 =
        (PID_Update (PID_Reset memoryStartStaged.PID)
          (ReflowOven_operate memoryStartStaged PIDRef.global 25 0).2.ReflowOven.currentSetpoint
          25).1 ∧
      (ReflowOven_operate memoryStartStaged PIDRef.global 25 0).2.PID =
        (PID_Update (PID_Reset memoryStartStaged.PID)
          (ReflowOven_operate memoryStartStaged PIDRef.global 25 0).2.ReflowOven.currentSetpoint
          25).2 :=
  have h := ReflowOven_operate_resets_global_controller memoryStartStaged 25 0 (by decide)
    (by decide)
  ⟨h.1, h.2.1⟩

/-- C21: `emergencyStop` is cleared only on entering IDLE. For every state and
every call of the control surface, if the flag is true before the call and
false after it, then the call is a tick, `currentPhase` was not IDLE before it
and is IDLE after it. -/
theorem C21_emergencyStop_cleared_only_on_entering_idle (m : Memory) (c : Call)
    (hbefore : m.ReflowOven.emergencyStop = true)
    (hafter : (c.exec m).ReflowOven.emergencyStop = false) :
    c.isOperate = true ∧
      m.ReflowOven.currentPhase ≠ REFLOW_IDLE ∧
      (c.exec m).ReflowOven.currentPhase = REFLOW_IDLE := by
  have hop : c.isOperate = true := by
    cases hc : c.isOperate with
    | true => rfl
    | false =>
      rw [Call.exec_emergencyStop_of_not_operate m c hc, hbefore] at hafter
      exact absurd hafter (by decide)
  refine ⟨hop, ?_⟩
  cases c with
  | operate p t now =>
    simp only [Call.exec] at hafter ⊢
    rw [ReflowOven_operate_emergencyStop, ReflowOven_operate_transition_emergencyStop] at hafter
    rw [ReflowOven_operate_currentPhase, ReflowOven_operate_transition_currentPhase]
    have hflag : (ReflowOven_operate_safetyCheck m.ReflowOven t).emergencyStop = true := by
      unfold ReflowOven_operate_safetyCheck
      split_ifs
      · rfl
      · exact hbefore
    have hcur : (ReflowOven_operate_safetyCheck m.ReflowOven t).currentPhase =
        m.ReflowOven.currentPhase := by
      unfold ReflowOven_operate_safetyCheck
      split_ifs <;> rfl
    simp only [hflag, hcur] at hafter
    by_cases hcond : (ReflowOven_operate_safetyCheck m.ReflowOven t).NextPhase ≠
        m.ReflowOven.currentPhase ∧
        (ReflowOven_operate_safetyCheck m.ReflowOven t).NextPhase = REFLOW_IDLE
    · refine ⟨?_, hcond.2⟩
      intro hidle
      exact hcond.1 (by rw [hcond.2, hidle])
    · rw [if_neg hcond] at hafter
      exact absurd hafter (by decide)
  | startProcess => simp [Call.isOperate] at hop
  | stopProcess => simp [Call.isOperate] at hop
  | modifyParameters id v => simp [Call.isOperate] at hop

/-- C21 (witness): settled in PREHEAT with the flag raised, an over-temperature
tick enters IDLE and the flag is false afterwards. -/
theorem C21_emergencyStop_cleared_only_on_entering_idle_witness :
    memoryFlaggedPreheat.ReflowOven.emergencyStop = true ∧
      ((Call.operate PIDRef.global 251 0).exec memoryFlaggedPreheat).ReflowOven.emergencyStop
        = false ∧
      (Call.operate PIDRef.global 251 0).isOperate = true ∧
      memoryFlaggedPreheat.ReflowOven.currentPhase ≠ REFLOW_IDLE ∧
      ((Call.operate PIDRef.global 251 0).exec memoryFlaggedPreheat).ReflowOven.currentPhase
        = REFLOW_IDLE :=
  ⟨by decide, by decide,
    C21_emergencyStop_cleared_only_on_entering_idle memoryFlaggedPreheat
      (Call.operate PIDRef.global 251 0) (by decide) (by decide)⟩

/-- C22: a tick at a temperature `≤ 250` that is entered with a pending
transition makes the staged phase the current one and stamps
`phaseStartTime = now` and `temperatureAtPhaseStart = t`; a tick entered with
nothing pending leaves `currentPhase`, `phaseStartTime` and
`temperatureAtPhaseStart` unchanged. -/
theorem C22_transition_stamps_phase_entry (m : Memory) (p : PIDRef) (t : ℚ) (now : Nat)
    (ht : t ≤ 250) :
    (m.ReflowOven.NextPhase ≠ m.ReflowOven.currentPhase →
      (ReflowOven_operate m p t now).2.ReflowOven.currentPhase = m.ReflowOven.NextPhase ∧
        (ReflowOven_operate m p t now).2.ReflowOven.phaseStartTime = now ∧
        (ReflowOven_operate m p t now).2.ReflowOven.temperatureAtPhaseStart = t) ∧
    (m.ReflowOven.NextPhase = m.ReflowOven.currentPhase →
      (ReflowOven_operate m p t now).2.ReflowOven.currentPhase = m.ReflowOven.currentPhase ∧
        (ReflowOven_operate m p t now).2.ReflowOven.phaseStartTime =
          m.ReflowOven.phaseStartTime ∧
        (ReflowOven_operate m p t now).2.ReflowOven.temperatureAtPhaseStart =
          m.ReflowOven.temperatureAtPhaseStart) := by
  have hst := ReflowOven_operate_stamps m p t now
  rw [ReflowOven_operate_safetyCheck_cool _ _ ht] at hst
  have hcur := ReflowOven_operate_cool_currentPhase m p t now ht
  constructor
  · intro hpend
    have hstamp := ReflowOven_transitionToPhase_stamps m m.ReflowOven.NextPhase t now
    simp only [ReflowOven_operate_transition, hpend, ne_eq, not_false_eq_true, if_true] at hst
    exact ⟨hcur, hst.1.trans hstamp.1, hst.2.1.trans hstamp.2.1⟩
  · intro hset
    simp only [ReflowOven_operate_transition, hset, ne_eq, not_true_eq_false, if_false] at hst
    exact ⟨hcur.trans hset, hst.1, hst.2.1⟩

/-- C22 (witness): a start is staged; the tick at 25 degrees and time 1000
enters PREHEAT and stamps both fields. -/
theorem C22_transition_stamps_phase_entry_witness :
    (25 : ℚ) ≤ 250 ∧
      (ReflowOven_operate memoryStartStaged PIDRef.global 25 1000).2.ReflowOven.currentPhase =
        REFLOW_PREHEAT ∧
      (ReflowOven_operate memoryStartStaged PIDRef.global 25 1000).2.ReflowOven.phaseStartTime =
        1000 ∧
      (ReflowOven_operate memoryStartStaged PIDRef.global 25 1000
        ).2.ReflowOven.temperatureAtPhaseStart = 25 :=
  ⟨by decide,
    (C22_transition_stamps_phase_entry memoryStartStaged PIDRef.global 25 1000 (by decide)).1
      (by decide)⟩

/-- C23: end to end. Starting from `ReflowOven_Init`, after `startProcess`, a
first tick at time `now0` and any further ticks, every tick at a measured
temperature below 150 degrees (the first at `t0`) and at a 32-bit time that is
at least `now0` and at most 600 s after it, the sequencer is in PREHEAT, not in
SOAK, and `currentSetpoint` is `min (t0 + 0.5 * (now_k - now0) / 1000, 150)` with
`now_k` the time of the last tick. With the temperature held at 25 degrees on
every tick this is `min (25 + 0.5 * (now_k - now0) / 1000, 150)`. The list of
further ticks is arbitrary, so this holds after each tick of a run; times need
not even be non-decreasing. -/
theorem C23_preheat_ramp_end_to_end (pid other : PIDController) (p0 : PIDRef) (t0 : ℚ)
    (now0 : Nat) (later : List (PIDRef × ℚ × Nat)) (h0 : now0 < 4294967296) (ht0 : t0 < 150)
    (hl : ∀ x ∈ later,
      x.2.1 < 150 ∧ now0 ≤ x.2.2 ∧ x.2.2 - now0 ≤ 600 * 1000 ∧ x.2.2 < 4294967296) :
    (runCalls (initialMemory pid other)
        (Call.startProcess :: Call.operate p0 t0 now0 :: ticksAt later)
      ).ReflowOven.currentPhase = REFLOW_PREHEAT ∧
    (runCalls (initialMemory pid other)
        (Call.startProcess :: Call.operate p0 t0 now0 :: ticksAt later)
      ).ReflowOven.currentSetpoint =
        min (t0 + 1 / 2 *
          ((((later.map (fun x => x.2.2)).getLastD now0 - now0 : Nat) : ℚ) / 1000)) 150 ∧
    (runCalls (initialMemory pid other)
        (Call.startProcess :: Call.operate p0 t0 now0 :: ticksAt later)
      ).ReflowOven.currentPhase ≠ REFLOW_SOAK := by
  have key : preheatRamping now0 t0
      (runCalls (initialMemory pid other)
        (Call.startProcess :: Call.operate p0 t0 now0 :: ticksAt later)).ReflowOven ∧
      (runCalls (initialMemory pid other)
        (Call.startProcess :: Call.operate p0 t0 now0 :: ticksAt later)
      ).ReflowOven.currentSetpoint =
        min (t0 + 1 / 2 *
          ((((later.map (fun x => x.2.2)).getLastD now0 - now0 : Nat) : ℚ) / 1000)) 150 := by
    induction later using List.reverseRecOn with
    | nil =>
      obtain ⟨hinv, hsp⟩ := preheatRamping_first_tick pid other p0 t0 now0 ht0 h0
      refine ⟨hinv, ?_⟩
      simp only [ticksAt, List.map_nil] at hsp ⊢
      rw [hsp]
      simp
      linarith
    | append_singleton xs x ih =>
      have hxs : ∀ y ∈ xs,
          y.2.1 < 150 ∧ now0 ≤ y.2.2 ∧ y.2.2 - now0 ≤ 600 * 1000 ∧ y.2.2 < 4294967296 :=
        fun y hy => hl y (List.mem_append_left _ hy)
      have hx := hl x (List.mem_append_right _ (List.mem_singleton_self x))
      have hrun : runCalls (initialMemory pid other)
          (Call.startProcess :: Call.operate p0 t0 now0 :: ticksAt (xs ++ [x])) =
          (ReflowOven_operate
            (runCalls (initialMemory pid other)
              (Call.startProcess :: Call.operate p0 t0 now0 :: ticksAt xs))
            x.1 x.2.1 x.2.2).2 := by
        simp [runCalls, ticksAt, List.foldl_append, Call.exec]
      rw [hrun]
      have htick := preheatRamping_tick now0 t0 _ x.1 x.2.1 x.2.2 (ih hxs).1 hx.1 hx.2.1
        hx.2.2.1 hx.2.2.2
      refine ⟨htick.1, ?_⟩
      rw [htick.2]
      simp
  refine ⟨key.1.1, key.2, ?_⟩
  rw [key.1.1]
  decide

/-- C23 (witness): the temperature is held at 25 degrees; a first tick at
1000 ms, then ticks at 2000 ms and at 301000 ms; the ramp has reached its cap. -/
theorem C23_preheat_ramp_end_to_end_witness :
    (runCalls (initialMemory examplePID examplePID)
        (Call.startProcess :: Call.operate PIDRef.global 25 1000 ::
          ticksAt [(PIDRef.global, 25, 2000), (PIDRef.global, 25, 301000)])
      ).ReflowOven.currentPhase = REFLOW_PREHEAT ∧
    (runCalls (initialMemory examplePID examplePID)
        (Call.startProcess :: Call.operate PIDRef.global 25 1000 ::
          ticksAt [(PIDRef.global, 25, 2000), (PIDRef.global, 25, 301000)])
      ).ReflowOven.currentSetpoint = 150 ∧
    (runCalls (initialMemory examplePID examplePID)
        (Call.startProcess :: Call.operate PIDRef.global 25 1000 ::
          ticksAt [(PIDRef.global, 25, 2000), (PIDRef.global, 25, 301000)])
      ).ReflowOven.currentPhase ≠ REFLOW_SOAK :=
  have h := C23_preheat_ramp_end_to_end examplePID examplePID PIDRef.global 25 1000
    [(PIDRef.global, 25, 2000), (PIDRef.global, 25, 301000)] (by decide) (by norm_num)
    (by
      intro x hx
      simp only [List.mem_cons, List.mem_singleton, List.not_mem_nil, or_false] at hx
      rcases hx with rfl | rfl <;> norm_num)
  ⟨h.1, by rw [h.2.1]; norm_num, h.2.2⟩

/-- C24 (counterexample): a controller initialised with integrator limits
`limMinInt = 5` and `limMaxInt = -5`, which `PID_Init` stores as given. On the
update with setpoint 1 and measurement 0 the accumulated integrator is 1/2;
`PID_Update` stores -5, the reference definition stores 5, and the outputs
differ as well. -/
theorem C24_inverted_limits_counterexample :
    (PID_Update (PID_Init 1 1 1 1 0 100 5 (-5) 1) 1 0).2.integrator = -5 ∧
      (PID_Update_reference (PID_Init 1 1 1 1 0 100 5 (-5) 1) 1 0).2.integrator = 5 ∧
      (PID_Update (PID_Init 1 1 1 1 0 100 5 (-5) 1) 1 0).1 ≠
        (PID_Update_reference (PID_Init 1 1 1 1 0 100 5 (-5) 1) 1 0).1 ∧
      PID_Update (PID_Init 1 1 1 1 0 100 5 (-5) 1) 1 0 ≠
        PID_Update_reference (PID_Init 1 1 1 1 0 100 5 (-5) 1) 1 0 := by
  decide!

/-- C24 (amended): for every controller whose limits are ordered
(`limMinInt ≤ limMaxInt` and `limMin ≤ limMax`), `PID_Update` equals its
reference definition: the new integrator is the accumulated value clamped to the
integrator limits, the new differentiator is the filtered derivative of the
measurement, the output is the clamped sum, `prevError` and `prevMeasurement`
take the error and the measurement, and gains, filter constant, limits and
sample time are unchanged. -/
theorem C24_PID_Update_equals_reference (pid : PIDController) (setpoint measurement : ℚ)
    (hint : pid.limMinInt ≤ pid.limMaxInt) (hout : pid.limMin ≤ pid.limMax) :
    PID_Update pid setpoint measurement = PID_Update_reference pid setpoint measurement := by
  have hi : PID_Update_integrator pid (setpoint - measurement) =
      clampTo (pid.integrator + 1 / 2 * pid.Ki * pid.T * (setpoint - measurement + pid.prevError))
        pid.limMinInt pid.limMaxInt :=
    saturate_eq_clampTo _ _ _ hint
  have ho : ∀ x, PID_Update_limit pid x = clampTo x pid.limMin pid.limMax :=
    fun x => saturate_eq_clampTo x _ _ hout
  simp only [PID_Update, PID_Update_reference, hi, ho, PID_Update_differentiator]

/-- C24 (witness): the example controller with accumulated memory, setpoint 150
and measurement 25. -/
theorem C24_PID_Update_equals_reference_witness :
    usedPID.limMinInt ≤ usedPID.limMaxInt ∧ usedPID.limMin ≤ usedPID.limMax ∧
      PID_Update usedPID 150 25 = PID_Update_reference usedPID 150 25 :=
  ⟨by decide, by decide, C24_PID_Update_equals_reference usedPID 150 25 (by decide) (by decide)⟩

/-- C25: the derivative term acts on the measurement only. From the same
controller state and with the same measurement, two calls of `PID_Update` with
different setpoints store the same differentiator and the same
`prevMeasurement`. -/
theorem C25_derivative_independent_of_setpoint (pid : PIDController) (s1 s2 m : ℚ) :
    (PID_Update pid s1 m).2.differentiator = (PID_Update pid s2 m).2.differentiator ∧
      (PID_Update pid s1 m).2.prevMeasurement = (PID_Update pid s2 m).2.prevMeasurement ∧
      (PID_Update pid s1 m).2.prevMeasurement = m :=
  ⟨rfl, rfl, rfl⟩

/-- C26: for a controller with `Kp ≥ 0`, `Ki ≥ 0`, `T > 0` and ordered limits,
from the same state and with the same measurement the output of `PID_Update`
is non-decreasing in the setpoint, hence in the error, and both outputs lie
between `limMin` and `limMax`. -/
theorem C26_PID_Update_monotone_in_error (pid : PIDController) (s1 s2 m : ℚ)
    (hKp : pid.Kp ≥ 0) (hKi : pid.Ki ≥ 0) (hT : pid.T > 0)
    (hout : pid.limMin ≤ pid.limMax) (hint : pid.limMinInt ≤ pid.limMaxInt)
    (hs : s1 ≤ s2) :
    (PID_Update pid s1 m).1 ≤ (PID_Update pid s2 m).1 ∧
      pid.limMin ≤ (PID_Update pid s1 m).1 ∧ (PID_Update pid s1 m).1 ≤ pid.limMax ∧
      pid.limMin ≤ (PID_Update pid s2 m).1 ∧ (PID_Update pid s2 m).1 ≤ pid.limMax := by
  have hbound : ∀ x : ℚ, pid.limMin ≤ PID_Update_limit pid x ∧
      PID_Update_limit pid x ≤ pid.limMax := by
    intro x
    unfold PID_Update_limit
    split_ifs with h1 h2
    · exact ⟨hout, le_refl _⟩
    · exact ⟨le_refl _, hout⟩
    · exact ⟨not_lt.mp h2, not_lt.mp h1⟩
  have he : s1 - m ≤ s2 - m := by linarith
  have hKiT : 0 ≤ 1 / 2 * pid.Ki * pid.T := by positivity
  have hprop : pid.Kp * (s1 - m) ≤ pid.Kp * (s2 - m) := mul_le_mul_of_nonneg_left he hKp
  have hacc : pid.integrator + 1 / 2 * pid.Ki * pid.T * (s1 - m + pid.prevError) ≤
      pid.integrator + 1 / 2 * pid.Ki * pid.T * (s2 - m + pid.prevError) := by
    have := mul_le_mul_of_nonneg_left (add_le_add_right he pid.prevError) hKiT
    linarith
  have hinteg : PID_Update_integrator pid (s1 - m) ≤ PID_Update_integrator pid (s2 - m) :=
    saturate_mono _ _ _ _ hint hacc
  have hsum : pid.Kp * (s1 - m) + PID_Update_integrator pid (s1 - m)
        + PID_Update_differentiator pid m ≤
      pid.Kp * (s2 - m) + PID_Update_integrator pid (s2 - m)
        + PID_Update_differentiator pid m := by
    linarith
  exact ⟨saturate_mono _ _ _ _ hout hsum, (hbound _).1, (hbound _).2, (hbound _).1, (hbound _).2⟩

/-- C26 (witness): the example controller at measurement 25 with setpoints 20
and 30. -/
theorem C26_PID_Update_monotone_in_error_witness :
    (PID_Update examplePID 20 25).1 ≤ (PID_Update examplePID 30 25).1 ∧
      examplePID.limMin ≤ (PID_Update examplePID 20 25).1 ∧
      (PID_Update examplePID 20 25).1 ≤ examplePID.limMax ∧
      examplePID.limMin ≤ (PID_Update examplePID 30 25).1 ∧
      (PID_Update examplePID 30 25).1 ≤ examplePID.limMax :=
  C26_PID_Update_monotone_in_error examplePID 20 30 25 (by decide) (by decide) (by decide)
    (by decide) (by decide) (by decide)

/-- C27: restart equivalence. For a controller reached from `PID_Init` by any
sequence of `PID_Update` calls, an update after `PID_Reset` returns the same
output and leaves the same controller as the same update applied to a freshly
initialised controller with the same gains, filter constant, limits and sample
time; more generally this holds for every controller `c`, with the fresh
controller built from the fields of `c`. -/
theorem C27_restart_equivalence (kp ki kd tau limMin limMax limMinInt limMaxInt T : ℚ)
    (inputs : List (ℚ × ℚ)) (c : PIDController) (s m : ℚ) :
    PID_Update
        (PID_Reset
          (PID_Update_seq (PID_Init kp ki kd tau limMin limMax limMinInt limMaxInt T) inputs))
        s m =
      PID_Update (PID_Init kp ki kd tau limMin limMax limMinInt limMaxInt T) s m ∧
    PID_Update (PID_Reset c) s m =
      PID_Update
        (PID_Init c.Kp c.Ki c.Kd c.tau c.limMin c.limMax c.limMinInt c.limMaxInt c.T) s m := by
  refine ⟨?_, rfl⟩
  rw [PID_Reset_PID_Update_seq]
  rfl

/-- C28: `PID_Reset` sets `integrator`, `prevError`, `differentiator`,
`prevMeasurement` and `out` to 0 and leaves the gains, the filter constant, the
four limits and the sample time unchanged; `PID_UpdateGains` replaces the three
gains and leaves those five memory fields, the filter constant, the limits and
the sample time unchanged. -/
theorem C28_reset_and_updateGains_frames (c : PIDController) (kp ki kd : ℚ) :
    PID_Reset c =
        { Kp := c.Kp, Ki := c.Ki, Kd := c.Kd, tau := c.tau
          limMin := c.limMin, limMax := c.limMax
          limMinInt := c.limMinInt, limMaxInt := c.limMaxInt
          T := c.T
          integrator := 0, prevError := 0, differentiator := 0, prevMeasurement := 0
          out := 0 } ∧
      PID_UpdateGains c kp ki kd =
        { Kp := kp, Ki := ki, Kd := kd, tau := c.tau
          limMin := c.limMin, limMax := c.limMax
          limMinInt := c.limMinInt, limMaxInt := c.limMaxInt
          T := c.T
          integrator := c.integrator, prevError := c.prevError
          differentiator := c.differentiator, prevMeasurement := c.prevMeasurement
          out := c.out } :=
  ⟨rfl, rfl⟩

/-- C29 (counterexample): the argument tuple with sample time 0, filter
constant -1, output limits 10 and 0 and integrator limits 5 and -5 violates all
four constraints. `PID_Init` stores it as given, and the controller works:
`PID_Update` at setpoint 1 and measurement 0 returns 10. -/
theorem C29_invalid_configuration_accepted :
    ¬ PID_configValid (-1) 10 0 5 (-5) 0 ∧
      (PID_Init 1 1 1 (-1) 10 0 5 (-5) 0).T = 0 ∧
      (PID_Init 1 1 1 (-1) 10 0 5 (-5) 0).tau = -1 ∧
      (PID_Init 1 1 1 (-1) 10 0 5 (-5) 0).limMin = 10 ∧
      (PID_Init 1 1 1 (-1) 10 0 5 (-5) 0).limMax = 0 ∧
      (PID_Init 1 1 1 (-1) 10 0 5 (-5) 0).limMinInt = 5 ∧
      (PID_Init 1 1 1 (-1) 10 0 5 (-5) 0).limMaxInt = -5 ∧
      (PID_Update (PID_Init 1 1 1 (-1) 10 0 5 (-5) 0) 1 0).1 = 10 := by
  decide!

/-- C29 (amended): `PID_Init` performs no validation and reports nothing. For
every argument tuple, whether or not it satisfies `T > 0`, `tau ≥ 0`,
`limMin < limMax` and `limMinInt < limMaxInt`, it produces the controller that
holds the arguments as given, with the five memory fields zero. -/
theorem C29_PID_Init_stores_any_configuration
    (kp ki kd tau limMin limMax limMinInt limMaxInt T : ℚ) :
    PID_Init kp ki kd tau limMin limMax limMinInt limMaxInt T =
      { Kp := kp, Ki := ki, Kd := kd, tau := tau
        limMin := limMin, limMax := limMax
        limMinInt := limMinInt, limMaxInt := limMaxInt
        T := T
        integrator := 0, prevError := 0, differentiator := 0, prevMeasurement := 0
        out := 0 } :=
  rfl

/-- C30 (counterexample): with integrator limits 1 and 2, which are strictly
ordered, the integrator is 0 right after `PID_Init` and right after
`PID_Reset`, below the lower limit. -/
theorem C30_integrator_outside_limits_counterexample :
    (PID_Init 2 1 1 1 0 100 1 2 1).limMinInt < (PID_Init 2 1 1 1 0 100 1 2 1).limMaxInt ∧
      ¬ ((PID_Init 2 1 1 1 0 100 1 2 1).limMinInt ≤ (PID_Init 2 1 1 1 0 100 1 2 1).integrator) ∧
      ¬ ((PID_Reset (PID_Init 2 1 1 1 0 100 1 2 1)).limMinInt ≤
          (PID_Reset (PID_Init 2 1 1 1 0 100 1 2 1)).integrator) := by
  decide

/-- C30 (amended): for every configuration whose integrator limits contain 0
(`limMinInt ≤ 0 ≤ limMaxInt`), the integrator, which is 0, lies between the
limits right after `PID_Init` and right after every `PID_Reset`. -/
theorem C30_integrator_within_limits_after_init_and_reset
    (kp ki kd tau limMin limMax limMinInt limMaxInt T : ℚ) (c : PIDController)
    (hinit : limMinInt ≤ 0 ∧ 0 ≤ limMaxInt) (hc : c.limMinInt ≤ 0 ∧ 0 ≤ c.limMaxInt) :
    (PID_Init kp ki kd tau limMin limMax limMinInt limMaxInt T).integrator = 0 ∧
      limMinInt ≤ (PID_Init kp ki kd tau limMin limMax limMinInt limMaxInt T).integrator ∧
      (PID_Init kp ki kd tau limMin limMax limMinInt limMaxInt T).integrator ≤ limMaxInt ∧
      (PID_Reset c).integrator = 0 ∧
      (PID_Reset c).limMinInt ≤ (PID_Reset c).integrator ∧
      (PID_Reset c).integrator ≤ (PID_Reset c).limMaxInt :=
  ⟨rfl, hinit.1, hinit.2, rfl, hc.1, hc.2⟩

/-- C30 (witness): the example configuration, whose integrator limits are -10
and 10, and the example controller with accumulated memory. -/
theorem C30_integrator_within_limits_after_init_and_reset_witness :
    (PID_Init 2 1 1 1 0 100 (-10) 10 1).integrator = 0 ∧
      (-10 : ℚ) ≤ (PID_Init 2 1 1 1 0 100 (-10) 10 1).integrator ∧
      (PID_Init 2 1 1 1 0 100 (-10) 10 1).integrator ≤ 10 ∧
      (PID_Reset usedPID).integrator = 0 ∧
      (PID_Reset usedPID).limMinInt ≤ (PID_Reset usedPID).integrator ∧
      (PID_Reset usedPID).integrator ≤ (PID_Reset usedPID).limMaxInt :=
  C30_integrator_within_limits_after_init_and_reset 2 1 1 1 0 100 (-10) 10 1 usedPID
    (by decide) (by decide)

/-- C31: in every state reachable from `ReflowOven_Init` by any sequence of
`startProcess`, `stopProcess`, `modifyParameters` and tick calls, all eight
parameters lie within their legal ranges, hence the cool-down temperature is at
most the soak temperature, which is below the reflow temperature, which is
below 250; and a call made while `currentPhase` is not IDLE changes no
parameter. -/
theorem C31_parameters_stay_in_range (pid other : PIDController) (calls : List Call)
    (c : Call) :
    ReflowParameters_inRange (runCalls (initialMemory pid other) calls).ReflowOven.ReflowParameters ∧
    ((runCalls (initialMemory pid other) calls).ReflowOven.ReflowParameters.CoolDownTempeture ≤
        (runCalls (initialMemory pid other) calls).ReflowOven.ReflowParameters.SoakTempeture ∧
      (runCalls (initialMemory pid other) calls).ReflowOven.ReflowParameters.SoakTempeture <
        (runCalls (initialMemory pid other) calls).ReflowOven.ReflowParameters.ReflowTempeture ∧
      (runCalls (initialMemory pid other) calls).ReflowOven.ReflowParameters.ReflowTempeture
        < 250) ∧
    ((runCalls (initialMemory pid other) calls).ReflowOven.currentPhase ≠ REFLOW_IDLE →
      (c.exec (runCalls (initialMemory pid other) calls)).ReflowOven.ReflowParameters =
        (runCalls (initialMemory pid other) calls).ReflowOven.ReflowParameters) := by
  have h := runCalls_inRange pid other calls
  refine ⟨h, ?_, Call.exec_ReflowParameters_of_running _ c⟩
  obtain ⟨_, h2, _, _, h5, _, _, h8⟩ := h
  refine ⟨?_, ?_, ?_⟩ <;> linarith [h2.1, h2.2, h5.1, h5.2, h8.1, h8.2]

/-- C32: `ReflowOven_getPhaseElapsedTime` returns the whole seconds of the
32-bit difference `(now - phaseStartTime) mod 2 ^ 32`. It equals the whole
seconds of `now - phaseStartTime` when both are 32-bit values with
`now ≥ phaseStartTime`, and it equals the whole seconds of the true elapsed
time when the clock has wrapped, as long as the true elapsed time is below
`2 ^ 32` ms. The function returns a number only; it writes nothing. -/
theorem C32_getPhaseElapsedTime_wraps (o : ReflowOven_t) (now : Nat) :
    ((ReflowOven_getPhaseElapsedTime o now : Nat) : ℤ) =
        ((now : ℤ) - (o.phaseStartTime : ℤ)) % 4294967296 / 1000 ∧
    (o.phaseStartTime ≤ now → now < 4294967296 →
      ReflowOven_getPhaseElapsedTime o now = (now - o.phaseStartTime) / 1000) ∧
    (∀ trueStart trueNow : Nat, trueStart ≤ trueNow → trueNow - trueStart < 4294967296 →
      o.phaseStartTime = trueStart % 4294967296 →
      ReflowOven_getPhaseElapsedTime o (trueNow % 4294967296) = (trueNow - trueStart) / 1000) := by
  unfold ReflowOven_getPhaseElapsedTime u32_sub
  refine ⟨?_, ?_, ?_⟩
  · push_cast
    omega
  · intro h1 h2
    have : (now % 4294967296 + (4294967296 - o.phaseStartTime % 4294967296)) % 4294967296 =
        now - o.phaseStartTime := by omega
    rw [this]
  · intro trueStart trueNow h1 h2 h3
    have : (trueNow % 4294967296 % 4294967296 +
        (4294967296 - o.phaseStartTime % 4294967296)) % 4294967296 = trueNow - trueStart := by
      omega
    rw [this]

/-- C33: for every sequencer state, whatever is staged, and every time, a tick
with a measured temperature above 250 returns with `currentPhase` and
`NextPhase` both IDLE and `currentSetpoint = 25`. The test is strict: at
exactly 250 the over-temperature check changes nothing. -/
theorem C33_overtemperature_forces_idle (m : Memory) (p : PIDRef) (t : ℚ) (now : Nat)
    (ht : t > 250) :
    (ReflowOven_operate m p t now).2.ReflowOven.currentPhase = REFLOW_IDLE ∧
      (ReflowOven_operate m p t now).2.ReflowOven.NextPhase = REFLOW_IDLE ∧
      (ReflowOven_operate m p t now).2.ReflowOven.currentSetpoint = 25 ∧
      ReflowOven_operate_safetyCheck m.ReflowOven 250 = m.ReflowOven ∧
      (ReflowOven_operate m p 250 now).2.ReflowOven.currentPhase = m.ReflowOven.NextPhase := by
  have h := ReflowOven_operate_hot m p t now ht
  exact ⟨h.1, h.2.1, h.2.2.1, ReflowOven_operate_safetyCheck_cool _ _ (le_refl _),
    ReflowOven_operate_cool_currentPhase m p 250 now (le_refl _)⟩

/-- C33 (witness): a start is staged and the tick measures 251 degrees; the
staged start is discarded. At 250 degrees, from SOAK, the phase is kept. -/
theorem C33_overtemperature_forces_idle_witness :
    (251 : ℚ) > 250 ∧
      (ReflowOven_operate memoryStartStaged PIDRef.global 251 0).2.ReflowOven.currentPhase =
        REFLOW_IDLE ∧
      (ReflowOven_operate memoryStartStaged PIDRef.global 251 0).2.ReflowOven.NextPhase =
        REFLOW_IDLE ∧
      (ReflowOven_operate memoryStartStaged PIDRef.global 251 0).2.ReflowOven.currentSetpoint =
        25 :=
  have h := C33_overtemperature_forces_idle memoryStartStaged PIDRef.global 251 0 (by decide)
  ⟨by decide, h.1, h.2.1, h.2.2.1⟩

/-- C34: the heater command is not positive on an over-temperature trip from a
running phase. If the tick is given the global controller, the one the
sequencer resets, with `Kp, Ki, Kd ≥ 0`, `T > 0`, `tau ≥ 0` and limits that
contain 0, then from every phase other than IDLE and for every temperature
above 250 the value the tick returns is at most 0. -/
theorem C34_overtemperature_output_not_positive (m : Memory) (t : ℚ) (now : Nat)
    (hKp : m.PID.Kp ≥ 0) (hKi : m.PID.Ki ≥ 0) (hKd : m.PID.Kd ≥ 0)
    (hT : m.PID.T > 0) (htau : m.PID.tau ≥ 0)
    (hint : m.PID.limMinInt ≤ 0 ∧ 0 ≤ m.PID.limMaxInt)
    (hout : m.PID.limMin ≤ 0 ∧ 0 ≤ m.PID.limMax)
    (hrun : m.ReflowOven.currentPhase ≠ REFLOW_IDLE) (ht : t > 250) :
    (ReflowOven_operate m PIDRef.global t now).1 ≤ 0 := by
  have hout' := (ReflowOven_operate_output m PIDRef.global t now).1
  have hsp := (ReflowOven_operate_hot m PIDRef.global t now ht).2.2.1
  have hpid : (ReflowOven_operate_transition
      { m with ReflowOven := ReflowOven_operate_safetyCheck m.ReflowOven t } t now).PID =
      PID_Reset m.PID := by
    rw [ReflowOven_operate_transition_PID, ReflowOven_operate_safetyCheck_hot _ _ ht]
    exact if_pos ⟨fun h => hrun h.symm, Or.inl rfl⟩
  simp only [Memory.load] at hout'
  rw [hout', hpid, hsp]
  exact PID_Update_reset_nonpos m.PID 25 t hKp hKi hKd hT htau hint hout (by linarith)
    (by linarith)

/-- C34 (witness): settled in REFLOW with the example controller, at 251
degrees. -/
theorem C34_overtemperature_output_not_positive_witness :
    (ReflowOven_operate (memorySettledIn REFLOW_REFLOW) PIDRef.global 251 0).1 ≤ 0 :=
  C34_overtemperature_output_not_positive (memorySettledIn REFLOW_REFLOW) 251 0
    (by decide) (by decide) (by decide) (by decide) (by decide) (by decide) (by decide)
    (by decide) (by decide)

/-- C35: setpoint safety bound. In every state reachable from
`ReflowOven_Init` by any sequence of `startProcess`, `stopProcess`,
`modifyParameters` and tick calls, after one more tick the setpoint is at most
250; it is at most 180 in PREHEAT and SOAK, at most 240 in HEATUP and REFLOW,
and in COOLDOWN at most the larger of `temperatureAtPhaseStart` and the
cool-down temperature, with `temperatureAtPhaseStart ≤ 250`. -/
theorem C35_setpoint_safety_bound (pid other : PIDController) (calls : List Call)
    (p : PIDRef) (t : ℚ) (now : Nat) :
    (ReflowOven_operate (runCalls (initialMemory pid other) calls) p t now
      ).2.ReflowOven.currentSetpoint ≤ 250 ∧
    (((ReflowOven_operate (runCalls (initialMemory pid other) calls) p t now
          ).2.ReflowOven.currentPhase = REFLOW_PREHEAT ∨
        (ReflowOven_operate (runCalls (initialMemory pid other) calls) p t now
          ).2.ReflowOven.currentPhase = REFLOW_SOAK) →
      (ReflowOven_operate (runCalls (initialMemory pid other) calls) p t now
        ).2.ReflowOven.currentSetpoint ≤ 180) ∧
    (((ReflowOven_operate (runCalls (initialMemory pid other) calls) p t now
          ).2.ReflowOven.currentPhase = REFLOW_HEATUP ∨
        (ReflowOven_operate (runCalls (initialMemory pid other) calls) p t now
          ).2.ReflowOven.currentPhase = REFLOW_REFLOW) →
      (ReflowOven_operate (runCalls (initialMemory pid other) calls) p t now
        ).2.ReflowOven.currentSetpoint ≤ 240) ∧
    ((ReflowOven_operate (runCalls (initialMemory pid other) calls) p t now
        ).2.ReflowOven.currentPhase = REFLOW_COOLDOWN →
      (ReflowOven_operate (runCalls (initialMemory pid other) calls) p t now
          ).2.ReflowOven.currentSetpoint ≤
        max (ReflowOven_operate (runCalls (initialMemory pid other) calls) p t now
              ).2.ReflowOven.temperatureAtPhaseStart
            (ReflowOven_operate (runCalls (initialMemory pid other) calls) p t now
              ).2.ReflowOven.ReflowParameters.CoolDownTempeture ∧
        (ReflowOven_operate (runCalls (initialMemory pid other) calls) p t now
          ).2.ReflowOven.temperatureAtPhaseStart ≤ 250) :=
  ReflowOven_operate_setpoint_bounds _ p t now (runCalls_inRange pid other calls)
    (runCalls_cooldownStart pid other calls)

/-- C36: over-temperature while idle latches the flag. From IDLE, a tick above
250 degrees leaves `currentPhase` IDLE, raises `emergencyStop`, leaves
`phaseStartTime` and `temperatureAtPhaseStart` unchanged and discards a staged
start; the flag then stays raised through any further calls among which none
takes the sequencer from a phase other than IDLE into IDLE. -/
theorem C36_overtemperature_in_idle_latches (m : Memory) (p : PIDRef) (t : ℚ) (now : Nat)
    (calls : List Call)
    (hidle : m.ReflowOven.currentPhase = REFLOW_IDLE) (ht : t > 250) :
    (ReflowOven_operate m p t now).2.ReflowOven.currentPhase = REFLOW_IDLE ∧
      (ReflowOven_operate m p t now).2.ReflowOven.emergencyStop = true ∧
      (ReflowOven_operate m p t now).2.ReflowOven.phaseStartTime = m.ReflowOven.phaseStartTime ∧
      (ReflowOven_operate m p t now).2.ReflowOven.temperatureAtPhaseStart =
        m.ReflowOven.temperatureAtPhaseStart ∧
      (ReflowOven_operate m p t now).2.ReflowOven.NextPhase = REFLOW_IDLE ∧
      (reentersIdle (ReflowOven_operate m p t now).2 calls = false →
        (runCalls (ReflowOven_operate m p t now).2 calls).ReflowOven.emergencyStop = true) := by
  obtain ⟨h1, h2, _, h4⟩ := ReflowOven_operate_hot m p t now ht
  obtain ⟨hflag, hstart, htemp⟩ := h4 hidle
  exact ⟨h1, hflag, hstart, htemp, h2,
    runCalls_emergencyStop_latched calls _ hflag⟩

/-- C36 (witness): a start is staged and the tick measures 251 degrees; the
flag survives a new start, the tick that enters PREHEAT, a stop and a
parameter edit. -/
theorem C36_overtemperature_in_idle_latches_witness :
    (ReflowOven_operate memoryStartStaged PIDRef.global 251 0).2.ReflowOven.currentPhase =
        REFLOW_IDLE ∧
      (ReflowOven_operate memoryStartStaged PIDRef.global 251 0).2.ReflowOven.emergencyStop =
        true ∧
      (ReflowOven_operate memoryStartStaged PIDRef.global 251 0).2.ReflowOven.NextPhase =
        REFLOW_IDLE ∧
      (runCalls (ReflowOven_operate memoryStartStaged PIDRef.global 251 0).2
        [Call.startProcess, Call.operate PIDRef.global 25 1000, Call.stopProcess,
          Call.modifyParameters PARAM_SoakTime 90]).ReflowOven.emergencyStop = true :=
  have h := C36_overtemperature_in_idle_latches memoryStartStaged PIDRef.global 251 0
    [Call.startProcess, Call.operate PIDRef.global 25 1000, Call.stopProcess,
      Call.modifyParameters PARAM_SoakTime 90] (by decide) (by decide)
  ⟨h.1, h.2.1, h.2.2.2.2.1, h.2.2.2.2.2 (by decide!)⟩

/-- C37: a stop request does not cancel a start that is staged but not yet
applied. With `currentPhase` IDLE and PREHEAT staged, `ReflowOven_stopProcess`
leaves the sequencer object unchanged and the next tick at a temperature
`≤ 250` enters PREHEAT. -/
theorem C37_stop_keeps_staged_start (m : Memory) (p : PIDRef) (t : ℚ) (now : Nat)
    (hidle : m.ReflowOven.currentPhase = REFLOW_IDLE)
    (hstaged : m.ReflowOven.NextPhase = REFLOW_PREHEAT) (ht : t ≤ 250) :
    ReflowOven_stopProcess m.ReflowOven = m.ReflowOven ∧
      (ReflowOven_operate { m with ReflowOven := ReflowOven_stopProcess m.ReflowOven } p t now
        ).2.ReflowOven.currentPhase = REFLOW_PREHEAT := by
  have hstop : ReflowOven_stopProcess m.ReflowOven = m.ReflowOven := by
    simp [ReflowOven_stopProcess, hidle]
  refine ⟨hstop, ?_⟩
  rw [ReflowOven_operate_cool_currentPhase _ _ _ _ ht, hstop]
  exact hstaged

/-- C37 (witness): the state with a staged start, a stop, then a tick at 25
degrees. -/
theorem C37_stop_keeps_staged_start_witness :
    ReflowOven_stopProcess memoryStartStaged.ReflowOven = memoryStartStaged.ReflowOven ∧
      (ReflowOven_operate
        { memoryStartStaged with
          ReflowOven := ReflowOven_stopProcess memoryStartStaged.ReflowOven }
        PIDRef.global 25 0).2.ReflowOven.currentPhase = REFLOW_PREHEAT :=
  C37_stop_keeps_staged_start memoryStartStaged PIDRef.global 25 0 (by decide) (by decide)
    (by decide)

/-- C38: for a sequencer settled in PREHEAT (respectively HEATUP) and a
measured temperature `≤ 250` below the soak (respectively reflow) temperature,
a tick more than 600 s into the phase stages COOLDOWN and keeps the phase, and
the following tick at a temperature `≤ 250` makes COOLDOWN the current phase,
with `phaseStartTime` that tick's time and `temperatureAtPhaseStart` its
measured temperature. This holds for every parameter set, in range or not. -/
theorem C38_timeout_from_heating_phase (m : Memory) (p p' : PIDRef) (t t' : ℚ)
    (now now' : Nat)
    (hset : m.ReflowOven.NextPhase = m.ReflowOven.currentPhase)
    (hphase : m.ReflowOven.currentPhase = REFLOW_PREHEAT ∨
      m.ReflowOven.currentPhase = REFLOW_HEATUP)
    (ht : t ≤ 250) (hel : u32_sub now m.ReflowOven.phaseStartTime > 600 * 1000)
    (hpre : m.ReflowOven.currentPhase = REFLOW_PREHEAT →
      t < m.ReflowOven.ReflowParameters.SoakTempeture)
    (hheat : m.ReflowOven.currentPhase = REFLOW_HEATUP →
      t < m.ReflowOven.ReflowParameters.ReflowTempeture)
    (ht' : t' ≤ 250) :
    (ReflowOven_operate m p t now).2.ReflowOven.NextPhase = REFLOW_COOLDOWN ∧
      (ReflowOven_operate m p t now).2.ReflowOven.currentPhase = m.ReflowOven.currentPhase ∧
      (ReflowOven_operate (ReflowOven_operate m p t now).2 p' t' now'
        ).2.ReflowOven.currentPhase = REFLOW_COOLDOWN ∧
      (ReflowOven_operate (ReflowOven_operate m p t now).2 p' t' now'
        ).2.ReflowOven.phaseStartTime = now' ∧
      (ReflowOven_operate (ReflowOven_operate m p t now).2 p' t' now'
        ).2.ReflowOven.temperatureAtPhaseStart = t' := by
  have hstage := ReflowOven_operate_timeout_heating m p t now hset hphase ht hel hpre hheat
  have hcur : (ReflowOven_operate m p t now).2.ReflowOven.currentPhase =
      m.ReflowOven.currentPhase := by
    rw [ReflowOven_operate_cool_currentPhase _ _ _ _ ht, hset]
  have hpend : (ReflowOven_operate m p t now).2.ReflowOven.NextPhase ≠
      (ReflowOven_operate m p t now).2.ReflowOven.currentPhase := by
    rw [hstage, hcur]
    rcases hphase with h | h <;> rw [h] <;> decide
  have hst := (ReflowOven_operate_cool_stamps (ReflowOven_operate m p t now).2 p' t' now' ht').1
    hpend
  refine ⟨hstage, hcur, ?_, hst.1, hst.2⟩
  rw [ReflowOven_operate_cool_currentPhase _ _ _ _ ht', hstage]

/-- C38 (witness): settled in HEATUP at 200 degrees, 600001 ms into the phase;
the second tick, at 190 degrees, comes one second later. -/
theorem C38_timeout_from_heating_phase_witness :
    (ReflowOven_operate (memorySettledIn REFLOW_HEATUP) PIDRef.global 200 600001
        ).2.ReflowOven.NextPhase = REFLOW_COOLDOWN ∧
      (ReflowOven_operate
        (ReflowOven_operate (memorySettledIn REFLOW_HEATUP) PIDRef.global 200 600001).2
        PIDRef.global 190 601001).2.ReflowOven.currentPhase = REFLOW_COOLDOWN ∧
      (ReflowOven_operate
        (ReflowOven_operate (memorySettledIn REFLOW_HEATUP) PIDRef.global 200 600001).2
        PIDRef.global 190 601001).2.ReflowOven.phaseStartTime = 601001 ∧
      (ReflowOven_operate
        (ReflowOven_operate (memorySettledIn REFLOW_HEATUP) PIDRef.global 200 600001).2
        PIDRef.global 190 601001).2.ReflowOven.temperatureAtPhaseStart = 190 :=
  have h := C38_timeout_from_heating_phase (memorySettledIn REFLOW_HEATUP) PIDRef.global
    PIDRef.global 200 190 600001 601001 (by decide) (by decide) (by decide) (by decide)
    (by decide) (by decide) (by decide)
  ⟨h.1, h.2.2.1, h.2.2.2.1, h.2.2.2.2⟩

/-- C39: the safety timeout has no effect during COOLDOWN. For every state
settled in COOLDOWN and every temperature above the cool-down temperature and
`≤ 250`, a tick at any time, in particular more than 600 s into the phase,
leaves `currentPhase` and `NextPhase` at COOLDOWN and `phaseStartTime` and
`temperatureAtPhaseStart` unchanged; so a tick leaves COOLDOWN staged unless
the temperature has reached the cool-down temperature or exceeds 250. -/
theorem C39_timeout_idle_in_cooldown (m : Memory) (p : PIDRef) (t : ℚ) (now : Nat)
    (hcur : m.ReflowOven.currentPhase = REFLOW_COOLDOWN)
    (hnext : m.ReflowOven.NextPhase = REFLOW_COOLDOWN)
    (hlo : m.ReflowOven.ReflowParameters.CoolDownTempeture < t) (ht : t ≤ 250) :
    (ReflowOven_operate m p t now).2.ReflowOven.currentPhase = REFLOW_COOLDOWN ∧
      (ReflowOven_operate m p t now).2.ReflowOven.NextPhase = REFLOW_COOLDOWN ∧
      (ReflowOven_operate m p t now).2.ReflowOven.phaseStartTime = m.ReflowOven.phaseStartTime ∧
      (ReflowOven_operate m p t now).2.ReflowOven.temperatureAtPhaseStart =
        m.ReflowOven.temperatureAtPhaseStart := by
  have hset : m.ReflowOven.NextPhase = m.ReflowOven.currentPhase := by rw [hcur, hnext]
  have hst := (ReflowOven_operate_cool_stamps m p t now ht).2 hset
  refine ⟨by rw [ReflowOven_operate_cool_currentPhase _ _ _ _ ht, hnext], ?_, hst.1, hst.2⟩
  rw [ReflowOven_operate_settled _ _ _ _ hset ht]
  have hto : ReflowOven_operate_timeout m.ReflowOven (u32_sub now m.ReflowOven.phaseStartTime) =
      m.ReflowOven := by
    unfold ReflowOven_operate_timeout
    split_ifs
    · rw [← hnext]
    · rfl
  rw [hto]
  unfold ReflowOven_operate_phase
  simp [hcur, not_le.mpr hlo, hnext]

/-- C39 (witness): settled in COOLDOWN at 100 degrees, 700 s into the phase. -/
theorem C39_timeout_idle_in_cooldown_witness :
    u32_sub 700000 (memorySettledIn REFLOW_COOLDOWN).ReflowOven.phaseStartTime > 600 * 1000 ∧
      (ReflowOven_operate (memorySettledIn REFLOW_COOLDOWN) PIDRef.global 100 700000
        ).2.ReflowOven.currentPhase = REFLOW_COOLDOWN ∧
      (ReflowOven_operate (memorySettledIn REFLOW_COOLDOWN) PIDRef.global 100 700000
        ).2.ReflowOven.NextPhase = REFLOW_COOLDOWN ∧
      (ReflowOven_operate (memorySettledIn REFLOW_COOLDOWN) PIDRef.global 100 700000
        ).2.ReflowOven.phaseStartTime =
          (memorySettledIn REFLOW_COOLDOWN).ReflowOven.phaseStartTime :=
  have h := C39_timeout_idle_in_cooldown (memorySettledIn REFLOW_COOLDOWN) PIDRef.global 100
    700000 (by decide) (by decide) (by decide) (by decide)
  ⟨by decide, h.1, h.2.1, h.2.2.1⟩

/-- C40: because a reset zeroes `prevMeasurement` and the differentiator, the
first `PID_Update` after `PID_Reset` or `PID_Init` (with `T > 0` and
`tau ≥ 0`) sets the derivative term to `-2 * Kd * m / (2 * tau + T)` for the
measurement `m`, whatever the setpoint and whatever the controller held before
the reset; it is non-zero whenever `Kd * m` is non-zero. -/
theorem C40_first_derivative_after_reset (c : PIDController)
    (kp ki kd tau limMin limMax limMinInt limMaxInt T : ℚ) (s m : ℚ)
    (hcT : c.T > 0) (hctau : c.tau ≥ 0) (hT : T > 0) (htau : tau ≥ 0) :
    (PID_Update (PID_Reset c) s m).2.differentiator = -2 * c.Kd * m / (2 * c.tau + c.T) ∧
      (PID_Update (PID_Init kp ki kd tau limMin limMax limMinInt limMaxInt T) s m
        ).2.differentiator = -2 * kd * m / (2 * tau + T) ∧
      (c.Kd * m ≠ 0 → (PID_Update (PID_Reset c) s m).2.differentiator ≠ 0) ∧
      (kd * m ≠ 0 →
        (PID_Update (PID_Init kp ki kd tau limMin limMax limMinInt limMaxInt T) s m
          ).2.differentiator ≠ 0) := by
  have h1 : (PID_Update (PID_Reset c) s m).2.differentiator =
      -2 * c.Kd * m / (2 * c.tau + c.T) := by
    show -(2 * c.Kd * (m - 0) + (2 * c.tau - c.T) * 0) / (2 * c.tau + c.T) = _
    congr 1
    ring
  have h2 : (PID_Update (PID_Init kp ki kd tau limMin limMax limMinInt limMaxInt T) s m
      ).2.differentiator = -2 * kd * m / (2 * tau + T) := by
    show -(2 * kd * (m - 0) + (2 * tau - T) * 0) / (2 * tau + T) = _
    congr 1
    ring
  have hden : 2 * c.tau + c.T ≠ 0 := by
    have : 0 < 2 * c.tau + c.T := by linarith
    exact ne_of_gt this
  have hden' : 2 * tau + T ≠ 0 := by
    have : 0 < 2 * tau + T := by linarith
    exact ne_of_gt this
  refine ⟨h1, h2, ?_, ?_⟩
  · intro hne
    rw [h1]
    apply div_ne_zero _ hden
    intro hz
    apply hne
    linarith
  · intro hne
    rw [h2]
    apply div_ne_zero _ hden'
    intro hz
    apply hne
    linarith

/-- C40 (witness): the example controller with accumulated memory, reset and
updated with setpoint and measurement both 25: the error is zero and the
derivative term is -50/3. -/
theorem C40_first_derivative_after_reset_witness :
    (PID_Update (PID_Reset usedPID) 25 25).2.differentiator = -50 / 3 ∧
      (PID_Update (PID_Reset usedPID) 25 25).2.differentiator ≠ 0 ∧
      (PID_Update (PID_Init 2 1 1 1 0 100 (-10) 10 1) 25 25).2.differentiator ≠ 0 :=
  have h := C40_first_derivative_after_reset usedPID 2 1 1 1 0 100 (-10) 10 1 25 25
    (by decide) (by decide) (by decide) (by decide)
  ⟨by rw [h.1]; decide!, h.2.2.1 (by decide!), h.2.2.2 (by decide!)⟩
